import Mathlib

/-!
MYNT-EYE-D SDK: capture / synthesis / IMU compensation pipeline.

A shallow embedding of the parts of `camera_p.cc` and `types.h` that decide the
pipeline properties: the frame synthesizer (`SyntheticImageColor`,
`OldSyntheticImageColor`, `SyntheticImageDepth`), the retrieval operations, the
IMU compensation (`TempCompensate`, `ScaleAssemCompensate`, `ImuDataCallback`)
and `Extrinsics::Inverse`.

Conventions.
* `std::vector` is a `List`, `push_back` appends at the end, `clear` is `[]`.
* A `std::shared_ptr` that may be null is an `Option`.
* The locks are not modelled: every operation below runs as one atomic step,
  which is what holding its mutex for the whole body gives.
* `double` values are exact rationals.
* `Image` (image.h) is not part of the sources at hand: its operations are the
  parameter `ImageApi`.
-/

namespace MyntEye

/-! ## Data model (types.h) -/

/-- ErrorCode, types.h:29. -/
inductive ErrorCode where
  | SUCCESS
  | ERROR_FAILURE
  | ERROR_FILE_OPEN_FAILED
  | ERROR_CAMERA_OPEN_FAILED
  | ERROR_CAMERA_NOT_OPENED
  | ERROR_CAMERA_RETRIEVE_FAILED
  | ERROR_IMU_OPEN_FAILED
  | ERROR_IMU_RECV_TIMEOUT
  | ERROR_IMU_DATA_ERROR
  | ERROR_CODE_LAST
  deriving DecidableEq, Repr

/-- ImageType, types.h:59. -/
inductive ImageType where
  | IMAGE_LEFT_COLOR
  | IMAGE_RIGHT_COLOR
  | IMAGE_DEPTH
  | ALL
  deriving DecidableEq, Repr

/-- ProcessMode, types.h:168. -/
inductive ProcessMode where
  | ASSEMBLY
  | WARM_DRIFT
  | ALL
  deriving DecidableEq, Repr

/-- ImgInfo, types.h:240: `frame_id` is a uint16, `timestamp` a uint32,
`exposure_time` a uint16.  Only comparisons and copies are made of them. -/
structure ImgInfo where
  frame_id : Nat
  timestamp : Nat
  exposure_time : Nat
  deriving DecidableEq, Repr

/-- The operations of `Image` that the synthesizer calls.  The class itself
(image.h) is outside the sources, so the operations are a parameter. -/
structure ImageApi (Img : Type) where
  frame_id : Img → Nat
  Clone : Img → Img
  CutPart : ImageType → Img → Img

/-- StreamData (`stream_data_t`): an image pointer and an image-info pointer,
both null in a default-constructed value. -/
structure StreamData (Img : Type) where
  img : Option Img
  img_info : Option ImgInfo
  deriving DecidableEq, Repr

/-- ImuData, types.h:276.  `accel` and `gyro` are `double[3]`. -/
@[ext]
structure ImuData where
  flag : Nat
  timestamp : Nat
  temperature : ℚ
  accel : Fin 3 → ℚ
  gyro : Fin 3 → ℚ

/-- ImuIntrinsics, types.h:313.  `x`, `y`, `z` are the warm-drift pairs:
index 0 is the constant value, index 1 the slope. -/
structure ImuIntrinsics where
  scale : Fin 3 → Fin 3 → ℚ
  assembly : Fin 3 → Fin 3 → ℚ
  drift : Fin 3 → ℚ
  noise : Fin 3 → ℚ
  bias : Fin 3 → ℚ
  x : Fin 2 → ℚ
  y : Fin 2 → ℚ
  z : Fin 2 → ℚ

/-- MotionIntrinsics, types.h:354. -/
structure MotionIntrinsics where
  accel : ImuIntrinsics
  gyro : ImuIntrinsics

/-- Extrinsics, types.h:366. -/
@[ext]
structure Extrinsics where
  rotation : Fin 3 → Fin 3 → ℚ
  translation : Fin 3 → ℚ

/-- One segment of an `ImuPacket` as `ImuDataCallback` reads it: the flag, the
raw temperature, the timestamp and the three raw axis readings. -/
structure ImuSegment where
  flag : Nat
  temperature : Int
  timestamp : Nat
  accel_or_gyro : Fin 3 → Int

/-- DepthMode, types.h:101. -/
inductive DepthMode where
  | DEPTH_RAW
  | DEPTH_GRAY
  | DEPTH_COLORFUL
  | DEPTH_MODE_LAST
  deriving DecidableEq, Repr

/-- StreamMode, types.h:112. -/
inductive StreamMode where
  | STREAM_1280x720
  | STREAM_2560x720
  | STREAM_1280x480
  | STREAM_640x480
  | STREAM_MODE_LAST
  deriving DecidableEq, Repr

/-- StreamFormat, types.h:124. -/
inductive StreamFormat where
  | STREAM_MJPG
  | STREAM_YUYV
  | STREAM_FORMAT_LAST
  deriving DecidableEq, Repr

/-- InitParams, init_params.h:28. -/
structure InitParams where
  dev_index : Int
  framerate : Int
  depth_mode : DepthMode
  stream_mode : StreamMode
  color_stream_format : StreamFormat
  depth_stream_format : StreamFormat
  state_ae : Bool
  state_awb : Bool
  ir_intensity : Nat
  deriving DecidableEq, Repr

/-- One entry of a device resolution list, with the three fields of the vendor
record that `GetResolutionIndex` reads. -/
structure ETRONDI_STREAM_INFO where
  nWidth : Int
  nHeight : Int
  bFormatMJPG : Bool
  deriving DecidableEq, Repr

/-- What the device boundary answers while `Open` runs: the two 64-entry
resolution lists written by `EtronDI_GetDeviceResolutionList`, whether
`EtronDI_OpenDevice2` returns `ETronDI_OK`, and whether
`channels_->StartHidTracking()` succeeds. -/
structure DeviceReply where
  color_table : Fin 64 → ETRONDI_STREAM_INFO
  depth_table : Fin 64 → ETRONDI_STREAM_INFO
  open_ok : Bool
  hid_ok : Bool

/-- The members of `CameraPrivate` that the pipeline reads and writes. -/
structure Camera (Img : Type) where
  /-- `dev_sel_info_.index`; -1 means not opened. -/
  dev_sel_info_index : Int
  /-- `is_enable_image_[ImageType::IMAGE_RIGHT_COLOR]`. -/
  is_enable_right : Bool
  image_color_ : List Img
  image_depth_ : List Img
  /-- `img_info_`: each element wraps one (non-null) `ImgInfo`. -/
  img_info_ : List ImgInfo
  cache_image_info_ : List ImgInfo
  left_color_data_ : List (StreamData Img)
  right_color_data_ : List (StreamData Img)
  depth_data_ : List (StreamData Img)
  is_process_mode_ : ProcessMode → Bool
  motion_intrinsics_ : Option MotionIntrinsics
  motion_count_ : Nat
  cache_imu_data_ : List ImuData
  imu_data_ : List ImuData
  is_imu_open_ : Bool
  is_hid_exist_ : Bool
  is_capture_image_ : Bool
  is_synthetic_image_ : Bool
  /-- `cap_image_thread_.joinable()`. -/
  cap_image_thread_joinable : Bool
  /-- `sync_thread_.joinable()`. -/
  sync_thread_joinable : Bool
  /-- `is_enable_image_[ImageType::IMAGE_LEFT_COLOR]`. -/
  is_enable_left : Bool
  /-- `is_enable_image_[ImageType::IMAGE_DEPTH]`. -/
  is_enable_depth : Bool
  stream_mode_ : StreamMode
  framerate_ : Int
  depth_mode_ : DepthMode
  stream_info_dev_index_ : Int
  color_res_index_ : Int
  depth_res_index_ : Int

section Synthesis

variable {Img : Type}

/-! ## Frame synthesizer (camera_p.cc:633-740) -/

/-- CameraPrivate::CutPart, camera_p.cc:703. -/
def CutPart (api : ImageApi Img) (type : ImageType) (color : Img) (info : ImgInfo)
    (s : Camera Img) : Camera Img :=
  if type = ImageType.IMAGE_LEFT_COLOR then
    { s with left_color_data_ := s.left_color_data_ ++
        [{ img := some (api.CutPart ImageType.IMAGE_LEFT_COLOR color), img_info := some info }] }
  else if type = ImageType.IMAGE_RIGHT_COLOR then
    { s with right_color_data_ := s.right_color_data_ ++
        [{ img := some (api.CutPart ImageType.IMAGE_RIGHT_COLOR color), img_info := some info }] }
  else s

/-- CameraPrivate::TransferColor, camera_p.cc:678. -/
def TransferColor (api : ImageApi Img) (color : Img) (info : ImgInfo)
    (s : Camera Img) : Camera Img :=
  if !s.is_enable_right then
    { s with left_color_data_ := s.left_color_data_ ++
        [{ img := some (api.Clone color), img_info := some info }] }
  else
    CutPart api ImageType.IMAGE_RIGHT_COLOR color info
      (CutPart api ImageType.IMAGE_LEFT_COLOR color info s)

/-- CameraPrivate::OldCutPart, camera_p.cc:717. -/
def OldCutPart (api : ImageApi Img) (type : ImageType) (color : Img)
    (s : Camera Img) : Camera Img :=
  if type = ImageType.IMAGE_LEFT_COLOR then
    { s with left_color_data_ := s.left_color_data_ ++
        [{ img := some (api.CutPart ImageType.IMAGE_LEFT_COLOR color), img_info := none }] }
  else if type = ImageType.IMAGE_RIGHT_COLOR then
    { s with right_color_data_ := s.right_color_data_ ++
        [{ img := some (api.CutPart ImageType.IMAGE_RIGHT_COLOR color), img_info := none }] }
  else s

/-- CameraPrivate::OldTransferColor, camera_p.cc:691. -/
def OldTransferColor (api : ImageApi Img) (color : Img) (s : Camera Img) : Camera Img :=
  if !s.is_enable_right then
    { s with left_color_data_ := s.left_color_data_ ++
        [{ img := some (api.Clone color), img_info := none }] }
  else
    OldCutPart api ImageType.IMAGE_RIGHT_COLOR color
      (OldCutPart api ImageType.IMAGE_LEFT_COLOR color s)

/-- The three cap checks after a push, camera_p.cc:655-657.  The third one
clears `img_info_` while the enclosing range-for is iterating over it; the
iterators of that loop are invalid from then on, so the cycle has no defined
result (`none`). -/
def capAfterTransfer (s : Camera Img) : Option (Camera Img) :=
  let s1 := if s.left_color_data_.length > 30 then { s with left_color_data_ := [] } else s
  let s2 := if s1.right_color_data_.length > 30 then { s1 with right_color_data_ := [] } else s1
  if s2.img_info_.length > 30 then none else some s2

/-- Body of the inner loop of SyntheticImageColor, camera_p.cc:653-658. -/
def matchInfo (api : ImageApi Img) (color : Img) (s : Camera Img) (info : ImgInfo) :
    Option (Camera Img) :=
  if api.frame_id color = info.frame_id then
    capAfterTransfer (TransferColor api color info s)
  else some s

/-- Inner loop of SyntheticImageColor, camera_p.cc:652: all of `img_info_`
for one staged frame. -/
def matchColor (api : ImageApi Img) (s : Camera Img) (color : Img) : Option (Camera Img) :=
  s.img_info_.foldlM (matchInfo api color) s

/-- CameraPrivate::SyntheticImageColor, camera_p.cc:633, one cycle after the
wait.  The result is `none` where the C++ has no defined behaviour (see
`capAfterTransfer`). -/
def SyntheticImageColor (api : ImageApi Img) (s : Camera Img) : Option (Camera Img) :=
  match s.image_color_.head?, s.image_color_.getLast?, s.img_info_.head?,
      s.img_info_.getLast? with
  | some cfront, some cback, some ifront, some iback =>
    if api.frame_id cfront > iback.frame_id then
      let s1 := if s.image_color_.length > 5 then { s with image_color_ := [] } else s
      some { s1 with img_info_ := [] }
    else if api.frame_id cback < ifront.frame_id then
      let s1 := if s.img_info_.length > 5 then { s with img_info_ := [] } else s
      some { s1 with image_color_ := [] }
    else
      (s.image_color_.foldlM (matchColor api) s).map
        (fun s1 => { s1 with image_color_ := [], img_info_ := [] })
  | _, _, _, _ => some s

/-- One iteration of the loop of OldSyntheticImageColor, camera_p.cc:671-673. -/
def oldStep (api : ImageApi Img) (s : Camera Img) (color : Img) : Camera Img :=
  let s0 := OldTransferColor api color s
  let s1 := if s0.left_color_data_.length > 30 then { s0 with left_color_data_ := [] } else s0
  if s1.right_color_data_.length > 30 then { s1 with right_color_data_ := [] } else s1

/-- CameraPrivate::OldSyntheticImageColor, camera_p.cc:665, one cycle after
the wait. -/
def OldSyntheticImageColor (api : ImageApi Img) (s : Camera Img) : Camera Img :=
  if s.image_color_.isEmpty then s
  else { s.image_color_.foldl (oldStep api) s with image_color_ := [] }

/-- One iteration of the loop of SyntheticImageDepth, camera_p.cc:733-737. -/
def depthStep (api : ImageApi Img) (s : Camera Img) (depth : Img) : Camera Img :=
  let s0 := { s with depth_data_ := s.depth_data_ ++
    [{ img := some (api.Clone depth), img_info := none }] }
  if s0.depth_data_.length > 30 then { s0 with depth_data_ := [] } else s0

/-- CameraPrivate::SyntheticImageDepth, camera_p.cc:729, one cycle after the
wait. -/
def SyntheticImageDepth (api : ImageApi Img) (s : Camera Img) : Camera Img :=
  { s.image_depth_.foldl (depthStep api) s with image_depth_ := [] }

/-! ## Producers and retrieval (camera_p.cc:536-631, 881-894) -/

/-- CameraPrivate::IsOpened, camera_p.cc:536. -/
def IsOpened (s : Camera Img) : Bool :=
  s.dev_sel_info_index != -1

/-- CameraPrivate::CaptureImageColor, camera_p.cc:613.  `p` is what the
hardware accessor `RetrieveImageColor` hands back (null when no new frame). -/
def CaptureImageColor (api : ImageApi Img) (p : Option Img) (s : Camera Img) : Camera Img :=
  match p with
  | some f => { s with image_color_ := s.image_color_ ++ [api.Clone f] }
  | none => s

/-- CameraPrivate::CaptureImageDepth, camera_p.cc:623. -/
def CaptureImageDepth (api : ImageApi Img) (p : Option Img) (s : Camera Img) : Camera Img :=
  match p with
  | some f => { s with image_depth_ := s.image_depth_ ++ [api.Clone f] }
  | none => s

/-- CameraPrivate::ImageInfoCallback, camera_p.cc:881.  The packet carries the
three fields copied into the new `ImgInfo`. -/
def ImageInfoCallback (packet : ImgInfo) (s : Camera Img) : Camera Img :=
  let img_info : ImgInfo :=
    { frame_id := packet.frame_id, timestamp := packet.timestamp,
      exposure_time := packet.exposure_time }
  let cache := s.cache_image_info_ ++ [img_info]
  { s with img_info_ := s.img_info_ ++ cache, cache_image_info_ := [] }

/-- CameraPrivate::RetrieveImage, camera_p.cc:544.  `code` is the value behind
the `code` pointer on entry; the result carries the returned vector, the value
behind the pointer on exit and the new state.  A thrown `runtime_error` is
`Except.error` with its message. -/
def RetrieveImage (type : ImageType) (code : ErrorCode) (s : Camera Img) :
    Except String (List (StreamData Img) × ErrorCode × Camera Img) :=
  if !IsOpened s then
    Except.ok ([], ErrorCode.ERROR_CAMERA_NOT_OPENED, s)
  else
    match type with
    | ImageType.IMAGE_LEFT_COLOR =>
      Except.ok (s.left_color_data_, code, { s with left_color_data_ := [] })
    | ImageType.IMAGE_RIGHT_COLOR =>
      if !s.is_enable_right then
        Except.error "RetrieveImage: Right color is disable."
      else
        Except.ok (s.right_color_data_, code, { s with right_color_data_ := [] })
    | ImageType.IMAGE_DEPTH =>
      Except.ok (s.depth_data_, code, { s with depth_data_ := [] })
    | ImageType.ALL => Except.error "RetrieveImage: ImageType is unknown"

/-- The value of a default-constructed `stream_data_t`. -/
def emptyStreamData : StreamData Img :=
  { img := none, img_info := none }

/-- CameraPrivate::RetrieveLatestImage, camera_p.cc:579. -/
def RetrieveLatestImage (type : ImageType) (code : ErrorCode) (s : Camera Img) :
    Except String (StreamData Img × ErrorCode × Camera Img) :=
  if !IsOpened s then
    Except.ok (emptyStreamData, ErrorCode.ERROR_CAMERA_NOT_OPENED, s)
  else
    match type with
    | ImageType.IMAGE_LEFT_COLOR =>
      match s.left_color_data_.getLast? with
      | none => Except.ok (emptyStreamData, code, s)
      | some data => Except.ok (data, code, { s with left_color_data_ := [] })
    | ImageType.IMAGE_RIGHT_COLOR =>
      match s.right_color_data_.getLast? with
      | none => Except.ok (emptyStreamData, code, s)
      | some data => Except.ok (data, code, { s with right_color_data_ := [] })
    | ImageType.IMAGE_DEPTH =>
      match s.depth_data_.getLast? with
      | none => Except.ok (emptyStreamData, code, s)
      | some data => Except.ok (data, code, { s with depth_data_ := [] })
    | ImageType.ALL => Except.error "RetrieveImage: ImageType is unknown"

/-- The operations on the image side of a camera: the synthesis cycles of the
synthesis thread, the producers and the two retrievals. -/
inductive ImageOp (Img : Type) where
  | synthColor
  | oldSynthColor
  | synthDepth
  | captureColor (p : Option Img)
  | captureDepth (p : Option Img)
  | imageInfo (packet : ImgInfo)
  | retrieve (type : ImageType) (code : ErrorCode)
  | retrieveLatest (type : ImageType) (code : ErrorCode)

/-- The state after one operation.  A retrieval that throws leaves the state as
it was; `none` only where `SyntheticImageColor` has no defined result. -/
def ImageOp.step (api : ImageApi Img) (op : ImageOp Img) (s : Camera Img) :
    Option (Camera Img) :=
  match op with
  | ImageOp.synthColor => SyntheticImageColor api s
  | ImageOp.oldSynthColor => some (OldSyntheticImageColor api s)
  | ImageOp.synthDepth => some (SyntheticImageDepth api s)
  | ImageOp.captureColor p => some (CaptureImageColor api p s)
  | ImageOp.captureDepth p => some (CaptureImageDepth api p s)
  | ImageOp.imageInfo packet => some (ImageInfoCallback packet s)
  | ImageOp.retrieve type code =>
    match RetrieveImage type code s with
    | Except.ok r => some r.2.2
    | Except.error _ => some s
  | ImageOp.retrieveLatest type code =>
    match RetrieveLatestImage type code s with
    | Except.ok r => some r.2.2
    | Except.error _ => some s

/-- A run of operations, left to right. -/
def runOps (api : ImageApi Img) (ops : List (ImageOp Img)) (s : Camera Img) :
    Option (Camera Img) :=
  ops.foldlM (fun st op => op.step api st) s

/-- Each of the three result queues holds at most 30 samples. -/
def QueuesBounded (s : Camera Img) : Prop :=
  s.left_color_data_.length ≤ 30 ∧ s.right_color_data_.length ≤ 30 ∧
    s.depth_data_.length ≤ 30

/-- The part of the state the matching loop keeps: the caps on the two colour
queues, the depth queue and the metadata list of the state `s`. -/
def MatchInv (s : Camera Img) (t : Camera Img) : Prop :=
  t.left_color_data_.length ≤ 30 ∧ t.right_color_data_.length ≤ 30 ∧
    t.depth_data_ = s.depth_data_ ∧ t.img_info_ = s.img_info_

/-- The part of the state the depth loop keeps: the two colour queues of `s`
and the cap on the depth queue. -/
def DepthInv (s : Camera Img) (t : Camera Img) : Prop :=
  t.left_color_data_ = s.left_color_data_ ∧ t.right_color_data_ = s.right_color_data_ ∧
    t.depth_data_.length ≤ 30

/-- The left sample a match of frame `color` with record `info` pushes: the
clone of the frame when the right stream is disabled, its left cut otherwise,
with a copy of the record. -/
def leftSample (api : ImageApi Img) (right : Bool) (color : Img) (info : ImgInfo) :
    StreamData Img :=
  { img := some (if right then api.CutPart ImageType.IMAGE_LEFT_COLOR color
                 else api.Clone color),
    img_info := some info }

/-- The right sample a match of frame `color` with record `info` pushes when
the right stream is enabled. -/
def rightSample (api : ImageApi Img) (color : Img) (info : ImgInfo) : StreamData Img :=
  { img := some (api.CutPart ImageType.IMAGE_RIGHT_COLOR color), img_info := some info }

/-- The (staged frame, metadata record) pairs with equal frame id, frame-major
and in metadata order within one frame. -/
def matchedPairs (api : ImageApi Img) (frames : List Img) (infos : List ImgInfo) :
    List (Img × ImgInfo) :=
  frames.flatMap (fun c =>
    (infos.filter (fun i => decide (api.frame_id c = i.frame_id))).map (fun i => (c, i)))

/-- The state `t` with `ls` appended to the left queue and `rs` to the right
queue. -/
def addSamples (t : Camera Img) (ls rs : List (StreamData Img)) : Camera Img :=
  { t with left_color_data_ := t.left_color_data_ ++ ls,
           right_color_data_ := t.right_color_data_ ++ rs }

/-- Every sample of the colour queues of `t` is either a sample of the same
queue of `s` or was built from a staged frame of `s` and a metadata record of
`s` with the same frame id. -/
def SoundInv (api : ImageApi Img) (s : Camera Img) (t : Camera Img) : Prop :=
  (∀ x ∈ t.left_color_data_, x ∈ s.left_color_data_ ∨
    ∃ c ∈ s.image_color_, ∃ i ∈ s.img_info_, api.frame_id c = i.frame_id ∧
      x = leftSample api s.is_enable_right c i) ∧
  (∀ x ∈ t.right_color_data_, x ∈ s.right_color_data_ ∨
    ∃ c ∈ s.image_color_, ∃ i ∈ s.img_info_, api.frame_id c = i.frame_id ∧
      x = rightSample api c i) ∧
  t.is_enable_right = s.is_enable_right ∧ t.img_info_ = s.img_info_

/-- The sample SyntheticImageDepth pushes for one staged depth frame. -/
def depthSample (api : ImageApi Img) (depth : Img) : StreamData Img :=
  { img := some (api.Clone depth), img_info := none }

/-- The result queue that serves an image type (none for `ImageType::ALL`). -/
def resultQueue (type : ImageType) (s : Camera Img) : List (StreamData Img) :=
  match type with
  | ImageType.IMAGE_LEFT_COLOR => s.left_color_data_
  | ImageType.IMAGE_RIGHT_COLOR => s.right_color_data_
  | ImageType.IMAGE_DEPTH => s.depth_data_
  | ImageType.ALL => []

/-- The state with the result queue of an image type emptied and nothing else
changed. -/
def clearQueue (type : ImageType) (s : Camera Img) : Camera Img :=
  match type with
  | ImageType.IMAGE_LEFT_COLOR => { s with left_color_data_ := [] }
  | ImageType.IMAGE_RIGHT_COLOR => { s with right_color_data_ := [] }
  | ImageType.IMAGE_DEPTH => { s with depth_data_ := [] }
  | ImageType.ALL => s

/-! ## Capture and synthesis threads, shutdown (camera_p.cc:131-143, 742-811)

A `std::thread` member is modelled by whether it is joinable.  Both thread
bodies loop on `while (is_capture_image_)` (camera_p.cc:746, 770), so a join
returns only once that flag is false; `join` on a thread that is not joinable
throws `std::system_error`.  The device and HID calls of `Close` and of the
destructor act on nothing modelled here. -/

/-- How a call that joins a thread ends: it returns, it throws, or it waits
for ever for a thread that does not end. -/
inductive Outcome (α : Type) where
  | returned (a : α)
  | thrown (what : String)
  | blocked

/-- The call `std::thread::join` on a thread whose joinable state is `joinable`
and whose body is `while (looping) { ... }`: a thread that is not joinable
throws `std::system_error`; otherwise the call returns the new joinable state
once the loop has ended, and does not return while the loop condition holds. -/
def threadJoin (joinable : Bool) (looping : Bool) : Outcome Bool :=
  if !joinable then Outcome.thrown "std::system_error: Invalid argument"
  else if looping then Outcome.blocked
  else Outcome.returned false

/-- CameraPrivate::StartCaptureImage, camera_p.cc:742.  The thread member is
assigned a new thread, which leaves it joinable. -/
def StartCaptureImage (s : Camera Img) : Camera Img :=
  { s with is_capture_image_ := true, cap_image_thread_joinable := true }

/-- CameraPrivate::StopCaptureImage, camera_p.cc:760.  The flag is cleared
before the join, so the capture loop ends. -/
def StopCaptureImage (s : Camera Img) : Outcome (Camera Img) :=
  let s1 := { s with is_capture_image_ := false }
  match threadJoin s1.cap_image_thread_joinable s1.is_capture_image_ with
  | Outcome.returned j => Outcome.returned { s1 with cap_image_thread_joinable := j }
  | Outcome.thrown e => Outcome.thrown e
  | Outcome.blocked => Outcome.blocked

/-- CameraPrivate::StartSyntheticImage, camera_p.cc:767.  The thread member is
assigned a new thread, which leaves it joinable. -/
def StartSyntheticImage (s : Camera Img) : Camera Img :=
  { s with is_synthetic_image_ := true, sync_thread_joinable := true }

/-- CameraPrivate::StopSyntheticImage, camera_p.cc:788.  It clears
`is_synthetic_image_`, but the synthesis loop tests `is_capture_image_`
(camera_p.cc:770), which it leaves as it is. -/
def StopSyntheticImage (s : Camera Img) : Outcome (Camera Img) :=
  let s1 := { s with is_synthetic_image_ := false }
  match threadJoin s1.sync_thread_joinable s1.is_capture_image_ with
  | Outcome.returned j => Outcome.returned { s1 with sync_thread_joinable := j }
  | Outcome.thrown e => Outcome.thrown e
  | Outcome.blocked => Outcome.blocked

/-- CameraPrivate::Close, camera_p.cc:801. -/
def Close (s : Camera Img) : Outcome (Camera Img) :=
  if s.dev_sel_info_index != -1 then
    match StopCaptureImage s with
    | Outcome.thrown e => Outcome.thrown e
    | Outcome.blocked => Outcome.blocked
    | Outcome.returned s1 =>
      match StopSyntheticImage s1 with
      | Outcome.thrown e => Outcome.thrown e
      | Outcome.blocked => Outcome.blocked
      | Outcome.returned s2 => Outcome.returned { s2 with dev_sel_info_index := -1 }
  else Outcome.returned s

/-- The destructor of CameraPrivate, camera_p.cc:131. -/
def destroyCameraPrivate (s : Camera Img) : Outcome (Camera Img) :=
  if s.is_capture_image_ then
    match StopCaptureImage s with
    | Outcome.thrown e => Outcome.thrown e
    | Outcome.blocked => Outcome.blocked
    | Outcome.returned s1 => Close s1
  else Close s

/-! ## Opening the camera (camera_p.cc:31-67, 240-321, 405-534, 1136-1156) -/

/-- CameraPrivate::EnableImageType, camera_p.cc:1136. -/
def EnableImageType (type : ImageType) (s : Camera Img) : Camera Img :=
  match type with
  | ImageType.IMAGE_LEFT_COLOR => { s with is_enable_left := true }
  | ImageType.IMAGE_RIGHT_COLOR =>
    { s with is_enable_right := true, stream_mode_ := StreamMode.STREAM_2560x720 }
  | ImageType.IMAGE_DEPTH => { s with is_enable_depth := true }
  | ImageType.ALL =>
    let s1 := { s with is_enable_left := true }
    let s2 := { s1 with is_enable_right := true, stream_mode_ := StreamMode.STREAM_2560x720 }
    { s2 with is_enable_depth := true }

/-- The function get_stream_size, camera_p.cc:31: width and height, or the
thrown `runtime_error`. -/
def get_stream_size (stream_mode : StreamMode) : Except String (Int × Int) :=
  match stream_mode with
  | StreamMode.STREAM_1280x480 => Except.ok (1280, 480)
  | StreamMode.STREAM_1280x720 => Except.ok (1280, 720)
  | StreamMode.STREAM_2560x720 => Except.ok (2560, 720)
  | StreamMode.STREAM_640x480 => Except.ok (640, 480)
  | StreamMode.STREAM_MODE_LAST => Except.error "StreamMode is unknown"

/-- The function get_stream_format_string, camera_p.cc:58. -/
def get_stream_format_string (stream_format : StreamFormat) : Except String String :=
  match stream_format with
  | StreamFormat.STREAM_MJPG => Except.ok "MJPG"
  | StreamFormat.STREAM_YUYV => Except.ok "YUYV"
  | StreamFormat.STREAM_FORMAT_LAST => Except.error "StreamFormat is unknown"

/-- The format an entry stands for: `bFormatMJPG ? STREAM_MJPG : STREAM_YUYV`. -/
def entryFormat (e : ETRONDI_STREAM_INFO) : StreamFormat :=
  if e.bFormatMJPG then StreamFormat.STREAM_MJPG else StreamFormat.STREAM_YUYV

/-- The search loops of GetResolutionIndex, camera_p.cc:280-292 and 301-312:
`while (i < 64)`, leaving at the first entry that satisfies the test with its
index and running out with the initial -1.  `fuel` bounds the number of
iterations; the loop is entered with 64 and `i = 0`. -/
def searchLoop (test : ETRONDI_STREAM_INFO → Bool) (table : Fin 64 → ETRONDI_STREAM_INFO) :
    Nat → Nat → Int
  | 0, _ => -1
  | fuel + 1, i =>
    if h : i < 64 then
      if test (table ⟨i, h⟩) then (i : Int)
      else searchLoop test table fuel (i + 1)
    else -1

/-- The test of the colour loop, camera_p.cc:281-284. -/
def colorTest (width height : Int) (color_stream_format : StreamFormat)
    (e : ETRONDI_STREAM_INFO) : Bool :=
  e.nWidth == width && e.nHeight == height && color_stream_format == entryFormat e

/-- The test of the depth loop, camera_p.cc:302-304: the width is not compared. -/
def depthTest (height : Int) (depth_stream_format : StreamFormat)
    (e : ETRONDI_STREAM_INFO) : Bool :=
  e.nHeight == height && depth_stream_format == entryFormat e

/-- CameraPrivate::GetResolutionIndex, camera_p.cc:249, with non-null result
pointers: the values left in `*color_res_index` and `*depth_res_index`, or the
exception thrown by `get_stream_size` or by `get_stream_format_string` (which
is called for the log line when no entry matches). -/
def GetResolutionIndex (dev : DeviceReply) (s : Camera Img) (stream_mode : StreamMode)
    (color_stream_format depth_stream_format : StreamFormat) : Except String (Int × Int) :=
  match (if s.is_enable_right then get_stream_size s.stream_mode_
         else get_stream_size stream_mode) with
  | Except.error e => Except.error e
  | Except.ok (width, height) =>
    let color := searchLoop (colorTest width height color_stream_format) dev.color_table 64 0
    match (if color = -1 then (get_stream_format_string color_stream_format).map (fun _ => 0)
           else Except.ok color) with
    | Except.error e => Except.error e
    | Except.ok color_res_index =>
      let depth := searchLoop (depthTest height depth_stream_format) dev.depth_table 64 0
      match (if depth = -1 then
               (get_stream_format_string depth_stream_format).map (fun _ => 0)
             else Except.ok depth) with
      | Except.error e => Except.error e
      | Except.ok depth_res_index => Except.ok (color_res_index, depth_res_index)

/-- CameraPrivate::StartHidTracking, camera_p.cc:822. -/
def StartHidTracking (dev : DeviceReply) (s : Camera Img) : Bool × Camera Img :=
  if !dev.hid_ok then (false, s)
  else (true, { s with is_imu_open_ := true })

/-- The part of CameraPrivate::Open between the frame-rate check and the call
of GetResolutionIndex, camera_p.cc:416-452: the device index, the frame rate,
the depth mode and the device whose resolution lists were read last.  The calls
that only configure the device (depth data type, exposure, white balance) act
on nothing modelled here. -/
def openConfigure (params : InitParams) (s : Camera Img) : Camera Img :=
  let s1 := { s with dev_sel_info_index := params.dev_index }
  let s2 := if params.framerate > 0 then { s1 with framerate_ := params.framerate } else s1
  let s3 := { s2 with depth_mode_ := params.depth_mode }
  if params.dev_index != s3.stream_info_dev_index_ then
    { s3 with stream_info_dev_index_ := params.dev_index }
  else s3

/-- The part of CameraPrivate::Open after the device was asked to open,
camera_p.cc:514-533. -/
def openDevice (dev : DeviceReply) (s : Camera Img) : ErrorCode × Camera Img :=
  if dev.open_ok then
    if s.is_hid_exist_ then
      match StartHidTracking dev s with
      | (false, s1) => (ErrorCode.ERROR_IMU_OPEN_FAILED, s1)
      | (true, s1) => (ErrorCode.SUCCESS, StartSyntheticImage (StartCaptureImage s1))
    else
      (ErrorCode.SUCCESS, StartSyntheticImage (StartCaptureImage s))
  else
    (ErrorCode.ERROR_CAMERA_OPEN_FAILED, { s with dev_sel_info_index := -1 })

/-- CameraPrivate::Open, camera_p.cc:405 (the Linux branch): the returned code
and the new state, or the exception thrown inside GetResolutionIndex. -/
def Open (dev : DeviceReply) (params : InitParams) (s : Camera Img) :
    Except String (ErrorCode × Camera Img) :=
  if s.stream_mode_ = StreamMode.STREAM_2560x720 ∧ params.framerate > 30 then
    Except.ok (ErrorCode.ERROR_FAILURE, s)
  else if params.framerate > 60 then
    Except.ok (ErrorCode.ERROR_FAILURE, s)
  else
    match GetResolutionIndex dev (openConfigure params s) params.stream_mode
        params.color_stream_format params.depth_stream_format with
    | Except.error e => Except.error e
    | Except.ok (color, depth) =>
      Except.ok (openDevice dev
        { openConfigure params s with color_res_index_ := color, depth_res_index_ := depth })

/-- The index `k` is the least index of the table whose entry passes the test. -/
def IsLeastMatch (test : ETRONDI_STREAM_INFO → Bool) (table : Fin 64 → ETRONDI_STREAM_INFO)
    (k : Fin 64) : Prop :=
  test (table k) = true ∧ ∀ j : Fin 64, j < k → test (table j) = false

/-- The left sample OldTransferColor pushes for a staged frame: its clone when
the right stream is disabled, its left cut otherwise, with no metadata. -/
def oldLeftSample (api : ImageApi Img) (right : Bool) (color : Img) : StreamData Img :=
  { img := some (if right then api.CutPart ImageType.IMAGE_LEFT_COLOR color
                 else api.Clone color),
    img_info := none }

/-- The right sample OldTransferColor pushes for a staged frame when the right
stream is enabled. -/
def oldRightSample (api : ImageApi Img) (color : Img) : StreamData Img :=
  { img := some (api.CutPart ImageType.IMAGE_RIGHT_COLOR color), img_info := none }

end Synthesis

/-! ## Locking discipline (camera_p.cc:544-740, 835-904)

Each routine is reduced to the order in which it locks and unlocks the mutexes
and touches the lists shared between threads.  A `lock_guard` or `unique_lock`
is a `lock` where it is declared and an `unlock` at the end of its scope;
`wait_for` on a condition variable unlocks and locks again. -/

/-- The mutexes of `CameraPrivate`. -/
inductive Mutex where
  | cap_color_mtx_
  | cap_depth_mtx_
  | mtx_img_info_
  | mtx_imu_
  deriving DecidableEq, Repr

/-- The lists shared between the capture, synthesis, callback and application
threads. -/
inductive SharedList where
  | image_color_
  | image_depth_
  | img_info_
  | left_color_data_
  | right_color_data_
  | depth_data_
  | imu_data_
  deriving DecidableEq, Repr

/-- One step of a routine as far as locking goes. -/
inductive Action where
  | lock (m : Mutex)
  | unlock (m : Mutex)
  | access (l : SharedList)
  deriving DecidableEq, Repr

/-- The routines that run on some thread and touch a shared list. -/
inductive Routine where
  | CaptureImageColor
  | CaptureImageDepth
  | SyntheticImageColor
  | OldSyntheticImageColor
  | SyntheticImageDepth
  | RetrieveImage (type : ImageType)
  | RetrieveLatestImage (type : ImageType)
  | ImageInfoCallback
  | ImuDataCallback
  | GetImuDatas
  deriving DecidableEq, Repr

/-- The lock, unlock and access steps of each routine, in source order. -/
def Routine.body : Routine → List Action
  | Routine.CaptureImageColor =>
    [Action.lock Mutex.cap_color_mtx_, Action.access SharedList.image_color_,
     Action.unlock Mutex.cap_color_mtx_]
  | Routine.CaptureImageDepth =>
    [Action.lock Mutex.cap_depth_mtx_, Action.access SharedList.image_depth_,
     Action.unlock Mutex.cap_depth_mtx_]
  | Routine.SyntheticImageColor =>
    [Action.lock Mutex.cap_color_mtx_, Action.unlock Mutex.cap_color_mtx_,
     Action.lock Mutex.cap_color_mtx_, Action.access SharedList.image_color_,
     Action.access SharedList.img_info_, Action.access SharedList.left_color_data_,
     Action.access SharedList.right_color_data_, Action.access SharedList.img_info_,
     Action.access SharedList.image_color_, Action.access SharedList.img_info_,
     Action.unlock Mutex.cap_color_mtx_]
  | Routine.OldSyntheticImageColor =>
    [Action.lock Mutex.cap_color_mtx_, Action.unlock Mutex.cap_color_mtx_,
     Action.lock Mutex.cap_color_mtx_, Action.access SharedList.image_color_,
     Action.access SharedList.left_color_data_, Action.access SharedList.right_color_data_,
     Action.access SharedList.image_color_, Action.unlock Mutex.cap_color_mtx_]
  | Routine.SyntheticImageDepth =>
    [Action.lock Mutex.cap_depth_mtx_, Action.unlock Mutex.cap_depth_mtx_,
     Action.lock Mutex.cap_depth_mtx_, Action.access SharedList.image_depth_,
     Action.access SharedList.depth_data_, Action.access SharedList.image_depth_,
     Action.unlock Mutex.cap_depth_mtx_]
  | Routine.RetrieveImage ImageType.IMAGE_LEFT_COLOR
  | Routine.RetrieveLatestImage ImageType.IMAGE_LEFT_COLOR =>
    [Action.lock Mutex.cap_color_mtx_, Action.access SharedList.left_color_data_,
     Action.unlock Mutex.cap_color_mtx_]
  | Routine.RetrieveImage ImageType.IMAGE_RIGHT_COLOR
  | Routine.RetrieveLatestImage ImageType.IMAGE_RIGHT_COLOR =>
    [Action.lock Mutex.cap_color_mtx_, Action.access SharedList.right_color_data_,
     Action.unlock Mutex.cap_color_mtx_]
  | Routine.RetrieveImage ImageType.IMAGE_DEPTH
  | Routine.RetrieveLatestImage ImageType.IMAGE_DEPTH =>
    [Action.lock Mutex.cap_depth_mtx_, Action.access SharedList.depth_data_,
     Action.unlock Mutex.cap_depth_mtx_]
  | Routine.RetrieveImage ImageType.ALL
  | Routine.RetrieveLatestImage ImageType.ALL => []
  | Routine.ImageInfoCallback =>
    [Action.lock Mutex.mtx_img_info_, Action.access SharedList.img_info_,
     Action.unlock Mutex.mtx_img_info_]
  | Routine.ImuDataCallback =>
    [Action.lock Mutex.mtx_imu_, Action.access SharedList.imu_data_,
     Action.unlock Mutex.mtx_imu_]
  | Routine.GetImuDatas =>
    [Action.lock Mutex.mtx_imu_, Action.access SharedList.imu_data_,
     Action.unlock Mutex.mtx_imu_]

/-- Every routine. -/
def allRoutines : List Routine :=
  [Routine.CaptureImageColor, Routine.CaptureImageDepth, Routine.SyntheticImageColor,
   Routine.OldSyntheticImageColor, Routine.SyntheticImageDepth,
   Routine.RetrieveImage ImageType.IMAGE_LEFT_COLOR,
   Routine.RetrieveImage ImageType.IMAGE_RIGHT_COLOR,
   Routine.RetrieveImage ImageType.IMAGE_DEPTH, Routine.RetrieveImage ImageType.ALL,
   Routine.RetrieveLatestImage ImageType.IMAGE_LEFT_COLOR,
   Routine.RetrieveLatestImage ImageType.IMAGE_RIGHT_COLOR,
   Routine.RetrieveLatestImage ImageType.IMAGE_DEPTH,
   Routine.RetrieveLatestImage ImageType.ALL, Routine.ImageInfoCallback,
   Routine.ImuDataCallback, Routine.GetImuDatas]

/-- The accesses of a run of actions, each with the mutexes held when it
happens; `held` are the mutexes held on entry. -/
def locksets : List Mutex → List Action → List (SharedList × List Mutex)
  | _, [] => []
  | held, Action.lock m :: rest => locksets (m :: held) rest
  | held, Action.unlock m :: rest => locksets (held.erase m) rest
  | held, Action.access l :: rest => (l, held) :: locksets held rest

/-- Whether every access to the list `l`, in every routine, happens while the
mutex `m` is held. -/
def guardedBy (l : SharedList) (m : Mutex) : Bool :=
  allRoutines.all (fun r =>
    (locksets [] r.body).all (fun a => a.1 != l || a.2.contains m))

/-! ## IMU compensation (camera_p.cc:69-89, 835-879, 1273-1327) -/

/-- The function matrix_3x1, camera_p.cc:69: `dst[i][j] += src1[i][k] * src2[k][j]`
for i in 0..2, j in 0..0, k in 0..2, in that loop order. -/
def matrix_3x1 (src1 : Fin 3 → Fin 3 → ℚ) (src2 : Fin 3 → Fin 1 → ℚ)
    (dst : Fin 3 → Fin 1 → ℚ) : Fin 3 → Fin 1 → ℚ :=
  (List.finRange 3).foldl (fun d1 i =>
    (List.finRange 1).foldl (fun d2 j =>
      (List.finRange 3).foldl (fun d3 k =>
        Function.update d3 i (Function.update (d3 i) j (d3 i j + src1 i k * src2 k j)))
        d2) d1) dst

/-- The function matrix_3x3, camera_p.cc:80: `dst[i][j] += src1[i][k] * src2[k][j]`
for i, j, k in 0..2, in that loop order. -/
def matrix_3x3 (src1 : Fin 3 → Fin 3 → ℚ) (src2 : Fin 3 → Fin 3 → ℚ)
    (dst : Fin 3 → Fin 3 → ℚ) : Fin 3 → Fin 3 → ℚ :=
  (List.finRange 3).foldl (fun d1 i =>
    (List.finRange 3).foldl (fun d2 j =>
      (List.finRange 3).foldl (fun d3 k =>
        Function.update d3 i (Function.update (d3 i) j (d3 i j + src1 i k * src2 k j)))
        d2) d1) dst

/-- ImuData::Reset, types.h:296, as the value it leaves. -/
def ImuData.Reset : ImuData :=
  { flag := 0, timestamp := 0, temperature := 0, accel := fun _ => 0, gyro := fun _ => 0 }

/-- CameraPrivate::TempCompensate, camera_p.cc:1273; `intr` is
`motion_intrinsics_`. -/
def TempCompensate (intr : Option MotionIntrinsics) (data : ImuData) : ImuData :=
  match intr with
  | none => data
  | some m =>
    let temp := data.temperature
    if data.flag = 1 then
      { data with accel := ![data.accel 0 - (m.accel.x 1 * temp + m.accel.x 0),
                             data.accel 1 - (m.accel.y 1 * temp + m.accel.y 0),
                             data.accel 2 - (m.accel.z 1 * temp + m.accel.z 0)] }
    else if data.flag = 2 then
      { data with gyro := ![data.gyro 0 - (m.gyro.x 1 * temp + m.gyro.x 0),
                            data.gyro 1 - (m.gyro.y 1 * temp + m.gyro.y 0),
                            data.gyro 2 - (m.gyro.z 1 * temp + m.gyro.z 0)] }
    else data

/-- CameraPrivate::ScaleAssemCompensate, camera_p.cc:1296; `intr` is
`motion_intrinsics_`.  `dst`, `s` and `d` start zero-initialised. -/
def ScaleAssemCompensate (intr : Option MotionIntrinsics) (data : ImuData) : ImuData :=
  match intr with
  | none => data
  | some m =>
    let dst0 : Fin 3 → Fin 3 → ℚ := fun _ _ => 0
    if data.flag = 1 then
      let dst := matrix_3x3 m.accel.scale m.accel.assembly dst0
      let s : Fin 3 → Fin 1 → ℚ := fun i _ => data.accel i
      let d := matrix_3x1 dst s (fun _ _ => 0)
      { data with accel := fun i => d i 0 }
    else if data.flag = 2 then
      let dst := matrix_3x3 m.gyro.scale m.gyro.assembly dst0
      let s : Fin 3 → Fin 1 → ℚ := fun i _ => data.gyro i
      let d := matrix_3x1 dst s (fun _ _ => 0)
      { data with gyro := fun i => d i 0 }
    else data

/-- The converted, not yet compensated sample `ImuDataCallback` builds from one
segment, camera_p.cc:837-858. -/
def convertSegment (seg : ImuSegment) : ImuData :=
  let imu : ImuData :=
    { ImuData.Reset with
      flag := seg.flag, temperature := (seg.temperature : ℚ) * 0.125 + 23,
      timestamp := seg.timestamp }
  if imu.flag = 1 then
    { imu with accel := fun i => (seg.accel_or_gyro i : ℚ) * 12 / 65536,
               gyro := fun _ => 0 }
  else if imu.flag = 2 then
    { imu with accel := fun _ => 0,
               gyro := fun i => (seg.accel_or_gyro i : ℚ) * 2000 / 65536 }
  else ImuData.Reset

/-- The mode dispatch of `ImuDataCallback`, camera_p.cc:860-867. -/
def compensate (modes : ProcessMode → Bool) (intr : Option MotionIntrinsics)
    (imu : ImuData) : ImuData :=
  if modes ProcessMode.ASSEMBLY then
    ScaleAssemCompensate intr imu
  else if modes ProcessMode.WARM_DRIFT then
    TempCompensate intr imu
  else if modes ProcessMode.ALL then
    ScaleAssemCompensate intr (TempCompensate intr imu)
  else imu

section Imu

variable {Img : Type}

/-- The sample `ImuDataCallback` holds for one segment when it reaches the
counter, camera_p.cc:837-867. -/
def imuSample (s : Camera Img) (seg : ImuSegment) : ImuData :=
  compensate s.is_process_mode_ s.motion_intrinsics_ (convertSegment seg)

/-- The body of the loop of `ImuDataCallback` for one segment,
camera_p.cc:836-878. -/
def imuSegmentStep (s : Camera Img) (seg : ImuSegment) : Camera Img :=
  let imu := imuSample s seg
  let s1 := { s with motion_count_ := s.motion_count_ + 1 }
  if s1.motion_count_ > 20 then
    let cache := s1.cache_imu_data_ ++ [imu]
    { s1 with imu_data_ := s1.imu_data_ ++ cache, cache_imu_data_ := [] }
  else s1

/-- CameraPrivate::ImuDataCallback, camera_p.cc:835; the packet is its list of
segments. -/
def ImuDataCallback (packet : List ImuSegment) (s : Camera Img) : Camera Img :=
  packet.foldl imuSegmentStep s

/-- CameraPrivate::EnableImuProcessMode, camera_p.cc:1257. -/
def EnableImuProcessMode (mode : ProcessMode) (s : Camera Img) : Camera Img :=
  match mode with
  | ProcessMode.ASSEMBLY =>
    { s with is_process_mode_ := Function.update s.is_process_mode_ mode true }
  | ProcessMode.WARM_DRIFT =>
    { s with is_process_mode_ := Function.update s.is_process_mode_ mode true }
  | ProcessMode.ALL =>
    { s with is_process_mode_ := Function.update s.is_process_mode_ mode true }

/-- CameraPrivate::GetImuDatas, camera_p.cc:896.  The first component is the
line written with `LOGE`, if any; the second the returned vector. -/
def GetImuDatas (s : Camera Img) : Option String × List ImuData × Camera Img :=
  let logged := if !s.is_imu_open_ then some "Imu is not opened !" else none
  (logged, s.imu_data_, { s with imu_data_ := [] })

end Imu

/-! ### Reference formulas for the compensations

These follow the wording of the specification and are what the code is
compared with. -/

/-- The warm-drift pair of one axis: `x` for axis 0, `y` for axis 1, `z` for
axis 2; index 0 of the pair is the constant value, index 1 the slope. -/
def ImuIntrinsics.warmDrift (k : ImuIntrinsics) (axis : Fin 3) : Fin 2 → ℚ :=
  ![k.x, k.y, k.z] axis

/-- Specification of temperature compensation of one channel:
`value[axis] - (slope[axis] * temperature + constant[axis])`. -/
def specTempCompensated (k : ImuIntrinsics) (temperature : ℚ) (r : Fin 3 → ℚ) :
    Fin 3 → ℚ :=
  fun axis => r axis - (k.warmDrift axis 1 * temperature + k.warmDrift axis 0)

/-- Specification of scale/assembly compensation of one channel: the matrix
product `scale * assembly` applied to the vector. -/
def specScaleAssembly (k : ImuIntrinsics) (r : Fin 3 → ℚ) : Fin 3 → ℚ :=
  Matrix.mulVec (Matrix.of k.scale * Matrix.of k.assembly) r

/-! ## Extrinsics (types.h:366-380) -/

/-- Extrinsics::Inverse, types.h:374. -/
def Extrinsics.Inverse (e : Extrinsics) : Extrinsics :=
  { rotation := ![![e.rotation 0 0, e.rotation 1 0, e.rotation 2 0],
                  ![e.rotation 0 1, e.rotation 1 1, e.rotation 2 1],
                  ![e.rotation 0 2, e.rotation 1 2, e.rotation 2 2]],
    translation := ![-e.translation 0, -e.translation 1, -e.translation 2] }

/-! ### Reference formulas for extrinsics

These follow the wording of the specification and are what the code is
compared with. -/

/-- Specification of the rigid transform an `Extrinsics` stands for: rotate the
point, then translate it. -/
def Extrinsics.specTransform (e : Extrinsics) (p : Fin 3 → ℚ) : Fin 3 → ℚ :=
  fun i => Matrix.mulVec (Matrix.of e.rotation) p i + e.translation i

/-- Specification of exact inversion: the transpose of the rotation and the
negated translation under the inverse rotation. -/
def Extrinsics.specInverse (e : Extrinsics) : Extrinsics :=
  { rotation := fun i j => e.rotation j i
    translation := fun i =>
      -(Matrix.mulVec (Matrix.of (fun a b => e.rotation b a)) e.translation i) }

/-! ## Concrete fixtures

Images are natural numbers here: the number is the frame id, a clone is the
same number and the two cut halves of `n` are `2 * n` and `2 * n + 1`. -/

/-- An `ImageApi` on natural numbers. -/
def natApi : ImageApi Nat :=
  { frame_id := fun n => n
    Clone := fun n => n
    CutPart := fun type n =>
      match type with
      | ImageType.IMAGE_LEFT_COLOR => 2 * n
      | ImageType.IMAGE_RIGHT_COLOR => 2 * n + 1
      | _ => n }

/-- An opened camera with nothing staged and nothing buffered, right stream
disabled, no process mode enabled and no calibration model. -/
def idleCamera : Camera Nat :=
  { dev_sel_info_index := 0
    is_enable_right := false
    image_color_ := []
    image_depth_ := []
    img_info_ := []
    cache_image_info_ := []
    left_color_data_ := []
    right_color_data_ := []
    depth_data_ := []
    is_process_mode_ := fun _ => false
    motion_intrinsics_ := none
    motion_count_ := 0
    cache_imu_data_ := []
    imu_data_ := []
    is_imu_open_ := true
    is_hid_exist_ := true
    is_capture_image_ := false
    is_synthetic_image_ := false
    cap_image_thread_joinable := false
    sync_thread_joinable := false
    is_enable_left := false
    is_enable_depth := false
    stream_mode_ := StreamMode.STREAM_1280x720
    framerate_ := 10
    depth_mode_ := DepthMode.DEPTH_COLORFUL
    stream_info_dev_index_ := 0
    color_res_index_ := 0
    depth_res_index_ := 0 }

/-- The idle camera with 35 depth frames staged, ids 0 to 34. -/
def depth35 : Camera Nat :=
  { idleCamera with image_depth_ := List.range 35 }

/-- An intrinsics record with scale `2 * I`, assembly `I`, and a warm drift of
constant value 1 and slope 0 on the x axis only. -/
def driftIntrinsics : ImuIntrinsics :=
  { scale := ![![2, 0, 0], ![0, 2, 0], ![0, 0, 2]]
    assembly := ![![1, 0, 0], ![0, 1, 0], ![0, 0, 1]]
    drift := fun _ => 0
    noise := fun _ => 0
    bias := fun _ => 0
    x := ![1, 0]
    y := ![0, 0]
    z := ![0, 0] }

/-- A calibration model using `driftIntrinsics` for both sensors. -/
def driftModel : MotionIntrinsics :=
  { accel := driftIntrinsics, gyro := driftIntrinsics }

/-- An accelerometer segment: raw x reading 16384 (3 after conversion), raw
temperature 8 (24 after conversion). -/
def accelSegment : ImuSegment :=
  { flag := 1, temperature := 8, timestamp := 1, accel_or_gyro := ![16384, 0, 0] }

/-- A camera with only `ProcessMode::ALL` enabled, `driftModel` loaded and the
running counter at 20, so that the next sample is committed. -/
def allModeCamera : Camera Nat :=
  { idleCamera with
    is_process_mode_ := fun mode => decide (mode = ProcessMode.ALL)
    motion_intrinsics_ := some driftModel
    motion_count_ := 20 }

/-- The idle camera with the running counter at 20. -/
def noModelCamera : Camera Nat :=
  { idleCamera with
    is_process_mode_ := fun _ => true
    motion_count_ := 20 }

/-- A quarter turn about the z axis followed by a unit shift along x. -/
def quarterTurn : Extrinsics :=
  { rotation := ![![0, -1, 0], ![1, 0, 0], ![0, 0, 1]]
    translation := ![1, 0, 0] }

/-- An opened camera right after `StartCaptureImage` and `StartSyntheticImage`:
both threads running. -/
def capturingCamera : Camera Nat :=
  StartSyntheticImage (StartCaptureImage idleCamera)

/-- A camera that was closed (device index -1) with one sample left in the IMU
queue. -/
def closedImuCamera : Camera Nat :=
  { idleCamera with
    dev_sel_info_index := -1
    imu_data_ := [{ ImuData.Reset with flag := 1, timestamp := 7 }] }

/-- A camera whose IMU was never opened. -/
def imuNeverOpened : Camera Nat :=
  { idleCamera with is_imu_open_ := false }

/-- The segment number `n` of a test stream: an accelerometer segment with
timestamp `n`. -/
def numberedSegment (n : Nat) : ImuSegment :=
  { flag := 1, temperature := 0, timestamp := n, accel_or_gyro := fun _ => 0 }

/-- An opened camera with the left, right and depth queues holding 2, 1 and 1
samples, one staged colour frame and one staged depth frame; the right stream
is enabled. -/
def loadedCamera : Camera Nat :=
  { idleCamera with
    is_enable_right := true
    image_color_ := [8]
    image_depth_ := [9]
    left_color_data_ := [{ img := some 1, img_info := none }, { img := some 2, img_info := none }]
    right_color_data_ := [{ img := some 3, img_info := none }]
    depth_data_ := [{ img := some 4, img_info := none }] }

/-- The camera `loadedCamera` before it is opened: device index -1. -/
def unopenedCamera : Camera Nat :=
  { loadedCamera with dev_sel_info_index := -1 }

/-- Seven staged colour frames, ids 5 to 11, and no metadata at all. -/
def backlogNoMetadata : Camera Nat :=
  { idleCamera with image_color_ := [5, 6, 7, 8, 9, 10, 11] }

/-- Seven staged colour frames, ids 5 to 11, and one metadata record of id 7000. -/
def backlogUnmatched : Camera Nat :=
  { idleCamera with
    image_color_ := [5, 6, 7, 8, 9, 10, 11]
    img_info_ := [{ frame_id := 7000, timestamp := 1, exposure_time := 1 }] }

/-- Staged frames with ids 65535 then 0 and metadata records with ids 65535
then 0: the 16-bit frame id wrapped between the two. -/
def wrapCamera : Camera Nat :=
  { idleCamera with
    image_color_ := [65535, 0]
    img_info_ := [{ frame_id := 65535, timestamp := 10, exposure_time := 1 },
                  { frame_id := 0, timestamp := 11, exposure_time := 1 }] }

/-- A resolution list with 1280x720 YUYV at index 0, 2560x720 YUYV at index 1
and zero entries elsewhere. -/
def twoModeTable : Fin 64 → ETRONDI_STREAM_INFO :=
  fun i =>
    if i.val = 0 then { nWidth := 1280, nHeight := 720, bFormatMJPG := false }
    else if i.val = 1 then { nWidth := 2560, nHeight := 720, bFormatMJPG := false }
    else { nWidth := 0, nHeight := 0, bFormatMJPG := false }

/-- A device that offers `twoModeTable` for colour and depth and opens well. -/
def twoModeDevice : DeviceReply :=
  { color_table := twoModeTable, depth_table := twoModeTable, open_ok := true, hid_ok := true }

/-- A not yet opened camera with the right stream enabled. -/
def rightEnabledCamera : Camera Nat :=
  EnableImageType ImageType.IMAGE_RIGHT_COLOR { idleCamera with dev_sel_info_index := -1 }

/-- A not yet opened camera with no stream enabled. -/
def freshCamera : Camera Nat :=
  { idleCamera with dev_sel_info_index := -1 }

/-- A request for 1280x720 YUYV at 10 frames per second. -/
def params720 : InitParams :=
  { dev_index := 0, framerate := 10, depth_mode := DepthMode.DEPTH_COLORFUL,
    stream_mode := StreamMode.STREAM_1280x720,
    color_stream_format := StreamFormat.STREAM_YUYV,
    depth_stream_format := StreamFormat.STREAM_YUYV,
    state_ae := true, state_awb := true, ir_intensity := 0 }

/-- A request for 2560x720 YUYV at 60 frames per second. -/
def paramsWide60 : InitParams :=
  { params720 with framerate := 60, stream_mode := StreamMode.STREAM_2560x720 }

/-- Thirty-one metadata records with frame ids 5 to 35. -/
def records5to35 : List ImgInfo :=
  (List.range 31).map (fun k => { frame_id := 5 + k, timestamp := 100 + k, exposure_time := 7 })

/-- One staged colour frame of id 5 against the 31 records of ids 5 to 35: the
first record matches. -/
def over30Match : Camera Nat :=
  { idleCamera with image_color_ := [5], img_info_ := records5to35 }

/-- Two staged colour frames, ids 5 and 6, against the 31 records of ids 5 to
35, right stream enabled. -/
def over30Pair : Camera Nat :=
  { idleCamera with is_enable_right := true, image_color_ := [5, 6], img_info_ := records5to35 }

/-- Thirty-one metadata packets, ids 5 to 35, followed by one captured colour
frame of id 5. -/
def floodOps : List (ImageOp Nat) :=
  (List.range 31).map (fun k =>
    ImageOp.imageInfo { frame_id := 5 + k, timestamp := 100 + k, exposure_time := 7 }) ++
  [ImageOp.captureColor (some 5)]

/-- The capturing camera after one StopCaptureImage: flag cleared, capture
thread joined, synthesis thread still joinable. -/
def captureStopped : Camera Nat :=
  { capturingCamera with is_capture_image_ := false, cap_image_thread_joinable := false }

/-- Thirty samples in the left queue, right stream disabled, and two staged
colour frames of ids 8 and 9. -/
def left30Staged2 : Camera Nat :=
  { idleCamera with
    left_color_data_ := List.replicate 30 { img := some 0, img_info := none }
    image_color_ := [8, 9] }

/-- The idle camera with one staged colour frame of id 5 and one metadata
record of id 5. -/
def match5 : Camera Nat :=
  { idleCamera with
    image_color_ := [5]
    img_info_ := [{ frame_id := 5, timestamp := 100, exposure_time := 7 }] }

/-- A camera with the right stream enabled, 30 samples in the left queue, one
staged colour frame and its metadata record, and one staged depth frame. -/
def full30 : Camera Nat :=
  { idleCamera with
    is_enable_right := true
    left_color_data_ := List.replicate 30 { img := some 0, img_info := none }
    image_color_ := [5]
    image_depth_ := [9]
    img_info_ := [{ frame_id := 5, timestamp := 100, exposure_time := 7 }] }

/-! ## Theorems: depth pass-through -/

section DepthProofs

variable {Img : Type}

theorem depthStep_depth_data (api : ImageApi Img) (s : Camera Img) (d : Img) :
    (depthStep api s d).depth_data_ =
      if s.depth_data_.length + 1 > 30 then [] else s.depth_data_ ++ [depthSample api d] := by
  unfold depthStep depthSample
  by_cases h : s.depth_data_.length + 1 > 30 <;> simp [h]

theorem depth_foldl_depth_data (api : ImageApi Img) (frames : List Img) :
    ∀ s : Camera Img, s.depth_data_.length ≤ 30 →
      (frames.foldl (depthStep api) s).depth_data_ =
        (s.depth_data_ ++ frames.map (depthSample api)).drop
          (s.depth_data_.length + frames.length -
            (s.depth_data_.length + frames.length) % 31) := by
  induction frames with
  | nil =>
    intro s h
    have : s.depth_data_.length % 31 = s.depth_data_.length := Nat.mod_eq_of_lt (by omega)
    simp [this]
  | cons x rest ih =>
    intro s h
    rw [List.foldl_cons]
    by_cases hq : s.depth_data_.length + 1 > 30
    · have hlen : s.depth_data_.length = 30 := by omega
      have hd : (depthStep api s x).depth_data_ = [] := by
        rw [depthStep_depth_data]; simp [hq]
      rw [ih _ (by rw [hd]; simp), hd]
      have hm : (30 + (rest.length + 1)) % 31 = rest.length % 31 := by omega
      have hle : rest.length % 31 ≤ rest.length := Nat.mod_le _ _
      simp only [List.length_nil, List.nil_append, Nat.zero_add, List.map_cons,
        List.length_cons, hlen, hm]
      have e : 30 + (rest.length + 1) - rest.length % 31
          = (s.depth_data_ ++ [depthSample api x]).length
            + (rest.length - rest.length % 31) := by
        simp [hlen]; omega
      rw [e, ← List.drop_drop]
      have : s.depth_data_ ++ depthSample api x :: List.map (depthSample api) rest
          = (s.depth_data_ ++ [depthSample api x]) ++ List.map (depthSample api) rest := by
        simp
      rw [this, List.drop_left]
    · have hd : (depthStep api s x).depth_data_ = s.depth_data_ ++ [depthSample api x] := by
        rw [depthStep_depth_data]; simp [hq]
      rw [ih _ (by rw [hd]; simp; omega), hd]
      simp only [List.length_append, List.length_singleton, List.map_cons, List.length_cons,
        List.append_assoc, List.singleton_append]
      have : s.depth_data_.length + 1 + rest.length
          = s.depth_data_.length + (rest.length + 1) := by omega
      simp only [List.length_nil, Nat.zero_add, this]

/-- C4. Depth pass-through with reset: with at most 30 samples in the depth
queue, one SyntheticImageDepth cycle empties the staging list and leaves in the
depth queue the last `(q + n) mod 31` elements of the old queue followed by one
sample per staged frame (a clone of the frame, no metadata) in arrival order;
when `q + n ≤ 30` nothing is lost. -/
theorem SyntheticImageDepth_pass_through (api : ImageApi Img) (s : Camera Img)
    (h : s.depth_data_.length ≤ 30) :
    (SyntheticImageDepth api s).image_depth_ = [] ∧
    (SyntheticImageDepth api s).depth_data_ =
      (s.depth_data_ ++ s.image_depth_.map
          (fun d => StreamData.mk (some (api.Clone d)) none)).drop
        (s.depth_data_.length + s.image_depth_.length -
          (s.depth_data_.length + s.image_depth_.length) % 31) ∧
    (SyntheticImageDepth api s).depth_data_.length =
      (s.depth_data_.length + s.image_depth_.length) % 31 ∧
    (s.depth_data_.length + s.image_depth_.length ≤ 30 →
      (SyntheticImageDepth api s).depth_data_ =
        s.depth_data_ ++ s.image_depth_.map
          (fun d => StreamData.mk (some (api.Clone d)) none)) := by
  have key := depth_foldl_depth_data api s.image_depth_ s h
  have hd : (SyntheticImageDepth api s).depth_data_ =
      (s.image_depth_.foldl (depthStep api) s).depth_data_ := rfl
  have hmod : (s.depth_data_.length + s.image_depth_.length) % 31 ≤
      s.depth_data_.length + s.image_depth_.length := Nat.mod_le _ _
  refine ⟨rfl, ?_, ?_, ?_⟩
  · rw [hd, key]; rfl
  · rw [hd, key, List.length_drop, List.length_append, List.length_map]
    omega
  · intro hle
    rw [hd, key, Nat.mod_eq_of_lt (by omega), Nat.sub_self, List.drop_zero]
    rfl

/-- Witness for C4: 35 depth frames staged against an empty queue leave the
last four, frames 31 to 34. -/
theorem SyntheticImageDepth_pass_through_witness :
    depth35.depth_data_.length ≤ 30 ∧
    (SyntheticImageDepth natApi depth35).depth_data_ =
      [{ img := some 31, img_info := none }, { img := some 32, img_info := none },
       { img := some 33, img_info := none }, { img := some 34, img_info := none }] ∧
    (SyntheticImageDepth natApi depth35).depth_data_.length = 4 := by
  have h := SyntheticImageDepth_pass_through natApi depth35 (by decide)
  refine ⟨by decide, ?_, ?_⟩
  · rw [h.2.1]; decide
  · rw [h.2.2.1]; decide

end DepthProofs

/-! ## Theorems: the 30-sample cap -/

section CapProofs

variable {Img : Type}

theorem foldlM_option_inv {σ α : Type} (f : σ → α → Option σ) (P : σ → Prop)
    (hf : ∀ s x s', P s → f s x = some s' → P s') :
    ∀ (l : List α) (s s' : σ), P s → l.foldlM f s = some s' → P s' := by
  intro l
  induction l with
  | nil =>
    intro s s' hs h
    simp [List.foldlM] at h
    subst h; exact hs
  | cons x xs ih =>
    intro s s' hs h
    rw [List.foldlM_cons] at h
    cases hx : f s x with
    | none => rw [hx] at h; simp at h
    | some s1 =>
      rw [hx] at h
      exact ih s1 s' (hf s x s1 hs hx) h

theorem foldlM_option_isSome {σ α : Type} (f : σ → α → Option σ) (P : σ → Prop)
    (hf : ∀ s x, P s → ∃ s', f s x = some s' ∧ P s') :
    ∀ (l : List α) (s : σ), P s → (l.foldlM f s).isSome := by
  intro l
  induction l with
  | nil => intro s _; simp [List.foldlM]
  | cons x xs ih =>
    intro s hs
    obtain ⟨s1, h1, hp⟩ := hf s x hs
    rw [List.foldlM_cons, h1]
    exact ih s1 hp

theorem foldl_inv {σ α : Type} (f : σ → α → σ) (P : σ → Prop)
    (hf : ∀ s x, P s → P (f s x)) :
    ∀ (l : List α) (s : σ), P s → P (l.foldl f s) := by
  intro l
  induction l with
  | nil => intro s hs; exact hs
  | cons x xs ih => intro s hs; exact ih _ (hf s x hs)

theorem capAfterTransfer_some (s s' : Camera Img) (h : capAfterTransfer s = some s') :
    s'.left_color_data_.length ≤ 30 ∧ s'.right_color_data_.length ≤ 30 ∧
      s'.depth_data_ = s.depth_data_ ∧ s'.img_info_ = s.img_info_ := by
  unfold capAfterTransfer at h
  by_cases h1 : s.left_color_data_.length > 30 <;>
    by_cases h2 : s.right_color_data_.length > 30 <;>
    by_cases h3 : s.img_info_.length > 30 <;>
    simp [h1, h2, h3] at h <;> subst h <;> simp <;> omega

theorem capAfterTransfer_isSome (s : Camera Img) (h : s.img_info_.length ≤ 30) :
    ∃ s', capAfterTransfer s = some s' := by
  unfold capAfterTransfer
  by_cases h1 : s.left_color_data_.length > 30 <;>
    by_cases h2 : s.right_color_data_.length > 30 <;>
    simp [h1, h2] <;> omega

theorem TransferColor_frame (api : ImageApi Img) (c : Img) (i : ImgInfo) (s : Camera Img) :
    (TransferColor api c i s).depth_data_ = s.depth_data_ ∧
      (TransferColor api c i s).img_info_ = s.img_info_ := by
  unfold TransferColor CutPart
  cases s.is_enable_right <;> simp

theorem matchInfo_inv (api : ImageApi Img) (s : Camera Img) (c : Img) (t : Camera Img)
    (i : ImgInfo) (t' : Camera Img) (ht : MatchInv s t) (h : matchInfo api c t i = some t') :
    MatchInv s t' := by
  unfold matchInfo at h
  by_cases hm : api.frame_id c = i.frame_id
  · simp only [hm, if_true] at h
    obtain ⟨h1, h2, h3, h4⟩ := capAfterTransfer_some _ _ h
    have hf := TransferColor_frame api c i t
    exact ⟨h1, h2, by rw [h3, hf.1, ht.2.2.1], by rw [h4, hf.2, ht.2.2.2]⟩
  · simp only [hm, if_false, Option.some.injEq] at h
    subst h; exact ht

theorem matchColor_inv (api : ImageApi Img) (s : Camera Img) (t : Camera Img) (c : Img)
    (t' : Camera Img) (ht : MatchInv s t) (h : matchColor api t c = some t') :
    MatchInv s t' :=
  foldlM_option_inv (matchInfo api c) (MatchInv s)
    (fun a i a' ha h' => matchInfo_inv api s c a i a' ha h') _ _ _ ht h

theorem matchInfo_defined (api : ImageApi Img) (infos : List ImgInfo) (c : Img)
    (t : Camera Img) (i : ImgInfo) (hn : infos.length ≤ 30) (ht : t.img_info_ = infos) :
    ∃ t', matchInfo api c t i = some t' ∧ t'.img_info_ = infos := by
  unfold matchInfo
  by_cases hm : api.frame_id c = i.frame_id
  · simp only [hm, if_true]
    have hlen : (TransferColor api c i t).img_info_.length ≤ 30 := by
      rw [(TransferColor_frame api c i t).2, ht]; exact hn
    obtain ⟨t', h'⟩ := capAfterTransfer_isSome _ hlen
    refine ⟨t', h', ?_⟩
    rw [(capAfterTransfer_some _ _ h').2.2.2, (TransferColor_frame api c i t).2, ht]
  · exact ⟨t, by simp [hm], ht⟩

theorem matchColor_defined (api : ImageApi Img) (infos : List ImgInfo) (t : Camera Img)
    (c : Img) (hn : infos.length ≤ 30) (ht : t.img_info_ = infos) :
    ∃ t', matchColor api t c = some t' ∧ t'.img_info_ = infos := by
  have h := foldlM_option_isSome (matchInfo api c) (fun a => a.img_info_ = infos)
    (fun a i ha => matchInfo_defined api infos c a i hn ha) t.img_info_ t ht
  obtain ⟨t', h'⟩ := Option.isSome_iff_exists.mp h
  refine ⟨t', h', ?_⟩
  exact foldlM_option_inv (matchInfo api c) (fun a => a.img_info_ = infos)
    (fun a i a' ha hs => by
      obtain ⟨b, hb1, hb2⟩ := matchInfo_defined api infos c a i hn ha
      rw [hb1] at hs
      cases hs
      exact hb2) t.img_info_ t t' ht h'

theorem SyntheticImageColor_bounded (api : ImageApi Img) (s s' : Camera Img)
    (hb : QueuesBounded s) (h : SyntheticImageColor api s = some s') : QueuesBounded s' := by
  unfold SyntheticImageColor at h
  split at h
  · rename_i cfront cback ifront iback _ _ _ _
    by_cases h1 : api.frame_id cfront > iback.frame_id
    · simp only [h1, if_true, Option.some.injEq] at h
      subst h
      by_cases h5 : s.image_color_.length > 5 <;> simpa [h5, QueuesBounded] using hb
    · by_cases h2 : api.frame_id cback < ifront.frame_id
      · simp only [h1, h2, if_true, if_false, Option.some.injEq] at h
        subst h
        by_cases h5 : s.img_info_.length > 5 <;> simpa [h5, QueuesBounded] using hb
      · simp only [h1, h2, if_false, Option.map_eq_some'] at h
        obtain ⟨t, ht, rfl⟩ := h
        have hinv : MatchInv s t :=
          foldlM_option_inv (matchColor api) (MatchInv s)
            (fun a c a' ha h' => matchColor_inv api s a c a' ha h') _ _ _
            ⟨hb.1, hb.2.1, rfl, rfl⟩ ht
        exact ⟨hinv.1, hinv.2.1, by simpa [hinv.2.2.1] using hb.2.2⟩
  · simp only [Option.some.injEq] at h
    subst h; exact hb

theorem SyntheticImageColor_defined (api : ImageApi Img) (s : Camera Img)
    (hs : s.img_info_.length ≤ 30) : (SyntheticImageColor api s).isSome := by
  unfold SyntheticImageColor
  split
  · rename_i cfront cback ifront iback _ _ _ _
    by_cases h1 : api.frame_id cfront > iback.frame_id
    · simp [h1]
    · by_cases h2 : api.frame_id cback < ifront.frame_id
      · simp [h1, h2]
      · simp only [h1, h2, if_false, Option.isSome_map']
        exact foldlM_option_isSome (matchColor api) (fun a => a.img_info_ = s.img_info_)
          (fun a c ha => matchColor_defined api s.img_info_ a c hs ha) _ _ rfl
  · simp

theorem oldStep_inv (api : ImageApi Img) (s : Camera Img) (t : Camera Img) (c : Img)
    (ht : MatchInv s t) : MatchInv s (oldStep api t c) := by
  obtain ⟨h1, h2, h3, h4⟩ := ht
  unfold oldStep OldTransferColor OldCutPart MatchInv
  cases hr : t.is_enable_right <;> simp <;> split_ifs <;> simp_all

theorem OldSyntheticImageColor_bounded (api : ImageApi Img) (s : Camera Img)
    (hb : QueuesBounded s) : QueuesBounded (OldSyntheticImageColor api s) := by
  unfold OldSyntheticImageColor
  by_cases he : s.image_color_.isEmpty
  · simpa [he] using hb
  · simp only [he]
    have hinv := foldl_inv (oldStep api) (MatchInv s)
      (fun a c ha => oldStep_inv api s a c ha) s.image_color_ s ⟨hb.1, hb.2.1, rfl, rfl⟩
    exact ⟨hinv.1, hinv.2.1, by simpa [hinv.2.2.1] using hb.2.2⟩

theorem depthStep_inv (api : ImageApi Img) (s : Camera Img) (t : Camera Img) (d : Img)
    (ht : DepthInv s t) : DepthInv s (depthStep api t d) := by
  obtain ⟨h1, h2, h3⟩ := ht
  unfold depthStep DepthInv
  by_cases h : t.depth_data_.length + 1 > 30
  · simp [h, h1, h2]
  · simp [h, h1, h2]; omega

theorem SyntheticImageDepth_bounded (api : ImageApi Img) (s : Camera Img)
    (hb : QueuesBounded s) : QueuesBounded (SyntheticImageDepth api s) := by
  unfold SyntheticImageDepth
  have hinv := foldl_inv (depthStep api) (DepthInv s)
    (fun a c ha => depthStep_inv api s a c ha) s.image_depth_ s ⟨rfl, rfl, hb.2.2⟩
  exact ⟨by simpa [hinv.1] using hb.1, by simpa [hinv.2.1] using hb.2.1, hinv.2.2⟩

theorem RetrieveImage_bounded (type : ImageType) (code : ErrorCode) (s : Camera Img)
    (r : List (StreamData Img) × ErrorCode × Camera Img) (hb : QueuesBounded s)
    (h : RetrieveImage type code s = Except.ok r) : QueuesBounded r.2.2 := by
  obtain ⟨h1, h2, h3⟩ := hb
  unfold RetrieveImage at h
  by_cases ho : IsOpened s
  · cases type <;> simp only [ho, Bool.not_true, Bool.false_eq_true, if_false] at h
    · cases h; exact ⟨by simp, h2, h3⟩
    · by_cases hr : s.is_enable_right
      · simp [hr] at h; cases h; exact ⟨h1, by simp, h3⟩
      · simp [hr] at h
    · cases h; exact ⟨h1, h2, by simp⟩
    · cases h
  · simp only [ho, Bool.not_false, if_true] at h
    cases h; exact ⟨h1, h2, h3⟩

theorem RetrieveLatestImage_bounded (type : ImageType) (code : ErrorCode) (s : Camera Img)
    (r : StreamData Img × ErrorCode × Camera Img) (hb : QueuesBounded s)
    (h : RetrieveLatestImage type code s = Except.ok r) : QueuesBounded r.2.2 := by
  obtain ⟨h1, h2, h3⟩ := hb
  unfold RetrieveLatestImage at h
  by_cases ho : IsOpened s
  · cases type <;> simp only [ho, Bool.not_true, Bool.false_eq_true, if_false] at h
    · cases hl : s.left_color_data_.getLast? <;> rw [hl] at h <;> cases h
      · exact ⟨h1, h2, h3⟩
      · exact ⟨by simp, h2, h3⟩
    · cases hl : s.right_color_data_.getLast? <;> rw [hl] at h <;> cases h
      · exact ⟨h1, h2, h3⟩
      · exact ⟨h1, by simp, h3⟩
    · cases hl : s.depth_data_.getLast? <;> rw [hl] at h <;> cases h
      · exact ⟨h1, h2, h3⟩
      · exact ⟨h1, h2, by simp⟩
    · cases h
  · simp only [ho, Bool.not_false, if_true] at h
    cases h; exact ⟨h1, h2, h3⟩

theorem step_bounded (api : ImageApi Img) (op : ImageOp Img) (s s' : Camera Img)
    (hb : QueuesBounded s) (h : op.step api s = some s') : QueuesBounded s' := by
  cases op with
  | synthColor => exact SyntheticImageColor_bounded api s s' hb h
  | oldSynthColor =>
    simp only [ImageOp.step, Option.some.injEq] at h
    subst h; exact OldSyntheticImageColor_bounded api s hb
  | synthDepth =>
    simp only [ImageOp.step, Option.some.injEq] at h
    subst h; exact SyntheticImageDepth_bounded api s hb
  | captureColor p =>
    simp only [ImageOp.step, Option.some.injEq] at h
    subst h; cases p <;> exact hb
  | captureDepth p =>
    simp only [ImageOp.step, Option.some.injEq] at h
    subst h; cases p <;> exact hb
  | imageInfo packet =>
    simp only [ImageOp.step, Option.some.injEq] at h
    subst h; exact hb
  | retrieve type code =>
    simp only [ImageOp.step] at h
    cases hr : RetrieveImage type code s with
    | ok r =>
      rw [hr] at h; simp only [Option.some.injEq] at h
      subst h; exact RetrieveImage_bounded type code s r hb hr
    | error e =>
      rw [hr] at h; simp only [Option.some.injEq] at h
      subst h; exact hb
  | retrieveLatest type code =>
    simp only [ImageOp.step] at h
    cases hr : RetrieveLatestImage type code s with
    | ok r =>
      rw [hr] at h; simp only [Option.some.injEq] at h
      subst h; exact RetrieveLatestImage_bounded type code s r hb hr
    | error e =>
      rw [hr] at h; simp only [Option.some.injEq] at h
      subst h; exact hb

end CapProofs

/-! ## Theorems: frame / metadata matching -/

section MatchProofs

variable {Img : Type}

theorem addSamples_nil (t : Camera Img) : addSamples t [] [] = t := by
  simp [addSamples]

theorem addSamples_addSamples (t : Camera Img) (a b c d : List (StreamData Img)) :
    addSamples (addSamples t a b) c d = addSamples t (a ++ c) (b ++ d) := by
  simp [addSamples]

theorem TransferColor_eq (api : ImageApi Img) (c : Img) (i : ImgInfo) (t : Camera Img) :
    TransferColor api c i t =
      addSamples t [leftSample api t.is_enable_right c i]
        (if t.is_enable_right then [rightSample api c i] else []) := by
  unfold TransferColor CutPart addSamples leftSample rightSample
  cases h : t.is_enable_right <;> simp [h]

theorem capAfterTransfer_eq (t : Camera Img) (h1 : t.left_color_data_.length ≤ 30)
    (h2 : t.right_color_data_.length ≤ 30) (h3 : t.img_info_.length ≤ 30) :
    capAfterTransfer t = some t := by
  unfold capAfterTransfer
  have a : ¬ t.left_color_data_.length > 30 := by omega
  have b : ¬ t.right_color_data_.length > 30 := by omega
  have c : ¬ t.img_info_.length > 30 := by omega
  simp [a, b, c]

theorem matchInfo_foldlM_eq (api : ImageApi Img) (c : Img) (infos : List ImgInfo) :
    ∀ t : Camera Img, t.img_info_.length ≤ 30 →
      t.left_color_data_.length +
        (infos.filter (fun i => decide (api.frame_id c = i.frame_id))).length ≤ 30 →
      t.right_color_data_.length +
        (if t.is_enable_right then
          (infos.filter (fun i => decide (api.frame_id c = i.frame_id))).length else 0) ≤ 30 →
      infos.foldlM (matchInfo api c) t = some (addSamples t
        ((infos.filter (fun i => decide (api.frame_id c = i.frame_id))).map
          (leftSample api t.is_enable_right c))
        (if t.is_enable_right then
          (infos.filter (fun i => decide (api.frame_id c = i.frame_id))).map
            (rightSample api c) else [])) := by
  induction infos with
  | nil => intro t _ _ _; simp [List.foldlM, addSamples_nil]
  | cons i rest ih =>
    intro t h30 hl hr
    rw [List.foldlM_cons]
    by_cases hm : api.frame_id c = i.frame_id
    · have hf : List.filter (fun i => decide (api.frame_id c = i.frame_id)) (i :: rest)
          = i :: List.filter (fun i => decide (api.frame_id c = i.frame_id)) rest := by
        simp [List.filter_cons, hm]
      rw [hf] at hl hr ⊢
      simp only [List.length_cons] at hl hr
      have hstep : matchInfo api c t i = some (TransferColor api c i t) := by
        unfold matchInfo
        simp only [hm, if_true]
        apply capAfterTransfer_eq
        · rw [TransferColor_eq]; simp [addSamples]; omega
        · rw [TransferColor_eq]; cases he : t.is_enable_right <;> simp [addSamples, he] at hr ⊢ <;> omega
        · rw [(TransferColor_frame api c i t).2]; exact h30
      rw [hstep]
      simp only [Option.bind_eq_bind, Option.some_bind]
      have hen : (TransferColor api c i t).is_enable_right = t.is_enable_right := by
        rw [TransferColor_eq]; rfl
      rw [ih (TransferColor api c i t)
        (by rw [(TransferColor_frame api c i t).2]; exact h30)
        (by rw [TransferColor_eq]; simp [addSamples]; omega)
        (by rw [hen, TransferColor_eq]; cases he : t.is_enable_right <;> simp [addSamples, he] at hr ⊢ <;> omega)]
      rw [hen, TransferColor_eq, addSamples_addSamples]
      cases he : t.is_enable_right <;> simp
    · have hf : List.filter (fun i => decide (api.frame_id c = i.frame_id)) (i :: rest)
          = List.filter (fun i => decide (api.frame_id c = i.frame_id)) rest := by
        simp [List.filter_cons, hm]
      rw [hf] at hl hr ⊢
      have hstep : matchInfo api c t i = some t := by
        unfold matchInfo; simp [hm]
      rw [hstep]
      simp only [Option.bind_eq_bind, Option.some_bind]
      exact ih t h30 hl hr

theorem matchedPairs_cons (api : ImageApi Img) (c : Img) (rest : List Img)
    (infos : List ImgInfo) :
    matchedPairs api (c :: rest) infos =
      (infos.filter (fun i => decide (api.frame_id c = i.frame_id))).map (fun i => (c, i))
        ++ matchedPairs api rest infos := by
  simp [matchedPairs, List.flatMap_cons]

theorem matchColor_foldlM_eq (api : ImageApi Img) (infos : List ImgInfo) (frames : List Img) :
    ∀ t : Camera Img, t.img_info_ = infos → infos.length ≤ 30 →
      t.left_color_data_.length + (matchedPairs api frames infos).length ≤ 30 →
      t.right_color_data_.length +
        (if t.is_enable_right then (matchedPairs api frames infos).length else 0) ≤ 30 →
      frames.foldlM (matchColor api) t = some (addSamples t
        ((matchedPairs api frames infos).map
          (fun p => leftSample api t.is_enable_right p.1 p.2))
        (if t.is_enable_right then
          (matchedPairs api frames infos).map (fun p => rightSample api p.1 p.2)
         else [])) := by
  induction frames with
  | nil => intro t _ _ _ _; simp [List.foldlM, matchedPairs, addSamples_nil]
  | cons c rest ih =>
    intro t hi h30 hl hr
    rw [matchedPairs_cons] at hl hr ⊢
    simp only [List.length_append, List.length_map] at hl hr
    rw [List.foldlM_cons]
    have hstep := matchInfo_foldlM_eq api c infos t (by rw [hi]; exact h30) (by omega)
      (by cases he : t.is_enable_right <;> simp [he] at hr ⊢ <;> omega)
    have hmc : matchColor api t c = List.foldlM (matchInfo api c) t infos := by
      unfold matchColor; rw [hi]
    rw [hmc, hstep]
    simp only [Option.bind_eq_bind, Option.some_bind]
    rw [ih _ (by simp [addSamples, hi]) h30
      (by simp [addSamples]; omega)
      (by cases he : t.is_enable_right <;> simp [addSamples, he] at hr ⊢ <;> omega)]
    rw [addSamples_addSamples]
    have hen : (addSamples t
        (List.map (leftSample api t.is_enable_right c)
          (List.filter (fun i => decide (api.frame_id c = i.frame_id)) infos))
        (if t.is_enable_right = true then
          List.map (rightSample api c)
            (List.filter (fun i => decide (api.frame_id c = i.frame_id)) infos)
        else [])).is_enable_right = t.is_enable_right := rfl
    rw [hen]
    cases he : t.is_enable_right <;> simp [List.map_map, Function.comp_def]

/-- C1. Matching completeness: with both lists non-empty, neither reject
condition true, at most 30 metadata records and room in the result queues for
every match, one SyntheticImageColor cycle ends with both lists empty, the left
queue extended by exactly one sample per (staged frame, metadata record) pair
with equal frame id, frame-major then in metadata order, each holding that
frame's image and a copy of that record, and (right stream enabled) the right
queue extended by one right sample per such pair with the same record. -/
theorem SyntheticImageColor_complete (api : ImageApi Img) (s : Camera Img)
    (hc : s.image_color_ ≠ []) (hi : s.img_info_ ≠ [])
    (hr1 : ¬ api.frame_id (s.image_color_.head hc) > (s.img_info_.getLast hi).frame_id)
    (hr2 : ¬ api.frame_id (s.image_color_.getLast hc) < (s.img_info_.head hi).frame_id)
    (h30 : s.img_info_.length ≤ 30)
    (hl : s.left_color_data_.length +
      (matchedPairs api s.image_color_ s.img_info_).length ≤ 30)
    (hr : s.right_color_data_.length +
      (if s.is_enable_right then (matchedPairs api s.image_color_ s.img_info_).length
       else 0) ≤ 30) :
    SyntheticImageColor api s = some
      { s with
        image_color_ := []
        img_info_ := []
        left_color_data_ := s.left_color_data_ ++
          (matchedPairs api s.image_color_ s.img_info_).map
            (fun p => leftSample api s.is_enable_right p.1 p.2)
        right_color_data_ := s.right_color_data_ ++
          (if s.is_enable_right then
            (matchedPairs api s.image_color_ s.img_info_).map
              (fun p => rightSample api p.1 p.2)
           else []) } := by
  unfold SyntheticImageColor
  rw [List.head?_eq_head hc, List.getLast?_eq_getLast _ hc, List.head?_eq_head hi,
    List.getLast?_eq_getLast _ hi]
  simp only [hr1, hr2, if_false]
  rw [matchColor_foldlM_eq api s.img_info_ s.image_color_ s rfl h30 hl hr]
  simp [addSamples]

/-- Witness for C1: one staged frame with id 5 and one metadata record with
id 5 give exactly one left sample, with the metadata present. -/
theorem SyntheticImageColor_complete_witness :
    (SyntheticImageColor natApi match5).map (fun s => s.left_color_data_) =
      some [{ img := some 5,
              img_info := some { frame_id := 5, timestamp := 100, exposure_time := 7 } }] := by
  rw [SyntheticImageColor_complete natApi match5 (by decide) (by decide) (by decide)
    (by decide) (by decide) (by decide) (by decide)]
  decide

theorem matchInfo_foldlM_over30 (api : ImageApi Img) (c : Img) (infos : List ImgInfo) :
    ∀ t : Camera Img, 30 < t.img_info_.length →
      infos.foldlM (matchInfo api c) t =
        if (infos.filter (fun i => decide (api.frame_id c = i.frame_id))).isEmpty then some t
        else none := by
  induction infos with
  | nil => intro t _; simp [List.foldlM]
  | cons i rest ih =>
    intro t h30
    rw [List.foldlM_cons]
    by_cases hm : api.frame_id c = i.frame_id
    · have hstep : matchInfo api c t i = none := by
        unfold matchInfo capAfterTransfer
        simp only [hm, if_true]
        have hlen : 30 < (TransferColor api c i t).img_info_.length := by
          rw [(TransferColor_frame api c i t).2]; exact h30
        split_ifs <;> simp_all
      rw [hstep]
      simp [List.filter_cons, hm]
    · have hstep : matchInfo api c t i = some t := by
        unfold matchInfo; simp [hm]
      rw [hstep]
      simp only [Option.bind_eq_bind, Option.some_bind]
      rw [ih t h30]
      simp [List.filter_cons, hm]

theorem matchColor_foldlM_over30 (api : ImageApi Img) (frames : List Img) :
    ∀ t : Camera Img, 30 < t.img_info_.length →
      frames.foldlM (matchColor api) t =
        if (matchedPairs api frames t.img_info_).isEmpty then some t else none := by
  induction frames with
  | nil => intro t _; simp [List.foldlM, matchedPairs]
  | cons c rest ih =>
    intro t h30
    rw [List.foldlM_cons, matchedPairs_cons]
    unfold matchColor
    rw [matchInfo_foldlM_over30 api c t.img_info_ t h30]
    cases hf : t.img_info_.filter (fun i => decide (api.frame_id c = i.frame_id)) with
    | nil =>
      simp only [List.isEmpty_nil, if_true, Option.bind_eq_bind, Option.some_bind,
        List.map_nil, List.nil_append]
      exact ih t h30
    | cons a as => simp

/-- Where the cycle has no result: with more than 30 metadata records, both
lists non-empty and neither reject condition true, SyntheticImageColor has a
result exactly when no staged frame matches any record. -/
theorem SyntheticImageColor_over30 (api : ImageApi Img) (s : Camera Img)
    (hc : s.image_color_ ≠ []) (hi : s.img_info_ ≠ [])
    (hr1 : ¬ api.frame_id (s.image_color_.head hc) > (s.img_info_.getLast hi).frame_id)
    (hr2 : ¬ api.frame_id (s.image_color_.getLast hc) < (s.img_info_.head hi).frame_id)
    (h30 : 30 < s.img_info_.length) :
    SyntheticImageColor api s =
      if (matchedPairs api s.image_color_ s.img_info_).isEmpty then
        some { s with image_color_ := [], img_info_ := [] }
      else none := by
  unfold SyntheticImageColor
  rw [List.head?_eq_head hc, List.getLast?_eq_getLast _ hc, List.head?_eq_head hi,
    List.getLast?_eq_getLast _ hi]
  simp only [hr1, hr2, if_false]
  rw [matchColor_foldlM_over30 api s.image_color_ s h30]
  split_ifs <;> simp

theorem foldlM_option_inv_mem {σ α : Type} (f : σ → α → Option σ) (P : σ → Prop)
    (l : List α) (hf : ∀ s x s', x ∈ l → P s → f s x = some s' → P s') :
    ∀ (s s' : σ), P s → l.foldlM f s = some s' → P s' := by
  induction l with
  | nil =>
    intro s s' hs h
    simp [List.foldlM] at h
    subst h; exact hs
  | cons x xs ih =>
    intro s s' hs h
    rw [List.foldlM_cons] at h
    cases hx : f s x with
    | none => rw [hx] at h; simp at h
    | some s1 =>
      rw [hx] at h
      exact ih (fun a y a' hy ha h' => hf a y a' (List.mem_cons_of_mem _ hy) ha h')
        s1 s' (hf s x s1 (List.mem_cons_self _ _) hs hx) h

theorem capAfterTransfer_subset (t t' : Camera Img) (h : capAfterTransfer t = some t') :
    (∀ x ∈ t'.left_color_data_, x ∈ t.left_color_data_) ∧
    (∀ x ∈ t'.right_color_data_, x ∈ t.right_color_data_) ∧
    t'.is_enable_right = t.is_enable_right ∧ t'.img_info_ = t.img_info_ := by
  unfold capAfterTransfer at h
  by_cases h1 : t.left_color_data_.length > 30 <;>
    by_cases h2 : t.right_color_data_.length > 30 <;>
    by_cases h3 : t.img_info_.length > 30 <;>
    simp [h1, h2, h3] at h <;> subst h <;> simp

theorem matchInfo_sound (api : ImageApi Img) (s : Camera Img) (c : Img) (hc : c ∈ s.image_color_)
    (t : Camera Img) (i : ImgInfo) (t' : Camera Img) (hi : i ∈ s.img_info_)
    (ht : SoundInv api s t) (h : matchInfo api c t i = some t') : SoundInv api s t' := by
  unfold matchInfo at h
  by_cases hm : api.frame_id c = i.frame_id
  · simp only [hm, if_true] at h
    obtain ⟨h1, h2, h3, h4⟩ := capAfterTransfer_subset _ _ h
    obtain ⟨a1, a2, a3, a4⟩ := ht
    rw [TransferColor_eq] at h1 h2 h3 h4
    refine ⟨?_, ?_, by rw [h3]; exact a3, by rw [h4]; exact a4⟩
    · intro x hx
      have hx' := h1 x hx
      simp only [addSamples, List.mem_append, List.mem_singleton] at hx'
      rcases hx' with hx' | hx'
      · exact a1 x hx'
      · right; exact ⟨c, hc, i, hi, hm, by rw [hx', a3]⟩
    · intro x hx
      have hx' := h2 x hx
      simp only [addSamples, List.mem_append] at hx'
      rcases hx' with hx' | hx'
      · exact a2 x hx'
      · right
        by_cases he : t.is_enable_right
        · simp only [he, if_true, List.mem_singleton] at hx'
          exact ⟨c, hc, i, hi, hm, hx'⟩
        · simp [he] at hx'
  · simp only [hm, if_false, Option.some.injEq] at h
    subst h; exact ht

theorem matchColor_sound (api : ImageApi Img) (s : Camera Img) (t : Camera Img) (c : Img)
    (t' : Camera Img) (hc : c ∈ s.image_color_) (ht : SoundInv api s t)
    (h : matchColor api t c = some t') : SoundInv api s t' := by
  unfold matchColor at h
  refine foldlM_option_inv_mem (matchInfo api c) (SoundInv api s) t.img_info_ ?_ t t' ht h
  intro a i a' hi ha h'
  exact matchInfo_sound api s c hc a i a' (by rw [← ht.2.2.2]; exact hi) ha h'

theorem matchedPairs_isEmpty (api : ImageApi Img) (frames : List Img) (infos : List ImgInfo)
    (he : (matchedPairs api frames infos).isEmpty = true) :
    ∀ c ∈ frames, ∀ i ∈ infos, api.frame_id c ≠ i.frame_id := by
  intro c hc' i hi' heq
  rw [List.isEmpty_iff] at he
  unfold matchedPairs at he
  rw [List.flatMap_eq_nil_iff] at he
  have := he c hc'
  rw [List.map_eq_nil_iff, List.filter_eq_nil_iff] at this
  exact absurd heq (by simpa using this i hi')

theorem SyntheticImageColor_undefined (api : ImageApi Img) (s : Camera Img)
    (hc : s.image_color_ ≠ []) (hi : s.img_info_ ≠ [])
    (hr1 : ¬ api.frame_id (s.image_color_.head hc) > (s.img_info_.getLast hi).frame_id)
    (hr2 : ¬ api.frame_id (s.image_color_.getLast hc) < (s.img_info_.head hi).frame_id)
    (h30 : 30 < s.img_info_.length)
    (hm : ∃ c ∈ s.image_color_, ∃ i ∈ s.img_info_, api.frame_id c = i.frame_id) :
    SyntheticImageColor api s = none := by
  rw [SyntheticImageColor_over30 api s hc hi hr1 hr2 h30]
  split_ifs with he
  · obtain ⟨c, hc', i, hi', heq⟩ := hm
    exact absurd heq (matchedPairs_isEmpty api _ _ he c hc' i hi')
  · rfl

theorem cycle_result_sound (api : ImageApi Img) (s s' : Camera Img)
    (h : SyntheticImageColor api s = some s') :
    (∀ x ∈ s'.left_color_data_, x ∈ s.left_color_data_ ∨
      ∃ c ∈ s.image_color_, ∃ i ∈ s.img_info_, api.frame_id c = i.frame_id ∧
        x = leftSample api s.is_enable_right c i) ∧
    (∀ x ∈ s'.right_color_data_, x ∈ s.right_color_data_ ∨
      ∃ c ∈ s.image_color_, ∃ i ∈ s.img_info_, api.frame_id c = i.frame_id ∧
        x = rightSample api c i) := by
  have h0 : SoundInv api s s := ⟨fun x hx => Or.inl hx, fun x hx => Or.inl hx, rfl, rfl⟩
  unfold SyntheticImageColor at h
  split at h
  · rename_i cfront cback ifront iback _ _ _ _
    by_cases h1 : api.frame_id cfront > iback.frame_id
    · simp only [h1, if_true, Option.some.injEq] at h
      subst h
      by_cases h5 : s.image_color_.length > 5 <;> simp only [h5, if_true, if_false] <;>
        exact ⟨h0.1, h0.2.1⟩
    · by_cases h2 : api.frame_id cback < ifront.frame_id
      · simp only [h1, h2, if_true, if_false, Option.some.injEq] at h
        subst h
        by_cases h5 : s.img_info_.length > 5 <;> simp only [h5, if_true, if_false] <;>
          exact ⟨h0.1, h0.2.1⟩
      · simp only [h1, h2, if_false, Option.map_eq_some'] at h
        obtain ⟨t, ht, rfl⟩ := h
        have hinv : SoundInv api s t :=
          foldlM_option_inv_mem (matchColor api) (SoundInv api s) s.image_color_
            (fun a c a' hc ha h' => matchColor_sound api s a c a' hc ha h') s t h0 ht
        exact ⟨hinv.1, hinv.2.1⟩
  · simp only [Option.some.injEq] at h
    subst h; exact ⟨h0.1, h0.2.1⟩

/-- C2. Matching soundness and where it stops: with at most 30 metadata records
a SyntheticImageColor cycle has a result, and in every result each sample of
the left (right) queue that was not already in that queue is the left (right)
sample of a staged frame and a metadata record with the same frame id, carrying
a copy of that record.  With more than 30 records, both lists non-empty,
neither reject test true and some staged frame matching some record, the cycle
clears `img_info_` inside the loop over it and has no defined result. -/
theorem SyntheticImageColor_sound (api : ImageApi Img) (s : Camera Img) :
    (s.img_info_.length ≤ 30 →
      ∃ s', SyntheticImageColor api s = some s' ∧
        (∀ x ∈ s'.left_color_data_, x ∈ s.left_color_data_ ∨
          ∃ c ∈ s.image_color_, ∃ i ∈ s.img_info_, api.frame_id c = i.frame_id ∧
            x = leftSample api s.is_enable_right c i) ∧
        (∀ x ∈ s'.right_color_data_, x ∈ s.right_color_data_ ∨
          ∃ c ∈ s.image_color_, ∃ i ∈ s.img_info_, api.frame_id c = i.frame_id ∧
            x = rightSample api c i)) ∧
    (∀ s', SyntheticImageColor api s = some s' →
      (∀ x ∈ s'.left_color_data_, x ∈ s.left_color_data_ ∨
        ∃ c ∈ s.image_color_, ∃ i ∈ s.img_info_, api.frame_id c = i.frame_id ∧
          x = leftSample api s.is_enable_right c i) ∧
      (∀ x ∈ s'.right_color_data_, x ∈ s.right_color_data_ ∨
        ∃ c ∈ s.image_color_, ∃ i ∈ s.img_info_, api.frame_id c = i.frame_id ∧
          x = rightSample api c i)) ∧
    (∀ (hc : s.image_color_ ≠ []) (hi : s.img_info_ ≠ []),
      ¬ api.frame_id (s.image_color_.head hc) > (s.img_info_.getLast hi).frame_id →
      ¬ api.frame_id (s.image_color_.getLast hc) < (s.img_info_.head hi).frame_id →
      30 < s.img_info_.length →
      (∃ c ∈ s.image_color_, ∃ i ∈ s.img_info_, api.frame_id c = i.frame_id) →
      SyntheticImageColor api s = none) := by
  refine ⟨?_, fun s' h => cycle_result_sound api s s' h,
    fun hc hi hr1 hr2 h30 hm => SyntheticImageColor_undefined api s hc hi hr1 hr2 h30 hm⟩
  intro h30
  obtain ⟨s', hs⟩ := Option.isSome_iff_exists.mp (SyntheticImageColor_defined api s h30)
  exact ⟨s', hs, cycle_result_sound api s s' hs⟩

/-- Witness for C2: the cycle on `full30` has a result whose one right sample is
the right cut of frame 5 with the record of id 5; the cycle on `over30Match`,
frame 5 against the 31 records of ids 5 to 35, has none. -/
theorem SyntheticImageColor_sound_witness :
    (∃ s', SyntheticImageColor natApi full30 = some s' ∧
      ∀ x ∈ s'.right_color_data_, x ∈ full30.right_color_data_ ∨
        ∃ c ∈ full30.image_color_, ∃ i ∈ full30.img_info_,
          natApi.frame_id c = i.frame_id ∧ x = rightSample natApi c i) ∧
    over30Match.img_info_.length = 31 ∧
    SyntheticImageColor natApi over30Match = none := by
  obtain ⟨s', hs, _, hr⟩ := (SyntheticImageColor_sound natApi full30).1 (by decide)
  exact ⟨⟨s', hs, hr⟩, by decide,
    (SyntheticImageColor_sound natApi over30Match).2.2 (by decide) (by decide) (by decide)
      (by decide) (by decide) (by decide)⟩

end MatchProofs

/-! ## Theorems: the 30-sample cap along runs -/

section RunProofs

variable {Img : Type}

theorem runOps_append (api : ImageApi Img) (pre ops : List (ImageOp Img)) (s : Camera Img) :
    runOps api (pre ++ ops) s = (runOps api pre s).bind (runOps api ops) := by
  unfold runOps
  rw [List.foldlM_append]
  rfl

theorem runOps_undefined (api : ImageApi Img) (pre ops : List (ImageOp Img))
    (s t : Camera Img) (hp : runOps api pre s = some t)
    (hu : SyntheticImageColor api t = none) :
    runOps api (pre ++ ImageOp.synthColor :: ops) s = none := by
  rw [runOps_append, hp]
  simp only [Option.some_bind]
  unfold runOps
  rw [List.foldlM_cons]
  simp only [ImageOp.step, hu]
  rfl

/-- C3. Backlog bound and where it stops: from a state whose three result queues
hold at most 30 samples each, OldSyntheticImageColor, SyntheticImageDepth and
both retrievals end in such a state, and so does SyntheticImageColor, which has
a result whenever the metadata list holds at most 30 records; every run of
image-side operations that has a result ends in such a state.  A run that
reaches a state with more than 30 records, both lists non-empty, neither
reject test true and a matching pair has no defined result from the next
SyntheticImageColor cycle on. -/
theorem result_queues_bounded (api : ImageApi Img) (s : Camera Img) (hb : QueuesBounded s) :
    (∀ s', SyntheticImageColor api s = some s' → QueuesBounded s') ∧
    (s.img_info_.length ≤ 30 →
      ∃ s', SyntheticImageColor api s = some s' ∧ QueuesBounded s') ∧
    QueuesBounded (OldSyntheticImageColor api s) ∧
    QueuesBounded (SyntheticImageDepth api s) ∧
    (∀ type code r, RetrieveImage type code s = Except.ok r → QueuesBounded r.2.2) ∧
    (∀ type code r, RetrieveLatestImage type code s = Except.ok r → QueuesBounded r.2.2) ∧
    (∀ ops s', runOps api ops s = some s' → QueuesBounded s') ∧
    (∀ pre ops t, runOps api pre s = some t →
      ∀ (hc : t.image_color_ ≠ []) (hi : t.img_info_ ≠ []),
      ¬ api.frame_id (t.image_color_.head hc) > (t.img_info_.getLast hi).frame_id →
      ¬ api.frame_id (t.image_color_.getLast hc) < (t.img_info_.head hi).frame_id →
      30 < t.img_info_.length →
      (∃ c ∈ t.image_color_, ∃ i ∈ t.img_info_, api.frame_id c = i.frame_id) →
      runOps api (pre ++ ImageOp.synthColor :: ops) s = none) := by
  refine ⟨fun s' h => SyntheticImageColor_bounded api s s' hb h, ?_,
    OldSyntheticImageColor_bounded api s hb,
    SyntheticImageDepth_bounded api s hb,
    fun type code r h => RetrieveImage_bounded type code s r hb h,
    fun type code r h => RetrieveLatestImage_bounded type code s r hb h,
    fun ops s' h => foldlM_option_inv (fun st (op : ImageOp Img) => op.step api st)
      QueuesBounded (fun a op a' ha h' => step_bounded api op a a' ha h') ops s s' hb
      (by unfold runOps at h; exact h),
    fun pre ops t hp hc hi hr1 hr2 h30 hm => runOps_undefined api pre ops s t hp
      (SyntheticImageColor_undefined api t hc hi hr1 hr2 h30 hm)⟩
  intro h30
  obtain ⟨s', hs⟩ := Option.isSome_iff_exists.mp (SyntheticImageColor_defined api s h30)
  exact ⟨s', hs, SyntheticImageColor_bounded api s s' hb hs⟩

/-- Witness for C3: `full30` has bounded queues and its colour cycle has a
result with bounded queues; from the idle camera, 31 metadata packets, one
captured frame and a colour cycle have no defined result. -/
theorem result_queues_bounded_witness :
    QueuesBounded full30 ∧
    (∃ s', SyntheticImageColor natApi full30 = some s' ∧ QueuesBounded s') ∧
    QueuesBounded idleCamera ∧
    runOps natApi floodOps idleCamera = some over30Match ∧
    runOps natApi (floodOps ++ [ImageOp.synthColor]) idleCamera = none :=
  have h0 : QueuesBounded full30 := ⟨by decide, by decide, by decide⟩
  have h1 : QueuesBounded idleCamera := ⟨by decide, by decide, by decide⟩
  ⟨h0, (result_queues_bounded natApi full30 h0).2.1 (by decide), h1, rfl,
    (result_queues_bounded natApi idleCamera h1).2.2.2.2.2.2.2 floodOps [] over30Match rfl
      (by decide) (by decide) (by decide) (by decide) (by decide) (by decide)⟩

end RunProofs

/-! ## Theorems: IMU compensation -/

section ImuProofs

variable {Img : Type}

theorem matrix_3x3_zero (a b : Fin 3 → Fin 3 → ℚ) :
    matrix_3x3 a b (fun _ _ => 0) =
      fun i j => a i 0 * b 0 j + a i 1 * b 1 j + a i 2 * b 2 j := by
  funext i j
  fin_cases i <;> fin_cases j <;>
    simp [matrix_3x3, List.finRange, List.pmap, List.range, List.range.loop, Function.update]

theorem matrix_3x1_zero (a : Fin 3 → Fin 3 → ℚ) (v : Fin 3 → Fin 1 → ℚ) :
    matrix_3x1 a v (fun _ _ => 0) =
      fun i j => a i 0 * v 0 j + a i 1 * v 1 j + a i 2 * v 2 j := by
  funext i j
  fin_cases i <;> fin_cases j <;>
    simp [matrix_3x1, List.finRange, List.pmap, List.range, List.range.loop, Function.update]

theorem scaleAssem_channel (k : ImuIntrinsics) (r : Fin 3 → ℚ) :
    (fun i => matrix_3x1 (matrix_3x3 k.scale k.assembly (fun _ _ => 0))
      (fun i _ => r i) (fun _ _ => 0) i 0) = specScaleAssembly k r := by
  funext i
  rw [matrix_3x3_zero, matrix_3x1_zero]
  simp [specScaleAssembly, Matrix.mulVec, Matrix.dotProduct, Matrix.mul_apply,
    Fin.sum_univ_three]

/-- C7. Temperature compensation formula: with a model loaded, a sample flagged
1 has each accel axis value `v` replaced by `v - (slope * temperature +
constant)` with the accelerometer warm-drift pair of that axis (index 1 the
slope, index 0 the constant), a sample flagged 2 likewise on its gyro axes with
the gyroscope model, every other field is kept, and a sample with any other
flag is returned unchanged. -/
theorem TempCompensate_formula (m : MotionIntrinsics) (d : ImuData) :
    (d.flag = 1 → TempCompensate (some m) d =
      { d with accel := fun i =>
          d.accel i - (m.accel.warmDrift i 1 * d.temperature + m.accel.warmDrift i 0) }) ∧
    (d.flag = 2 → TempCompensate (some m) d =
      { d with gyro := fun i =>
          d.gyro i - (m.gyro.warmDrift i 1 * d.temperature + m.gyro.warmDrift i 0) }) ∧
    (d.flag ≠ 1 → d.flag ≠ 2 → TempCompensate (some m) d = d) := by
  refine ⟨?_, ?_, ?_⟩
  · intro h
    simp only [TempCompensate, h, if_true]
    congr 1
    funext i
    fin_cases i <;> simp [ImuIntrinsics.warmDrift]
  · intro h
    simp only [TempCompensate, h, if_true]
    simp only [show ¬ (2 : ℕ) = 1 by decide, if_false]
    congr 1
    funext i
    fin_cases i <;> simp [ImuIntrinsics.warmDrift]
  · intro h1 h2
    simp [TempCompensate, h1, h2]

/-- C8. Scale/assembly compensation formula: with a model loaded, the flagged
channel `r` is replaced by `(scale * assembly) * r`, with the accelerometer
model for flag 1 and the gyroscope model for flag 2, every other field is kept,
a sample with another flag is unchanged, and entry `(i, j)` of the product
matrix_3x3 computes is the sum over `k` of `scale[i][k] * assembly[k][j]`. -/
theorem ScaleAssemCompensate_formula (m : MotionIntrinsics) (d : ImuData) :
    (d.flag = 1 → ScaleAssemCompensate (some m) d =
      { d with accel :=
          Matrix.mulVec (Matrix.of m.accel.scale * Matrix.of m.accel.assembly) d.accel }) ∧
    (d.flag = 2 → ScaleAssemCompensate (some m) d =
      { d with gyro :=
          Matrix.mulVec (Matrix.of m.gyro.scale * Matrix.of m.gyro.assembly) d.gyro }) ∧
    (d.flag ≠ 1 → d.flag ≠ 2 → ScaleAssemCompensate (some m) d = d) ∧
    (∀ (a b : Fin 3 → Fin 3 → ℚ) (i j : Fin 3),
      matrix_3x3 a b (fun _ _ => 0) i j = ∑ k, a i k * b k j) := by
  refine ⟨?_, ?_, ?_, ?_⟩
  · intro h
    simp only [ScaleAssemCompensate, h, if_true]
    rw [scaleAssem_channel]; rfl
  · intro h
    have h1 : ¬ d.flag = 1 := by omega
    simp only [ScaleAssemCompensate, h, if_true]
    simp only [show ¬ (2 : ℕ) = 1 by decide, if_false]
    rw [scaleAssem_channel]; rfl
  · intro h1 h2
    simp [ScaleAssemCompensate, h1, h2]
  · intro a b i j
    rw [matrix_3x3_zero, Fin.sum_univ_three]

/-- Witness for C7: the x reading 3 at temperature 24 becomes `3 - (0 * 24 + 1)`. -/
theorem TempCompensate_formula_witness :
    (TempCompensate (some driftModel) (convertSegment accelSegment)).accel 0 = 2 := by
  rw [(TempCompensate_formula driftModel (convertSegment accelSegment)).1
    (by simp [convertSegment, accelSegment])]
  simp [convertSegment, accelSegment, driftModel, driftIntrinsics, ImuIntrinsics.warmDrift]
  norm_num

/-- Witness for C8: the x reading 3 under scale `2 * I` and assembly `I` becomes 6. -/
theorem ScaleAssemCompensate_formula_witness :
    (ScaleAssemCompensate (some driftModel) (convertSegment accelSegment)).accel 0 = 6 := by
  rw [(ScaleAssemCompensate_formula driftModel (convertSegment accelSegment)).1
    (by simp [convertSegment, accelSegment])]
  simp [convertSegment, accelSegment, driftModel, driftIntrinsics, Matrix.mulVec,
    Matrix.dotProduct, Matrix.mul_apply, Fin.sum_univ_three]
  norm_num

theorem TempCompensate_none (d : ImuData) : TempCompensate none d = d := rfl

theorem ScaleAssemCompensate_none (d : ImuData) : ScaleAssemCompensate none d = d := rfl

theorem compensate_none (modes : ProcessMode → Bool) (d : ImuData) :
    compensate modes none d = d := by
  unfold compensate
  split_ifs <;> rfl

theorem imuSegmentStep_frame (s : Camera Img) (seg : ImuSegment) :
    (imuSegmentStep s seg).is_process_mode_ = s.is_process_mode_ ∧
    (imuSegmentStep s seg).motion_intrinsics_ = s.motion_intrinsics_ ∧
    (imuSegmentStep s seg).motion_count_ = s.motion_count_ + 1 := by
  unfold imuSegmentStep
  by_cases h : s.motion_count_ + 1 > 20 <;> simp [h]

theorem ImuDataCallback_imu_data (modes : ProcessMode → Bool) (intr : Option MotionIntrinsics)
    (packet : List ImuSegment) :
    ∀ s : Camera Img, s.is_process_mode_ = modes → s.motion_intrinsics_ = intr →
      s.cache_imu_data_ = [] →
      (ImuDataCallback packet s).imu_data_ = s.imu_data_ ++
          (packet.drop (20 - s.motion_count_)).map
            (fun seg => compensate modes intr (convertSegment seg)) ∧
        (ImuDataCallback packet s).cache_imu_data_ = [] := by
  induction packet with
  | nil => intro s _ _ hc; simp [ImuDataCallback, hc]
  | cons seg rest ih =>
    intro s hm hi hc
    have hf := imuSegmentStep_frame s seg
    have hstep : ImuDataCallback (seg :: rest) s = ImuDataCallback rest (imuSegmentStep s seg) :=
      rfl
    rw [hstep]
    by_cases h : s.motion_count_ + 1 > 20
    · have h1 : (imuSegmentStep s seg).imu_data_ =
          s.imu_data_ ++ [compensate modes intr (convertSegment seg)] := by
        simp [imuSegmentStep, imuSample, h, hc, hm, hi]
      have h2 : (imuSegmentStep s seg).cache_imu_data_ = [] := by
        simp [imuSegmentStep, h]
      obtain ⟨a, b⟩ := ih (imuSegmentStep s seg) (by rw [hf.1, hm]) (by rw [hf.2.1, hi]) h2
      refine ⟨?_, b⟩
      rw [a, h1, hf.2.2]
      have e1 : 20 - (s.motion_count_ + 1) = 0 := by omega
      have e2 : 20 - s.motion_count_ = 0 := by omega
      simp [e1, e2]
    · have h1 : (imuSegmentStep s seg).imu_data_ = s.imu_data_ := by
        simp [imuSegmentStep, h]
      have h2 : (imuSegmentStep s seg).cache_imu_data_ = [] := by
        simp [imuSegmentStep, h, hc]
      obtain ⟨a, b⟩ := ih (imuSegmentStep s seg) (by rw [hf.1, hm]) (by rw [hf.2.1, hi]) h2
      refine ⟨?_, b⟩
      rw [a, h1, hf.2.2]
      have e : 20 - s.motion_count_ = (20 - (s.motion_count_ + 1)) + 1 := by omega
      rw [e, List.drop_succ_cons]

/-- C6. No-model identity: with `motion_intrinsics_` unset, TempCompensate and
ScaleAssemCompensate return every sample unchanged, so whatever process modes
are enabled the sample ImuDataCallback builds is the converted raw sample, and
the samples a packet commits are the converted raw samples of its segments
past the counter threshold. -/
theorem no_model_identity (s : Camera Img) (h : s.motion_intrinsics_ = none) :
    (∀ d, TempCompensate s.motion_intrinsics_ d = d) ∧
    (∀ d, ScaleAssemCompensate s.motion_intrinsics_ d = d) ∧
    (∀ seg, imuSample s seg = convertSegment seg) ∧
    (∀ packet, s.cache_imu_data_ = [] →
      (ImuDataCallback packet s).imu_data_ =
        s.imu_data_ ++ (packet.drop (20 - s.motion_count_)).map convertSegment) := by
  refine ⟨?_, ?_, ?_, ?_⟩
  · intro d; rw [h]; rfl
  · intro d; rw [h]; rfl
  · intro seg; unfold imuSample; rw [h]; exact compensate_none _ _
  · intro packet hc
    rw [(ImuDataCallback_imu_data s.is_process_mode_ none packet s rfl h hc).1]
    simp only [compensate_none]

/-- C5 (amended). Compensation ordering: with a model loaded and
`ProcessMode::ALL` the only enabled mode, the sample ImuDataCallback builds is
ScaleAssemCompensate applied to the result of TempCompensate, so its flagged
channel is `scale_assembly(temperature_compensated(raw))`; with the counter at
20 or more that sample is the one appended to the IMU queue. -/
theorem ImuDataCallback_all_mode (s : Camera Img) (m : MotionIntrinsics) (seg : ImuSegment)
    (hm : s.motion_intrinsics_ = some m)
    (h1 : s.is_process_mode_ ProcessMode.ASSEMBLY = false)
    (h2 : s.is_process_mode_ ProcessMode.WARM_DRIFT = false)
    (h3 : s.is_process_mode_ ProcessMode.ALL = true) :
    imuSample s seg =
      ScaleAssemCompensate (some m) (TempCompensate (some m) (convertSegment seg)) ∧
    (seg.flag = 1 → (imuSample s seg).accel =
      specScaleAssembly m.accel
        (specTempCompensated m.accel (convertSegment seg).temperature
          (convertSegment seg).accel)) ∧
    (seg.flag = 2 → (imuSample s seg).gyro =
      specScaleAssembly m.gyro
        (specTempCompensated m.gyro (convertSegment seg).temperature
          (convertSegment seg).gyro)) ∧
    (20 ≤ s.motion_count_ → s.cache_imu_data_ = [] →
      (ImuDataCallback [seg] s).imu_data_ = s.imu_data_ ++ [imuSample s seg]) := by
  have h0 : imuSample s seg =
      ScaleAssemCompensate (some m) (TempCompensate (some m) (convertSegment seg)) := by
    simp [imuSample, compensate, h1, h2, h3, hm]
  refine ⟨h0, ?_, ?_, ?_⟩
  · intro hf
    rw [h0]
    have hc : (convertSegment seg).flag = 1 := by simp [convertSegment, hf]
    simp only [TempCompensate, hc, if_true, ScaleAssemCompensate]
    rw [scaleAssem_channel]
    exact congrArg _ (by
      funext i
      fin_cases i <;> simp [specTempCompensated, ImuIntrinsics.warmDrift])
  · intro hf
    rw [h0]
    have hc : (convertSegment seg).flag = 2 := by simp [convertSegment, hf]
    simp only [TempCompensate, hc, ScaleAssemCompensate]
    simp only [show ¬ (2 : ℕ) = 1 by decide, if_false, if_true]
    rw [scaleAssem_channel]
    exact congrArg _ (by
      funext i
      fin_cases i <;> simp [specTempCompensated, ImuIntrinsics.warmDrift])
  · intro hc20 hcache
    have := (ImuDataCallback_imu_data s.is_process_mode_ s.motion_intrinsics_ [seg] s rfl rfl
      hcache).1
    rw [this]
    have e : 20 - s.motion_count_ = 0 := by omega
    simp [e, imuSample]

/-- C5, counterexample: in ALL mode with `driftModel` the committed x reading
is 4, which is `2 * (3 - 1)`, whereas scale/assembly of the raw reading is 6. -/
theorem ImuDataCallback_all_mode_counterexample :
    (ImuDataCallback [accelSegment] allModeCamera).imu_data_.map (fun d => d.accel 0) = [4] ∧
    specScaleAssembly driftModel.accel (convertSegment accelSegment).accel 0 = 6 ∧
    (imuSample allModeCamera accelSegment).accel ≠
      specScaleAssembly driftModel.accel (convertSegment accelSegment).accel := by
  have hv : (imuSample allModeCamera accelSegment).accel 0 = 4 := by
    simp [imuSample, compensate, allModeCamera, idleCamera, convertSegment, accelSegment,
      TempCompensate, ScaleAssemCompensate, matrix_3x3_zero, matrix_3x1_zero, driftModel,
      driftIntrinsics]
    norm_num
  have hs : specScaleAssembly driftModel.accel (convertSegment accelSegment).accel 0 = 6 := by
    simp [specScaleAssembly, Matrix.mulVec, Matrix.dotProduct, Matrix.mul_apply,
      Fin.sum_univ_three, convertSegment, accelSegment, driftModel, driftIntrinsics]
    norm_num
  refine ⟨?_, hs, ?_⟩
  · have : (ImuDataCallback [accelSegment] allModeCamera).imu_data_ =
        [imuSample allModeCamera accelSegment] := by
      simp [ImuDataCallback, imuSegmentStep, allModeCamera, idleCamera]
    rw [this]
    simp [hv]
  · intro h
    have := congrFun h 0
    rw [hv, hs] at this
    norm_num at this

/-- Witness for C5: the amended formula at `allModeCamera`, `accelSegment`. -/
theorem ImuDataCallback_all_mode_witness :
    (imuSample allModeCamera accelSegment).accel =
      specScaleAssembly driftModel.accel
        (specTempCompensated driftModel.accel (convertSegment accelSegment).temperature
          (convertSegment accelSegment).accel) :=
  (ImuDataCallback_all_mode allModeCamera driftModel accelSegment rfl rfl rfl rfl).2.1 rfl

/-- Witness for C6: a camera with every mode enabled and no model. -/
theorem no_model_identity_witness :
    noModelCamera.motion_intrinsics_ = none ∧
      imuSample noModelCamera accelSegment = convertSegment accelSegment :=
  ⟨rfl, (no_model_identity noModelCamera rfl).2.2.1 accelSegment⟩

end ImuProofs

/-! ## Theorems: extrinsics -/

section ExtrinsicsProofs

/-- C9. Extrinsics involution: for every Extrinsics, inverting twice gives back
the same rotation matrix and the same translation vector. -/
theorem Extrinsics_Inverse_Inverse (e : Extrinsics) : e.Inverse.Inverse = e := by
  apply Extrinsics.ext
  · funext i j
    fin_cases i <;> fin_cases j <;> simp [Extrinsics.Inverse]
  · funext i
    fin_cases i <;> simp [Extrinsics.Inverse]

theorem Inverse_rotation (e : Extrinsics) : e.Inverse.rotation = e.specInverse.rotation := by
  funext i j
  fin_cases i <;> fin_cases j <;> simp [Extrinsics.Inverse, Extrinsics.specInverse]

/-- C10, evaluation at the failing input: for the quarter turn about z with
translation `(1, 0, 0)` the code returns translation `(-1, 0, 0)` where exact
inversion gives `(0, 1, 0)`; the rotation is orthonormal, and applying the
extrinsics and then the code's inverse to the origin gives `(-1, -1, 0)`
instead of the origin. -/
theorem Extrinsics_Inverse_not_exact :
    quarterTurn.Inverse.translation = ![-1, 0, 0] ∧
    quarterTurn.specInverse.translation = ![0, 1, 0] ∧
    quarterTurn.Inverse.translation ≠ quarterTurn.specInverse.translation ∧
    (∀ i j, ∑ k, quarterTurn.rotation k i * quarterTurn.rotation k j = if i = j then 1 else 0) ∧
    quarterTurn.Inverse.specTransform (quarterTurn.specTransform ![0, 0, 0]) = ![-1, -1, 0] ∧
    quarterTurn.specInverse.specTransform (quarterTurn.specTransform ![0, 0, 0]) = ![0, 0, 0] := by
  have h1 : quarterTurn.Inverse.translation = ![-1, 0, 0] := by
    funext i; fin_cases i <;> simp [Extrinsics.Inverse, quarterTurn]
  have h2 : quarterTurn.specInverse.translation = ![0, 1, 0] := by
    funext i
    fin_cases i <;>
      simp [Extrinsics.specInverse, quarterTurn, Matrix.mulVec, Matrix.dotProduct,
        Fin.sum_univ_three]
  refine ⟨h1, h2, ?_, ?_, ?_, ?_⟩
  · intro h
    have := congrFun h 0
    rw [h1, h2] at this
    norm_num at this
  · intro i j
    fin_cases i <;> fin_cases j <;>
      simp [quarterTurn, Fin.sum_univ_three, Matrix.vecHead, Matrix.vecTail]
  · funext i
    fin_cases i <;>
      simp [Extrinsics.specTransform, Extrinsics.Inverse, quarterTurn, Matrix.mulVec,
        Matrix.dotProduct, Fin.sum_univ_three]
  · funext i
    fin_cases i <;>
      simp [Extrinsics.specTransform, Extrinsics.specInverse, quarterTurn, Matrix.mulVec,
        Matrix.dotProduct, Fin.sum_univ_three]

end ExtrinsicsProofs

/-! ## Theorems: retrieval -/

section RetrievalProofs

variable {Img : Type}

theorem IsOpened_clearQueue (type : ImageType) (s : Camera Img) :
    IsOpened (clearQueue type s) = IsOpened s := by
  cases type <;> rfl

theorem RetrieveImage_opened (type : ImageType) (code : ErrorCode) (s : Camera Img)
    (ho : IsOpened s = true) (ht : type ≠ ImageType.ALL)
    (hr : type = ImageType.IMAGE_RIGHT_COLOR → s.is_enable_right = true) :
    RetrieveImage type code s = Except.ok (resultQueue type s, code, clearQueue type s) := by
  cases type with
  | ALL => exact absurd rfl ht
  | IMAGE_LEFT_COLOR => simp [RetrieveImage, ho, resultQueue, clearQueue]
  | IMAGE_RIGHT_COLOR => simp [RetrieveImage, ho, hr rfl, resultQueue, clearQueue]
  | IMAGE_DEPTH => simp [RetrieveImage, ho, resultQueue, clearQueue]

/-- C11. The call retrieve_all drains: on an opened camera RetrieveImage for left
colour, right colour (stream enabled) or depth returns the whole result queue
of that stream in queue order with the error code untouched, leaves that queue
empty and the other two result queues and the staging lists as they were, and
a call repeated at once returns the empty sequence. -/
theorem RetrieveImage_drains (type : ImageType) (code : ErrorCode) (s : Camera Img)
    (ho : IsOpened s = true) (ht : type ≠ ImageType.ALL)
    (hr : type = ImageType.IMAGE_RIGHT_COLOR → s.is_enable_right = true) :
    RetrieveImage type code s = Except.ok (resultQueue type s, code, clearQueue type s) ∧
    resultQueue type (clearQueue type s) = [] ∧
    (∀ other, other ≠ type → resultQueue other (clearQueue type s) = resultQueue other s) ∧
    (clearQueue type s).image_color_ = s.image_color_ ∧
    (clearQueue type s).image_depth_ = s.image_depth_ ∧
    (clearQueue type s).img_info_ = s.img_info_ ∧
    RetrieveImage type code (clearQueue type s) = Except.ok ([], code, clearQueue type s) := by
  have hq : resultQueue type (clearQueue type s) = [] := by cases type <;> rfl
  have hcc : clearQueue type (clearQueue type s) = clearQueue type s := by cases type <;> rfl
  refine ⟨RetrieveImage_opened type code s ho ht hr, hq, ?_, ?_, ?_, ?_, ?_⟩
  · intro other h
    cases type <;> cases other <;> first | rfl | exact absurd rfl h
  · cases type <;> rfl
  · cases type <;> rfl
  · cases type <;> rfl
  · rw [RetrieveImage_opened type code (clearQueue type s)
      (by rw [IsOpened_clearQueue]; exact ho) ht
      (by intro h; subst h; exact hr rfl), hq, hcc]

/-- Witness for C11: draining the left queue of `loadedCamera`. -/
theorem RetrieveImage_drains_witness :
    IsOpened loadedCamera = true ∧
    RetrieveImage ImageType.IMAGE_LEFT_COLOR ErrorCode.SUCCESS loadedCamera =
      Except.ok ([{ img := some 1, img_info := none }, { img := some 2, img_info := none }],
        ErrorCode.SUCCESS, { loadedCamera with left_color_data_ := [] }) :=
  ⟨by decide, (RetrieveImage_drains ImageType.IMAGE_LEFT_COLOR ErrorCode.SUCCESS loadedCamera
    (by decide) (by decide) (by decide)).1⟩

/-- C12. The call retrieve_latest: on an opened camera RetrieveLatestImage for a
stream returns the last sample of that stream's result queue and leaves the
queue empty; on an empty queue it returns the empty sample and changes nothing;
and whenever RetrieveImage returns on the same state, the sample is the last
element of what RetrieveImage returns (the empty sample if that is empty). -/
theorem RetrieveLatestImage_latest (type : ImageType) (code : ErrorCode) (s : Camera Img)
    (ho : IsOpened s = true) (ht : type ≠ ImageType.ALL) :
    (resultQueue type s = [] →
      RetrieveLatestImage type code s = Except.ok (emptyStreamData, code, s)) ∧
    (∀ last, (resultQueue type s).getLast? = some last →
      RetrieveLatestImage type code s = Except.ok (last, code, clearQueue type s)) ∧
    (∀ r, RetrieveImage type code s = Except.ok r →
      ∃ r', RetrieveLatestImage type code s = Except.ok r' ∧
        r'.1 = r.1.getLast?.getD emptyStreamData) := by
  have hemp : ∀ q : List (StreamData Img), q = [] → q.getLast? = none := by
    intro q h; rw [h]; rfl
  cases type with
  | ALL => exact absurd rfl ht
  | IMAGE_LEFT_COLOR =>
    refine ⟨?_, ?_, ?_⟩
    · intro h
      have := hemp _ h
      simp only [resultQueue] at this
      simp [RetrieveLatestImage, ho, this]
    · intro last h
      simp only [resultQueue] at h
      simp [RetrieveLatestImage, ho, h, clearQueue]
    · intro r h
      simp [RetrieveImage, ho] at h
      subst h
      cases hl : s.left_color_data_.getLast? <;> simp [RetrieveLatestImage, ho, hl]
  | IMAGE_RIGHT_COLOR =>
    refine ⟨?_, ?_, ?_⟩
    · intro h
      have := hemp _ h
      simp only [resultQueue] at this
      simp [RetrieveLatestImage, ho, this]
    · intro last h
      simp only [resultQueue] at h
      simp [RetrieveLatestImage, ho, h, clearQueue]
    · intro r h
      by_cases he : s.is_enable_right
      · simp [RetrieveImage, ho, he] at h
        subst h
        cases hl : s.right_color_data_.getLast? <;> simp [RetrieveLatestImage, ho, hl]
      · simp [RetrieveImage, ho, he] at h
  | IMAGE_DEPTH =>
    refine ⟨?_, ?_, ?_⟩
    · intro h
      have := hemp _ h
      simp only [resultQueue] at this
      simp [RetrieveLatestImage, ho, this]
    · intro last h
      simp only [resultQueue] at h
      simp [RetrieveLatestImage, ho, h, clearQueue]
    · intro r h
      simp [RetrieveImage, ho] at h
      subst h
      cases hl : s.depth_data_.getLast? <;> simp [RetrieveLatestImage, ho, hl]

/-- Witness for C12: the latest left sample of `loadedCamera`. -/
theorem RetrieveLatestImage_latest_witness :
    IsOpened loadedCamera = true ∧
    RetrieveLatestImage ImageType.IMAGE_LEFT_COLOR ErrorCode.SUCCESS loadedCamera =
      Except.ok ({ img := some 2, img_info := none }, ErrorCode.SUCCESS,
        { loadedCamera with left_color_data_ := [] }) :=
  ⟨by decide, (RetrieveLatestImage_latest ImageType.IMAGE_LEFT_COLOR ErrorCode.SUCCESS
    loadedCamera (by decide) (by decide)).2.1 _ (by decide)⟩

/-- C13. Device not ready: with the selected device index at -1 the camera is
not opened, and RetrieveImage and RetrieveLatestImage, for every image type,
set the error code to ERROR_CAMERA_NOT_OPENED, return an empty result and leave
the whole state, every queue and staging list included, unchanged. -/
theorem retrieval_not_opened (type : ImageType) (code : ErrorCode) (s : Camera Img)
    (h : s.dev_sel_info_index = -1) :
    IsOpened s = false ∧
    RetrieveImage type code s = Except.ok ([], ErrorCode.ERROR_CAMERA_NOT_OPENED, s) ∧
    RetrieveLatestImage type code s =
      Except.ok (emptyStreamData, ErrorCode.ERROR_CAMERA_NOT_OPENED, s) := by
  have ho : IsOpened s = false := by simp [IsOpened, h]
  exact ⟨ho, by simp [RetrieveImage, ho], by simp [RetrieveLatestImage, ho]⟩

/-- Witness for C13: `unopenedCamera` keeps its queues. -/
theorem retrieval_not_opened_witness :
    unopenedCamera.dev_sel_info_index = -1 ∧
    RetrieveImage ImageType.IMAGE_LEFT_COLOR ErrorCode.SUCCESS unopenedCamera =
      Except.ok ([], ErrorCode.ERROR_CAMERA_NOT_OPENED, unopenedCamera) :=
  ⟨rfl, (retrieval_not_opened ImageType.IMAGE_LEFT_COLOR ErrorCode.SUCCESS unopenedCamera
    rfl).2.1⟩

theorem GetImuDatas_eq (s : Camera Img) :
    (GetImuDatas s).2.1 = s.imu_data_ ∧ (GetImuDatas s).2.2 = { s with imu_data_ := [] } :=
  ⟨rfl, rfl⟩

/-- C14, evaluation at the failing inputs: on a closed camera (device index -1)
with one sample in the IMU queue GetImuDatas logs nothing, returns that sample
and empties the queue; on a camera whose IMU was never opened it only writes a
log line and returns normally. -/
theorem GetImuDatas_not_ready :
    IsOpened closedImuCamera = false ∧
    closedImuCamera.imu_data_.length = 1 ∧
    (GetImuDatas closedImuCamera).1 = none ∧
    (GetImuDatas closedImuCamera).2.1.map (fun d => d.timestamp) = [7] ∧
    (GetImuDatas closedImuCamera).2.2.imu_data_.length = 0 ∧
    imuNeverOpened.is_imu_open_ = false ∧
    (GetImuDatas imuNeverOpened).1 = some "Imu is not opened !" ∧
    (GetImuDatas imuNeverOpened).2.1.length = 0 := by
  refine ⟨by decide, by decide, by decide, by decide, by decide, by decide, by decide, by decide⟩

/-- C15, evaluation at the failing input: on an opened camera with the right
stream disabled RetrieveImage throws for IMAGE_RIGHT_COLOR, whereas
RetrieveLatestImage returns normally, with the empty sample and the error code
untouched. -/
theorem RetrieveLatestImage_right_disabled :
    IsOpened idleCamera = true ∧ idleCamera.is_enable_right = false ∧
    RetrieveImage ImageType.IMAGE_RIGHT_COLOR ErrorCode.SUCCESS idleCamera =
      Except.error "RetrieveImage: Right color is disable." ∧
    RetrieveLatestImage ImageType.IMAGE_RIGHT_COLOR ErrorCode.SUCCESS idleCamera =
      Except.ok (emptyStreamData, ErrorCode.SUCCESS, idleCamera) := by
  refine ⟨by decide, by decide, rfl, rfl⟩

end RetrievalProofs

/-! ## Theorems: IMU batching and channels -/

section ImuBatchProofs

variable {Img : Type}

theorem ImuDataCallback_motion_count (packet : List ImuSegment) :
    ∀ s : Camera Img, (ImuDataCallback packet s).motion_count_ = s.motion_count_ + packet.length := by
  induction packet with
  | nil => intro s; rfl
  | cons seg rest ih =>
    intro s
    have hstep : ImuDataCallback (seg :: rest) s = ImuDataCallback rest (imuSegmentStep s seg) :=
      rfl
    rw [hstep, ih, (imuSegmentStep_frame s seg).2.2, List.length_cons]
    omega

theorem ImuDataCallback_packets (packets : List (List ImuSegment)) :
    ∀ s : Camera Img, packets.foldl (fun st p => ImuDataCallback p st) s =
      ImuDataCallback packets.flatten s := by
  induction packets with
  | nil => intro s; rfl
  | cons p rest ih =>
    intro s
    rw [List.foldl_cons, ih, List.flatten_cons]
    unfold ImuDataCallback
    rw [List.foldl_append]

/-- C16 (amended). IMU commit threshold: starting from a fresh camera (counter
0, empty local buffer, empty IMU queue), after any packets have been delivered
to ImuDataCallback the local buffer is empty and the IMU queue holds the
compensated samples of all delivered segments but the first 20, in arrival
order: `N - 20` samples after `N` segments. -/
theorem ImuDataCallback_from_fresh (s : Camera Img) (packets : List (List ImuSegment))
    (h0 : s.motion_count_ = 0) (hc : s.cache_imu_data_ = []) (hq : s.imu_data_ = []) :
    (packets.foldl (fun st p => ImuDataCallback p st) s).imu_data_ =
      (packets.flatten.drop 20).map (imuSample s) ∧
    (packets.foldl (fun st p => ImuDataCallback p st) s).cache_imu_data_ = [] ∧
    (packets.foldl (fun st p => ImuDataCallback p st) s).imu_data_.length =
      packets.flatten.length - 20 := by
  rw [ImuDataCallback_packets]
  obtain ⟨a, b⟩ := ImuDataCallback_imu_data s.is_process_mode_ s.motion_intrinsics_
    packets.flatten s rfl rfl hc
  have e : (ImuDataCallback packets.flatten s).imu_data_ =
      (packets.flatten.drop 20).map (imuSample s) := by
    rw [a, hq, h0]; rfl
  refine ⟨e, b, ?_⟩
  rw [e, List.length_map, List.length_drop]

/-- Witness for C16: 21 segments leave one sample. -/
theorem ImuDataCallback_from_fresh_witness :
    idleCamera.motion_count_ = 0 ∧
    ([(List.range 21).map numberedSegment].foldl (fun st p => ImuDataCallback p st)
      idleCamera).imu_data_.length = 1 :=
  ⟨rfl, (ImuDataCallback_from_fresh idleCamera [(List.range 21).map numberedSegment]
    rfl rfl rfl).2.2⟩

/-- C16, counterexample: from the fresh `idleCamera`, 20 segments leave nothing
in the local buffer, and 21 segments leave only the last one in the IMU queue,
not 21. -/
theorem ImuDataCallback_drops_first_20 :
    idleCamera.motion_count_ = 0 ∧ idleCamera.cache_imu_data_.length = 0 ∧
    idleCamera.imu_data_.length = 0 ∧
    (ImuDataCallback ((List.range 20).map numberedSegment) idleCamera).cache_imu_data_.length
      = 0 ∧
    (ImuDataCallback ((List.range 21).map numberedSegment) idleCamera).imu_data_.map
      (fun d => d.timestamp) = [20] := by
  refine ⟨rfl, rfl, rfl, by decide, by decide⟩

theorem TempCompensate_channels (intr : Option MotionIntrinsics) (d : ImuData) :
    (TempCompensate intr d).flag = d.flag ∧
    (d.flag = 1 → (TempCompensate intr d).gyro = d.gyro) ∧
    (d.flag = 2 → (TempCompensate intr d).accel = d.accel) ∧
    (d.flag ≠ 1 → d.flag ≠ 2 → TempCompensate intr d = d) := by
  cases intr with
  | none => exact ⟨rfl, fun _ => rfl, fun _ => rfl, fun _ _ => rfl⟩
  | some m =>
    unfold TempCompensate
    by_cases h1 : d.flag = 1
    · simp [h1]
    · by_cases h2 : d.flag = 2
      · simp [h2]
      · simp [h1, h2]

theorem ScaleAssemCompensate_channels (intr : Option MotionIntrinsics) (d : ImuData) :
    (ScaleAssemCompensate intr d).flag = d.flag ∧
    (d.flag = 1 → (ScaleAssemCompensate intr d).gyro = d.gyro) ∧
    (d.flag = 2 → (ScaleAssemCompensate intr d).accel = d.accel) ∧
    (d.flag ≠ 1 → d.flag ≠ 2 → ScaleAssemCompensate intr d = d) := by
  cases intr with
  | none => exact ⟨rfl, fun _ => rfl, fun _ => rfl, fun _ _ => rfl⟩
  | some m =>
    unfold ScaleAssemCompensate
    by_cases h1 : d.flag = 1
    · simp [h1]
    · by_cases h2 : d.flag = 2
      · simp [h2]
      · simp [h1, h2]

theorem compensate_channels (modes : ProcessMode → Bool) (intr : Option MotionIntrinsics)
    (d : ImuData) :
    (compensate modes intr d).flag = d.flag ∧
    (d.flag = 1 → (compensate modes intr d).gyro = d.gyro) ∧
    (d.flag = 2 → (compensate modes intr d).accel = d.accel) ∧
    (d.flag ≠ 1 → d.flag ≠ 2 → compensate modes intr d = d) := by
  have hT := TempCompensate_channels intr d
  have hS := ScaleAssemCompensate_channels intr d
  have hST := ScaleAssemCompensate_channels intr (TempCompensate intr d)
  unfold compensate
  split_ifs
  · exact hS
  · exact hT
  · refine ⟨by rw [hST.1, hT.1], ?_, ?_, ?_⟩
    · intro h; rw [hST.2.1 (by rw [hT.1]; exact h), hT.2.1 h]
    · intro h; rw [hST.2.2.1 (by rw [hT.1]; exact h), hT.2.2.1 h]
    · intro h1 h2; rw [hT.2.2.2 h1 h2, hS.2.2.2 h1 h2]
  · exact ⟨rfl, fun _ => rfl, fun _ => rfl, fun _ _ => rfl⟩

theorem convertSegment_channels (seg : ImuSegment) :
    (seg.flag = 1 → (convertSegment seg).flag = 1 ∧ (convertSegment seg).gyro = fun _ => 0) ∧
    (seg.flag = 2 → (convertSegment seg).flag = 2 ∧ (convertSegment seg).accel = fun _ => 0) ∧
    (seg.flag ≠ 1 → seg.flag ≠ 2 → convertSegment seg = ImuData.Reset) := by
  unfold convertSegment
  refine ⟨?_, ?_, ?_⟩
  · intro h; simp [h]
  · intro h; simp [h]
  · intro h1 h2; simp [h1, h2]

/-- C19. Mutually exclusive IMU channels: whatever the segment, the enabled
process modes and the calibration model (or none), the sample ImuDataCallback
builds and compensates has all three gyro axes 0 when its flag is 1, all three
accel axes 0 when its flag is 2, and is the reset sample (flag 0, timestamp 0,
temperature 0, all six axes 0) for any other flag value, of the sample or of
the segment. -/
theorem imuSample_channels_exclusive (s : Camera Img) (seg : ImuSegment) :
    ((imuSample s seg).flag = 1 → ∀ i, (imuSample s seg).gyro i = 0) ∧
    ((imuSample s seg).flag = 2 → ∀ i, (imuSample s seg).accel i = 0) ∧
    ((imuSample s seg).flag ≠ 1 → (imuSample s seg).flag ≠ 2 →
      imuSample s seg = ImuData.Reset) ∧
    (seg.flag ≠ 1 → seg.flag ≠ 2 → imuSample s seg = ImuData.Reset) := by
  have hc := compensate_channels s.is_process_mode_ s.motion_intrinsics_ (convertSegment seg)
  have hv := convertSegment_channels seg
  have hreset : seg.flag ≠ 1 → seg.flag ≠ 2 → imuSample s seg = ImuData.Reset := by
    intro h1 h2
    have e := hv.2.2 h1 h2
    unfold imuSample
    rw [e]
    exact (compensate_channels s.is_process_mode_ s.motion_intrinsics_ ImuData.Reset).2.2.2
      (by decide) (by decide)
  have hflag : (imuSample s seg).flag = (convertSegment seg).flag := hc.1
  refine ⟨?_, ?_, ?_, hreset⟩
  · intro h i
    by_cases h1 : seg.flag = 1
    · have := hc.2.1 (hv.1 h1).1
      show (compensate _ _ _).gyro i = 0
      rw [this, (hv.1 h1).2]
    · by_cases h2 : seg.flag = 2
      · rw [hflag, (hv.2.1 h2).1] at h; exact absurd h (by decide)
      · rw [hreset h1 h2]; rfl
  · intro h i
    by_cases h2 : seg.flag = 2
    · have := hc.2.2.1 (hv.2.1 h2).1
      show (compensate _ _ _).accel i = 0
      rw [this, (hv.2.1 h2).2]
    · by_cases h1 : seg.flag = 1
      · rw [hflag, (hv.1 h1).1] at h; exact absurd h (by decide)
      · rw [hreset h1 h2]; rfl
  · intro h1 h2
    by_cases g1 : seg.flag = 1
    · rw [hflag, (hv.1 g1).1] at h1; exact absurd rfl h1
    · by_cases g2 : seg.flag = 2
      · rw [hflag, (hv.2.1 g2).1] at h2; exact absurd rfl h2
      · exact hreset g1 g2

/-- Witness for C19: an accelerometer sample in ALL mode with a model loaded. -/
theorem imuSample_channels_exclusive_witness :
    (imuSample allModeCamera accelSegment).flag = 1 ∧
      ∀ i, (imuSample allModeCamera accelSegment).gyro i = 0 :=
  have h : (imuSample allModeCamera accelSegment).flag = 1 :=
    (compensate_channels _ _ _).1.trans rfl
  ⟨h, (imuSample_channels_exclusive allModeCamera accelSegment).1 h⟩

end ImuBatchProofs

/-! ## Theorems: unmatched backlog and frame id wraparound -/

section BacklogProofs

variable {Img : Type}

theorem matchInfo_foldlM_nomatch (api : ImageApi Img) (c : Img) (infos : List ImgInfo) :
    (∀ i ∈ infos, api.frame_id c ≠ i.frame_id) →
      ∀ t : Camera Img, infos.foldlM (matchInfo api c) t = some t := by
  induction infos with
  | nil => intro _ t; rfl
  | cons i rest ih =>
    intro h t
    rw [List.foldlM_cons]
    have hstep : matchInfo api c t i = some t := by
      unfold matchInfo; simp [h i (List.mem_cons_self _ _)]
    rw [hstep]
    simp only [Option.bind_eq_bind, Option.some_bind]
    exact ih (fun j hj => h j (List.mem_cons_of_mem _ hj)) t

theorem matchColor_foldlM_nomatch (api : ImageApi Img) (frames : List Img) (t : Camera Img) :
    (∀ c ∈ frames, ∀ i ∈ t.img_info_, api.frame_id c ≠ i.frame_id) →
      frames.foldlM (matchColor api) t = some t := by
  induction frames with
  | nil => intro _; rfl
  | cons c rest ih =>
    intro h
    rw [List.foldlM_cons]
    have hstep : matchColor api t c = some t :=
      matchInfo_foldlM_nomatch api c t.img_info_ (h c (List.mem_cons_self _ _)) t
    rw [hstep]
    simp only [Option.bind_eq_bind, Option.some_bind]
    exact ih (fun d hd => h d (List.mem_cons_of_mem _ hd))

/-- C17 (amended). Unmatched backlog: with more than 5 staged colour frames (7
in the scenario) none of which has the frame id of any metadata record, one
SyntheticImageColor cycle on a non-empty metadata list leaves the staged frame
list empty and the three result queues as they were; on an empty metadata list
it changes nothing, so the frames stay staged. -/
theorem SyntheticImageColor_unmatched_backlog (api : ImageApi Img) (s : Camera Img)
    (hlen : 5 < s.image_color_.length)
    (hno : ∀ c ∈ s.image_color_, ∀ i ∈ s.img_info_, api.frame_id c ≠ i.frame_id) :
    (s.img_info_ = [] → SyntheticImageColor api s = some s) ∧
    (s.img_info_ ≠ [] → ∃ s', SyntheticImageColor api s = some s' ∧
      s'.image_color_ = [] ∧ s'.left_color_data_ = s.left_color_data_ ∧
      s'.right_color_data_ = s.right_color_data_ ∧ s'.depth_data_ = s.depth_data_) := by
  constructor
  · intro he
    unfold SyntheticImageColor
    rw [he]
    cases s.image_color_.head? <;> cases s.image_color_.getLast? <;> rfl
  · intro hi
    have hc : s.image_color_ ≠ [] := by
      intro h; rw [h] at hlen; simp at hlen
    unfold SyntheticImageColor
    rw [List.head?_eq_head hc, List.getLast?_eq_getLast _ hc, List.head?_eq_head hi,
      List.getLast?_eq_getLast _ hi]
    by_cases h1 : api.frame_id (s.image_color_.head hc) > (s.img_info_.getLast hi).frame_id
    · simp only [h1, if_true, hlen]
      exact ⟨_, rfl, rfl, rfl, rfl, rfl⟩
    · by_cases h2 : api.frame_id (s.image_color_.getLast hc) < (s.img_info_.head hi).frame_id
      · simp only [h1, h2, if_true, if_false]
        refine ⟨_, rfl, rfl, ?_, ?_, ?_⟩ <;> split_ifs <;> rfl
      · simp only [h1, h2, if_false]
        rw [matchColor_foldlM_nomatch api s.image_color_ s hno]
        exact ⟨_, rfl, rfl, rfl, rfl, rfl⟩

/-- Witness for C17: seven frames, ids 5 to 11, against one record of id 7000. -/
theorem SyntheticImageColor_unmatched_backlog_witness :
    5 < backlogUnmatched.image_color_.length ∧
    ∃ s', SyntheticImageColor natApi backlogUnmatched = some s' ∧
      s'.image_color_ = [] ∧ s'.left_color_data_ = backlogUnmatched.left_color_data_ ∧
      s'.right_color_data_ = backlogUnmatched.right_color_data_ ∧
      s'.depth_data_ = backlogUnmatched.depth_data_ :=
  ⟨by decide, (SyntheticImageColor_unmatched_backlog natApi backlogUnmatched (by decide)
    (by decide)).2 (by decide)⟩

/-- C17, counterexample: seven staged frames, ids 5 to 11, and no metadata
record at all; after the cycle the seven frames are still staged. -/
theorem SyntheticImageColor_backlog_no_metadata :
    backlogNoMetadata.image_color_ = [5, 6, 7, 8, 9, 10, 11] ∧
    backlogNoMetadata.img_info_ = [] ∧
    (SyntheticImageColor natApi backlogNoMetadata).map (fun s => s.image_color_) =
      some [5, 6, 7, 8, 9, 10, 11] := by
  refine ⟨rfl, rfl, by decide⟩

/-- C18 (amended). No wraparound tolerance: frame ids are compared as plain
numbers.  With staged frames of ids 65535 then 0 and metadata records of ids
65535 then 0 there are two equal-id pairs, but the cycle finds the oldest
staged id above the newest metadata id, so it clears the metadata list, keeps
both staged frames and appends nothing. -/
theorem SyntheticImageColor_wrap_rejects (api : ImageApi Img) (s : Camera Img)
    (c1 c2 : Img) (i1 i2 : ImgInfo)
    (hf : s.image_color_ = [c1, c2]) (hm : s.img_info_ = [i1, i2])
    (h1 : api.frame_id c1 = 65535) (h2 : api.frame_id c2 = 0)
    (h3 : i1.frame_id = 65535) (h4 : i2.frame_id = 0) :
    matchedPairs api s.image_color_ s.img_info_ = [(c1, i1), (c2, i2)] ∧
    SyntheticImageColor api s = some { s with img_info_ := [] } := by
  constructor
  · simp [matchedPairs, hf, hm, h1, h2, h3, h4, List.filter_cons]
  · unfold SyntheticImageColor
    rw [hf, hm]
    simpa [h1, h4] using hf

/-- Witness for C18: the scenario on `wrapCamera`. -/
theorem SyntheticImageColor_wrap_rejects_witness :
    SyntheticImageColor natApi wrapCamera = some { wrapCamera with img_info_ := [] } :=
  (SyntheticImageColor_wrap_rejects natApi wrapCamera 65535 0
    { frame_id := 65535, timestamp := 10, exposure_time := 1 }
    { frame_id := 0, timestamp := 11, exposure_time := 1 } rfl rfl rfl rfl rfl rfl).2

/-- C18, counterexample: on `wrapCamera` the cycle appends no sample, keeps the
two staged frames and drops both metadata records. -/
theorem SyntheticImageColor_wrap_no_match :
    (SyntheticImageColor natApi wrapCamera).map
      (fun s => (s.left_color_data_, s.right_color_data_, s.image_color_, s.img_info_)) =
      some ([], [], [65535, 0], []) := by
  decide

end BacklogProofs

/-! ## Theorems: shutdown -/

section ShutdownProofs

variable {Img : Type}

theorem StopCaptureImage_twice (s s' : Camera Img)
    (h : StopCaptureImage s = Outcome.returned s') :
    StopCaptureImage s' = Outcome.thrown "std::system_error: Invalid argument" := by
  unfold StopCaptureImage threadJoin at h
  by_cases hj : s.cap_image_thread_joinable
  · simp [hj] at h
    subst h
    simp [StopCaptureImage, threadJoin]
  · simp [hj] at h

theorem StopSyntheticImage_capturing (s : Camera Img) (hj : s.sync_thread_joinable = true)
    (hc : s.is_capture_image_ = true) : StopSyntheticImage s = Outcome.blocked := by
  simp [StopSyntheticImage, threadJoin, hj, hc]

theorem StopSyntheticImage_twice (s s' : Camera Img)
    (h : StopSyntheticImage s = Outcome.returned s') :
    StopSyntheticImage s' = Outcome.thrown "std::system_error: Invalid argument" := by
  unfold StopSyntheticImage threadJoin at h
  by_cases hj : s.sync_thread_joinable
  · by_cases hc : s.is_capture_image_
    · simp [hj, hc] at h
    · simp [hj, hc] at h
      subst h
      simp [StopSyntheticImage, threadJoin]
  · simp [hj] at h

/-- C20, evaluation at the failing input: on an opened camera with both threads
running, a first StopCaptureImage joins the capture thread and a second one
joins a thread that is no longer joinable, which throws; with capture stopped
the same holds of StopSyntheticImage, which on the capturing camera does not
return at all, the synthesis loop testing `is_capture_image_`.  The destructor
stops capture and then calls Close, which stops capture again, so it throws
too.  Close on its own returns, and destroying after Close does. -/
theorem double_stop_fails :
    capturingCamera.dev_sel_info_index = 0 ∧ capturingCamera.is_capture_image_ = true ∧
    capturingCamera.cap_image_thread_joinable = true ∧
    capturingCamera.sync_thread_joinable = true ∧
    StopCaptureImage capturingCamera = Outcome.returned captureStopped ∧
    StopCaptureImage captureStopped =
      Outcome.thrown "std::system_error: Invalid argument" ∧
    StopSyntheticImage captureStopped =
      Outcome.returned { captureStopped with
        is_synthetic_image_ := false, sync_thread_joinable := false } ∧
    StopSyntheticImage { captureStopped with
        is_synthetic_image_ := false, sync_thread_joinable := false } =
      Outcome.thrown "std::system_error: Invalid argument" ∧
    StopSyntheticImage capturingCamera = Outcome.blocked ∧
    destroyCameraPrivate capturingCamera =
      Outcome.thrown "std::system_error: Invalid argument" ∧
    Close capturingCamera =
      Outcome.returned { capturingCamera with
        dev_sel_info_index := -1, is_capture_image_ := false,
        is_synthetic_image_ := false, cap_image_thread_joinable := false,
        sync_thread_joinable := false } ∧
    destroyCameraPrivate { capturingCamera with
        dev_sel_info_index := -1, is_capture_image_ := false,
        is_synthetic_image_ := false, cap_image_thread_joinable := false,
        sync_thread_joinable := false } =
      Outcome.returned { capturingCamera with
        dev_sel_info_index := -1, is_capture_image_ := false,
        is_synthetic_image_ := false, cap_image_thread_joinable := false,
        sync_thread_joinable := false } := by
  refine ⟨rfl, rfl, rfl, rfl, rfl, rfl, rfl, rfl, rfl, rfl, rfl, rfl⟩

end ShutdownProofs

/-! ## Theorems: the branches of a colour synthesis cycle -/

section CycleProofs

variable {Img : Type}

/-- C22. Empty-list no-op: if the staged colour-frame list or the metadata list
is empty, one SyntheticImageColor cycle returns the state it was given: staged
frames, metadata list and all three result queues are as before. -/
theorem SyntheticImageColor_empty_noop (api : ImageApi Img) (s : Camera Img)
    (h : s.image_color_ = [] ∨ s.img_info_ = []) :
    SyntheticImageColor api s = some s := by
  unfold SyntheticImageColor
  rcases h with h | h
  · rw [h]; rfl
  · rw [h]
    cases s.image_color_.head? <;> cases s.image_color_.getLast? <;> rfl

theorem SyntheticImageColor_metadata_behind (api : ImageApi Img) (s : Camera Img)
    (hc : s.image_color_ ≠ []) (hi : s.img_info_ ≠ [])
    (h1 : api.frame_id (s.image_color_.head hc) > (s.img_info_.getLast hi).frame_id) :
    SyntheticImageColor api s = some
      { s with
        img_info_ := []
        image_color_ := if s.image_color_.length > 5 then [] else s.image_color_ } := by
  unfold SyntheticImageColor
  rw [List.head?_eq_head hc, List.getLast?_eq_getLast _ hc, List.head?_eq_head hi,
    List.getLast?_eq_getLast _ hi]
  simp only [h1, if_true]
  split_ifs <;> rfl

theorem SyntheticImageColor_frames_behind (api : ImageApi Img) (s : Camera Img)
    (hc : s.image_color_ ≠ []) (hi : s.img_info_ ≠ [])
    (h1 : ¬ api.frame_id (s.image_color_.head hc) > (s.img_info_.getLast hi).frame_id)
    (h2 : api.frame_id (s.image_color_.getLast hc) < (s.img_info_.head hi).frame_id) :
    SyntheticImageColor api s = some
      { s with
        image_color_ := []
        img_info_ := if s.img_info_.length > 5 then [] else s.img_info_ } := by
  unfold SyntheticImageColor
  rw [List.head?_eq_head hc, List.getLast?_eq_getLast _ hc, List.head?_eq_head hi,
    List.getLast?_eq_getLast _ hi]
  simp only [h1, h2, if_true, if_false]
  split_ifs <;> rfl

/-- C23. Reject-and-recover: with both lists non-empty, when the oldest staged
frame's id is greater than the newest metadata record's id the cycle empties
the metadata list, empties the staged frame list exactly when it held more than
5 frames and leaves every result queue as it was; when instead the newest
staged frame's id is less than the oldest metadata record's id it empties the
staged frame list, empties the metadata list exactly when it held more than 5
records and leaves every result queue as it was. -/
theorem SyntheticImageColor_reject (api : ImageApi Img) (s : Camera Img)
    (hc : s.image_color_ ≠ []) (hi : s.img_info_ ≠ []) :
    (api.frame_id (s.image_color_.head hc) > (s.img_info_.getLast hi).frame_id →
      SyntheticImageColor api s = some
        { s with
          img_info_ := []
          image_color_ := if s.image_color_.length > 5 then [] else s.image_color_ }) ∧
    (¬ api.frame_id (s.image_color_.head hc) > (s.img_info_.getLast hi).frame_id →
      api.frame_id (s.image_color_.getLast hc) < (s.img_info_.head hi).frame_id →
      SyntheticImageColor api s = some
        { s with
          image_color_ := []
          img_info_ := if s.img_info_.length > 5 then [] else s.img_info_ }) ∧
    ((if s.image_color_.length > 5 then [] else s.image_color_) = [] ↔
      s.image_color_.length > 5) ∧
    ((if s.img_info_.length > 5 then [] else s.img_info_) = [] ↔ s.img_info_.length > 5) := by
  refine ⟨SyntheticImageColor_metadata_behind api s hc hi,
    SyntheticImageColor_frames_behind api s hc hi, ?_, ?_⟩
  · split_ifs with h
    · simp [h]
    · simp [h, hc]
  · split_ifs with h
    · simp [h]
    · simp [h, hi]

/-- Witness for C23: seven frames, ids 5 to 11, behind one record of id 7000. -/
theorem SyntheticImageColor_reject_witness :
    SyntheticImageColor natApi backlogUnmatched =
      some { backlogUnmatched with image_color_ := [] } :=
  (SyntheticImageColor_reject natApi backlogUnmatched (by decide) (by decide)).2.1
    (by decide) (by decide)

/-- Witness for C22: seven staged frames and no metadata are kept. -/
theorem SyntheticImageColor_empty_noop_witness :
    SyntheticImageColor natApi backlogNoMetadata = some backlogNoMetadata :=
  SyntheticImageColor_empty_noop natApi backlogNoMetadata (Or.inr rfl)

theorem pairwise_head_le (l : List Nat) (hl : l ≠ []) (hp : l.Pairwise (fun a b => a ≤ b)) :
    ∀ x ∈ l, l.head hl ≤ x := by
  cases l with
  | nil => exact absurd rfl hl
  | cons a rest =>
    intro x hx
    rw [List.pairwise_cons] at hp
    simp only [List.head_cons]
    rcases List.mem_cons.mp hx with h | h
    · rw [h]
    · exact hp.1 x h

theorem pairwise_le_getLast (l : List Nat) (hl : l ≠ []) (hp : l.Pairwise (fun a b => a ≤ b)) :
    ∀ x ∈ l, x ≤ l.getLast hl := by
  induction l with
  | nil => exact absurd rfl hl
  | cons a rest ih =>
    intro x hx
    rw [List.pairwise_cons] at hp
    cases rest with
    | nil =>
      simp only [List.mem_singleton] at hx
      simp [hx]
    | cons b rest' =>
      have hne : (b :: rest') ≠ [] := by simp
      rw [List.getLast_cons hne]
      rcases List.mem_cons.mp hx with h | h
      · rw [h]; exact hp.1 _ (List.getLast_mem hne)
      · exact ih hne hp.2 x h

/-- C27. Recovery discards no matchable pair when ids are ordered: with the
frame ids of the staged frames non-decreasing and those of the metadata records
non-decreasing, whenever either reject condition of SyntheticImageColor is
true no staged frame has the frame id of any record, so the list of equal-id
pairs is empty and the cycle, which then has a result, publishes what the
matching loop would have published: nothing. -/
theorem reject_loses_no_pair (api : ImageApi Img) (s : Camera Img)
    (hc : s.image_color_ ≠ []) (hi : s.img_info_ ≠ [])
    (hsf : (s.image_color_.map api.frame_id).Pairwise (fun a b => a ≤ b))
    (hsi : (s.img_info_.map (fun i => i.frame_id)).Pairwise (fun a b => a ≤ b))
    (hrej : api.frame_id (s.image_color_.head hc) > (s.img_info_.getLast hi).frame_id ∨
      api.frame_id (s.image_color_.getLast hc) < (s.img_info_.head hi).frame_id) :
    (∀ c ∈ s.image_color_, ∀ i ∈ s.img_info_, api.frame_id c ≠ i.frame_id) ∧
    matchedPairs api s.image_color_ s.img_info_ = [] ∧
    ∃ s', SyntheticImageColor api s = some s' ∧
      s'.left_color_data_ = s.left_color_data_ ∧
      s'.right_color_data_ = s.right_color_data_ := by
  have hcm : s.image_color_.map api.frame_id ≠ [] := by simpa using hc
  have him : s.img_info_.map (fun i => i.frame_id) ≠ [] := by simpa using hi
  have hfh : ∀ c ∈ s.image_color_, api.frame_id (s.image_color_.head hc) ≤ api.frame_id c := by
    intro c hcm'
    have := pairwise_head_le _ hcm hsf (api.frame_id c) (List.mem_map_of_mem _ hcm')
    simpa [List.head_map] using this
  have hfl : ∀ c ∈ s.image_color_, api.frame_id c ≤ api.frame_id (s.image_color_.getLast hc) := by
    intro c hcm'
    have := pairwise_le_getLast _ hcm hsf (api.frame_id c) (List.mem_map_of_mem _ hcm')
    simpa [List.getLast_map] using this
  have hih : ∀ i ∈ s.img_info_, (s.img_info_.head hi).frame_id ≤ i.frame_id := by
    intro i him'
    have := pairwise_head_le _ him hsi i.frame_id
      (List.mem_map_of_mem (fun i => i.frame_id) him')
    simpa [List.head_map] using this
  have hil : ∀ i ∈ s.img_info_, i.frame_id ≤ (s.img_info_.getLast hi).frame_id := by
    intro i him'
    have := pairwise_le_getLast _ him hsi i.frame_id
      (List.mem_map_of_mem (fun i => i.frame_id) him')
    simpa [List.getLast_map] using this
  have hno : ∀ c ∈ s.image_color_, ∀ i ∈ s.img_info_, api.frame_id c ≠ i.frame_id := by
    intro c hc' i hi'
    have a1 := hfh c hc'
    have a2 := hfl c hc'
    have a3 := hih i hi'
    have a4 := hil i hi'
    rcases hrej with h | h <;> omega
  refine ⟨hno, ?_, ?_⟩
  · unfold matchedPairs
    rw [List.flatMap_eq_nil_iff]
    intro c hc'
    rw [List.map_eq_nil_iff, List.filter_eq_nil_iff]
    intro i hi'
    simpa using hno c hc' i hi'
  · by_cases h1 : api.frame_id (s.image_color_.head hc) > (s.img_info_.getLast hi).frame_id
    · exact ⟨_, SyntheticImageColor_metadata_behind api s hc hi h1, rfl, rfl⟩
    · have h2 : api.frame_id (s.image_color_.getLast hc) < (s.img_info_.head hi).frame_id := by
        rcases hrej with h | h
        · exact absurd h h1
        · exact h
      exact ⟨_, SyntheticImageColor_frames_behind api s hc hi h1 h2, rfl, rfl⟩

/-- Witness for C27: ordered ids 5 to 11 against one record of id 7000. -/
theorem reject_loses_no_pair_witness :
    matchedPairs natApi backlogUnmatched.image_color_ backlogUnmatched.img_info_ = [] :=
  (reject_loses_no_pair natApi backlogUnmatched (by decide) (by decide) (by decide)
    (by decide) (Or.inr (by decide))).2.1

/-- C24. Clear at cycle end and where it stops: with both lists non-empty and
neither reject test true, every result of a SyntheticImageColor cycle has the
staged frame list and the metadata list empty, so the next cycle is a no-op;
the cycle has such a result whenever the metadata list holds at most 30
records, and with no equal-id pair its result is the state with the two lists
cleared.  With more than 30 records and an equal-id pair the cycle clears
`img_info_` inside the loop over it and has no defined result. -/
theorem SyntheticImageColor_clears (api : ImageApi Img) (s : Camera Img)
    (hc : s.image_color_ ≠ []) (hi : s.img_info_ ≠ [])
    (hr1 : ¬ api.frame_id (s.image_color_.head hc) > (s.img_info_.getLast hi).frame_id)
    (hr2 : ¬ api.frame_id (s.image_color_.getLast hc) < (s.img_info_.head hi).frame_id) :
    (∀ s', SyntheticImageColor api s = some s' →
      s'.image_color_ = [] ∧ s'.img_info_ = [] ∧ SyntheticImageColor api s' = some s') ∧
    (s.img_info_.length ≤ 30 →
      ∃ s', SyntheticImageColor api s = some s' ∧ s'.image_color_ = [] ∧
        s'.img_info_ = [] ∧ SyntheticImageColor api s' = some s') ∧
    ((matchedPairs api s.image_color_ s.img_info_).isEmpty = true →
      SyntheticImageColor api s = some { s with image_color_ := [], img_info_ := [] }) ∧
    (30 < s.img_info_.length →
      (∃ c ∈ s.image_color_, ∃ i ∈ s.img_info_, api.frame_id c = i.frame_id) →
      SyntheticImageColor api s = none) := by
  have hall : ∀ s', SyntheticImageColor api s = some s' →
      s'.image_color_ = [] ∧ s'.img_info_ = [] ∧ SyntheticImageColor api s' = some s' := by
    intro s' h
    unfold SyntheticImageColor at h
    rw [List.head?_eq_head hc, List.getLast?_eq_getLast _ hc, List.head?_eq_head hi,
      List.getLast?_eq_getLast _ hi] at h
    simp only [hr1, hr2, if_false, Option.map_eq_some'] at h
    obtain ⟨t, _, rfl⟩ := h
    exact ⟨rfl, rfl, rfl⟩
  refine ⟨hall, ?_, ?_, fun h30 hm => SyntheticImageColor_undefined api s hc hi hr1 hr2 h30 hm⟩
  · intro h30
    obtain ⟨s', hs⟩ := Option.isSome_iff_exists.mp (SyntheticImageColor_defined api s h30)
    exact ⟨s', hs, hall s' hs⟩
  · intro he
    have hno := matchedPairs_isEmpty api _ _ he
    unfold SyntheticImageColor
    rw [List.head?_eq_head hc, List.getLast?_eq_getLast _ hc, List.head?_eq_head hi,
      List.getLast?_eq_getLast _ hi]
    simp only [hr1, hr2, if_false]
    rw [matchColor_foldlM_nomatch api s.image_color_ s hno]
    rfl

/-- Witness for C24: one frame and one record of id 5 end with both lists
empty; frames 5 and 6 against the 31 records of ids 5 to 35 have no defined
result. -/
theorem SyntheticImageColor_clears_witness :
    (∃ s', SyntheticImageColor natApi match5 = some s' ∧
      s'.image_color_ = [] ∧ s'.img_info_ = []) ∧
    SyntheticImageColor natApi over30Pair = none := by
  obtain ⟨s', hs, h1, h2, _⟩ := (SyntheticImageColor_clears natApi match5 (by decide)
    (by decide) (by decide) (by decide)).2.1 (by decide)
  exact ⟨⟨s', hs, h1, h2⟩,
    (SyntheticImageColor_clears natApi over30Pair (by decide) (by decide) (by decide)
      (by decide)).2.2.2 (by decide) (by decide)⟩

theorem oldStep_eq (api : ImageApi Img) (t : Camera Img) (c : Img)
    (hl : t.left_color_data_.length + 1 ≤ 30)
    (hr : t.right_color_data_.length + (if t.is_enable_right then 1 else 0) ≤ 30) :
    oldStep api t c = addSamples t [oldLeftSample api t.is_enable_right c]
      (if t.is_enable_right then [oldRightSample api c] else []) := by
  unfold oldStep OldTransferColor OldCutPart addSamples oldLeftSample oldRightSample
  cases he : t.is_enable_right
  · simp only [he] at hr
    have a : ¬ (t.left_color_data_.length + 1 > 30) := by omega
    have b : ¬ (t.right_color_data_.length > 30) := by omega
    simp [a, b]
  · simp only [he, if_true] at hr
    have a : ¬ (t.left_color_data_.length + 1 > 30) := by omega
    have b : ¬ (t.right_color_data_.length + 1 > 30) := by omega
    simp [a, b]

theorem oldStep_foldl_eq (api : ImageApi Img) (frames : List Img) :
    ∀ t : Camera Img, t.left_color_data_.length + frames.length ≤ 30 →
      t.right_color_data_.length + (if t.is_enable_right then frames.length else 0) ≤ 30 →
      frames.foldl (oldStep api) t = addSamples t
        (frames.map (oldLeftSample api t.is_enable_right))
        (if t.is_enable_right then frames.map (oldRightSample api) else []) := by
  induction frames with
  | nil => intro t _ _; simp [addSamples_nil]
  | cons c rest ih =>
    intro t hl hr
    simp only [List.length_cons] at hl hr
    rw [List.foldl_cons, oldStep_eq api t c (by omega)
      (by cases he : t.is_enable_right <;> simp [he] at hr ⊢ <;> omega)]
    have hen : (addSamples t [oldLeftSample api t.is_enable_right c]
        (if t.is_enable_right then [oldRightSample api c] else [])).is_enable_right =
        t.is_enable_right := rfl
    rw [ih _ (by simp [addSamples]; omega)
      (by rw [hen]; cases he : t.is_enable_right <;> simp [addSamples, he] at hr ⊢ <;> omega),
      hen, addSamples_addSamples]
    cases he : t.is_enable_right <;> simp

theorem oldStep_left (api : ImageApi Img) (t : Camera Img) (c : Img) :
    (oldStep api t c).left_color_data_ =
      if t.left_color_data_.length + 1 > 30 then []
      else t.left_color_data_ ++ [oldLeftSample api t.is_enable_right c] := by
  unfold oldStep OldTransferColor OldCutPart oldLeftSample
  cases he : t.is_enable_right <;>
    by_cases h : t.left_color_data_.length + 1 > 30 <;> simp [h] <;> split_ifs <;> rfl

theorem oldStep_right (api : ImageApi Img) (t : Camera Img) (c : Img) :
    (oldStep api t c).right_color_data_ =
      if t.is_enable_right then
        (if t.right_color_data_.length + 1 > 30 then []
         else t.right_color_data_ ++ [oldRightSample api c])
      else (if t.right_color_data_.length > 30 then [] else t.right_color_data_) := by
  unfold oldStep OldTransferColor OldCutPart oldRightSample
  cases he : t.is_enable_right <;> simp <;> split_ifs <;> simp_all

theorem oldStep_frame (api : ImageApi Img) (t : Camera Img) (c : Img) :
    (oldStep api t c).is_enable_right = t.is_enable_right ∧
    (oldStep api t c).img_info_ = t.img_info_ ∧
    (oldStep api t c).depth_data_ = t.depth_data_ := by
  unfold oldStep OldTransferColor OldCutPart
  cases he : t.is_enable_right <;> simp <;> split_ifs <;> simp_all

theorem capFold_eq {α : Type} (xs : List α) :
    ∀ q : List α, q.length ≤ 30 →
      xs.foldl (fun acc x => if acc.length + 1 > 30 then [] else acc ++ [x]) q =
        (q ++ xs).drop (q.length + xs.length - (q.length + xs.length) % 31) := by
  induction xs with
  | nil =>
    intro q h
    have : q.length % 31 = q.length := Nat.mod_eq_of_lt (by omega)
    simp [this]
  | cons x rest ih =>
    intro q h
    rw [List.foldl_cons]
    by_cases hq : q.length + 1 > 30
    · have hlen : q.length = 30 := by omega
      simp only [hq, if_true]
      rw [ih [] (by simp)]
      have hm : (30 + (rest.length + 1)) % 31 = rest.length % 31 := by omega
      have hle : rest.length % 31 ≤ rest.length := Nat.mod_le _ _
      simp only [List.length_nil, List.nil_append, Nat.zero_add, List.length_cons, hlen, hm]
      have e : 30 + (rest.length + 1) - rest.length % 31
          = (q ++ [x]).length + (rest.length - rest.length % 31) := by
        simp [hlen]; omega
      rw [e, ← List.drop_drop]
      have : q ++ x :: rest = (q ++ [x]) ++ rest := by simp
      rw [this, List.drop_left]
    · simp only [hq, if_false]
      rw [ih _ (by simp; omega)]
      simp only [List.length_append, List.length_singleton, List.length_cons,
        List.append_assoc, List.singleton_append]
      have : q.length + 1 + rest.length = q.length + (rest.length + 1) := by omega
      simp only [List.length_nil, Nat.zero_add, this]

theorem capFold_suffix {α : Type} (xs : List α) :
    ∀ q : List α,
      xs.foldl (fun acc x => if acc.length + 1 > 30 then [] else acc ++ [x]) q <:+ q ++ xs := by
  induction xs with
  | nil => intro q; simp
  | cons x rest ih =>
    intro q
    rw [List.foldl_cons]
    have h3 : q ++ x :: rest = (q ++ [x]) ++ rest := by simp
    have h2 : (if q.length + 1 > 30 then [] else q ++ [x]) ++ rest <:+ q ++ x :: rest := by
      rw [h3]
      split_ifs
      · rw [List.nil_append]; exact List.suffix_append _ _
      · exact List.suffix_refl _
    exact (ih _).trans h2

theorem oldStep_foldl_frame (api : ImageApi Img) (frames : List Img) :
    ∀ t : Camera Img,
      (frames.foldl (oldStep api) t).is_enable_right = t.is_enable_right ∧
      (frames.foldl (oldStep api) t).img_info_ = t.img_info_ ∧
      (frames.foldl (oldStep api) t).depth_data_ = t.depth_data_ := by
  induction frames with
  | nil => intro t; exact ⟨rfl, rfl, rfl⟩
  | cons c rest ih =>
    intro t
    rw [List.foldl_cons]
    obtain ⟨a, b, d⟩ := ih (oldStep api t c)
    obtain ⟨a', b', d'⟩ := oldStep_frame api t c
    exact ⟨a.trans a', b.trans b', d.trans d'⟩

theorem oldStep_foldl_left (api : ImageApi Img) (frames : List Img) :
    ∀ t : Camera Img,
      (frames.foldl (oldStep api) t).left_color_data_ =
        (frames.map (oldLeftSample api t.is_enable_right)).foldl
          (fun acc x => if acc.length + 1 > 30 then [] else acc ++ [x]) t.left_color_data_ := by
  induction frames with
  | nil => intro t; rfl
  | cons c rest ih =>
    intro t
    rw [List.foldl_cons, List.map_cons, List.foldl_cons, ih, (oldStep_frame api t c).1,
      oldStep_left]

theorem oldStep_foldl_right (api : ImageApi Img) (frames : List Img) :
    ∀ t : Camera Img, t.is_enable_right = true →
      (frames.foldl (oldStep api) t).right_color_data_ =
        (frames.map (oldRightSample api)).foldl
          (fun acc x => if acc.length + 1 > 30 then [] else acc ++ [x]) t.right_color_data_ := by
  induction frames with
  | nil => intro t _; rfl
  | cons c rest ih =>
    intro t he
    rw [List.foldl_cons, List.map_cons, List.foldl_cons,
      ih _ ((oldStep_frame api t c).1.trans he), oldStep_right, he]
    rfl

theorem oldStep_foldl_right_off (api : ImageApi Img) (frames : List Img) :
    ∀ t : Camera Img, t.is_enable_right = false →
      (frames.foldl (oldStep api) t).right_color_data_ <:+ t.right_color_data_ ∧
      (t.right_color_data_.length ≤ 30 →
        (frames.foldl (oldStep api) t).right_color_data_ = t.right_color_data_) := by
  induction frames with
  | nil => intro t _; exact ⟨List.suffix_refl _, fun _ => rfl⟩
  | cons c rest ih =>
    intro t he
    rw [List.foldl_cons]
    obtain ⟨a, b⟩ := ih _ ((oldStep_frame api t c).1.trans he)
    have hr := oldStep_right api t c
    simp only [he, Bool.false_eq_true, if_false] at hr
    constructor
    · refine a.trans ?_
      rw [hr]
      split_ifs
      · exact List.nil_suffix
      · exact List.suffix_refl _
    · intro hle
      have hr' : (oldStep api t c).right_color_data_ = t.right_color_data_ := by
        rw [hr, if_neg (by omega)]
      rw [b (by rw [hr']; exact hle), hr']

theorem OldSyntheticImageColor_fold (api : ImageApi Img) (s : Camera Img) :
    OldSyntheticImageColor api s =
      { s.image_color_.foldl (oldStep api) s with image_color_ := [] } := by
  unfold OldSyntheticImageColor
  by_cases he : s.image_color_ = []
  · have hemp : s.image_color_.isEmpty = true := by simp [he]
    simp only [hemp, if_true, he, List.foldl_nil]
    cases s
    simp_all
  · have hemp : s.image_color_.isEmpty = false := by simpa using he
    simp only [hemp, Bool.false_eq_true, if_false]

/-- C25. Degraded mode: one OldSyntheticImageColor cycle always ends with the
staged list empty and the metadata list untouched, and consults no metadata:
OldTransferColor pushes for each staged frame exactly one left sample (the
clone of the frame when the right stream is disabled, its left cut otherwise)
and, right stream enabled, exactly one right sample (its right cut), all with
no metadata.  The left and right queues after the cycle are always suffixes of
the old queues followed by these samples in arrival order; from queues of at
most 30 samples they are the last `(q + n) mod 31` of them; and while no push
overflows a 30-sample cap nothing is lost, so the left queue grows by the
number of staged frames. -/
theorem OldSyntheticImageColor_forwards (api : ImageApi Img) (s : Camera Img) :
    (OldSyntheticImageColor api s).image_color_ = [] ∧
    (OldSyntheticImageColor api s).img_info_ = s.img_info_ ∧
    (∀ (c : Img) (t : Camera Img),
      (OldTransferColor api c t).left_color_data_ =
        t.left_color_data_ ++ [oldLeftSample api t.is_enable_right c] ∧
      (OldTransferColor api c t).right_color_data_ =
        t.right_color_data_ ++ (if t.is_enable_right then [oldRightSample api c] else []) ∧
      oldLeftSample api false c = { img := some (api.Clone c), img_info := none } ∧
      oldLeftSample api true c =
        { img := some (api.CutPart ImageType.IMAGE_LEFT_COLOR c), img_info := none } ∧
      oldRightSample api c =
        { img := some (api.CutPart ImageType.IMAGE_RIGHT_COLOR c), img_info := none }) ∧
    (OldSyntheticImageColor api s).left_color_data_ <:+
      s.left_color_data_ ++ s.image_color_.map (oldLeftSample api s.is_enable_right) ∧
    (OldSyntheticImageColor api s).right_color_data_ <:+
      s.right_color_data_ ++
        (if s.is_enable_right then s.image_color_.map (oldRightSample api) else []) ∧
    (s.left_color_data_.length ≤ 30 →
      (OldSyntheticImageColor api s).left_color_data_ =
        (s.left_color_data_ ++ s.image_color_.map (oldLeftSample api s.is_enable_right)).drop
          (s.left_color_data_.length + s.image_color_.length -
            (s.left_color_data_.length + s.image_color_.length) % 31) ∧
      (OldSyntheticImageColor api s).left_color_data_.length =
        (s.left_color_data_.length + s.image_color_.length) % 31) ∧
    (s.right_color_data_.length ≤ 30 →
      (OldSyntheticImageColor api s).right_color_data_ =
        if s.is_enable_right then
          (s.right_color_data_ ++ s.image_color_.map (oldRightSample api)).drop
            (s.right_color_data_.length + s.image_color_.length -
              (s.right_color_data_.length + s.image_color_.length) % 31)
        else s.right_color_data_) ∧
    (s.left_color_data_.length + s.image_color_.length ≤ 30 →
      s.right_color_data_.length +
        (if s.is_enable_right then s.image_color_.length else 0) ≤ 30 →
      OldSyntheticImageColor api s =
        { s with
          image_color_ := []
          left_color_data_ := s.left_color_data_ ++
            s.image_color_.map (oldLeftSample api s.is_enable_right)
          right_color_data_ := s.right_color_data_ ++
            (if s.is_enable_right then s.image_color_.map (oldRightSample api) else []) }) := by
  have hf := OldSyntheticImageColor_fold api s
  have hl : (OldSyntheticImageColor api s).left_color_data_ =
      (s.image_color_.foldl (oldStep api) s).left_color_data_ := by rw [hf]
  have hr : (OldSyntheticImageColor api s).right_color_data_ =
      (s.image_color_.foldl (oldStep api) s).right_color_data_ := by rw [hf]
  refine ⟨by rw [hf], ?_, ?_, ?_, ?_, ?_, ?_, ?_⟩
  · rw [hf]; exact (oldStep_foldl_frame api s.image_color_ s).2.1
  · intro c t
    refine ⟨?_, ?_, rfl, rfl, rfl⟩
    · unfold OldTransferColor OldCutPart oldLeftSample
      cases he : t.is_enable_right <;> simp
    · unfold OldTransferColor OldCutPart oldRightSample
      cases he : t.is_enable_right <;> simp
  · rw [hl, oldStep_foldl_left]
    exact capFold_suffix _ _
  · rw [hr]
    cases he : s.is_enable_right
    · simpa using (oldStep_foldl_right_off api s.image_color_ s he).1
    · rw [oldStep_foldl_right api s.image_color_ s he]
      simpa using capFold_suffix (s.image_color_.map (oldRightSample api)) s.right_color_data_
  · intro hq
    have key : (OldSyntheticImageColor api s).left_color_data_ =
        (s.left_color_data_ ++ s.image_color_.map (oldLeftSample api s.is_enable_right)).drop
          (s.left_color_data_.length + s.image_color_.length -
            (s.left_color_data_.length + s.image_color_.length) % 31) := by
      rw [hl, oldStep_foldl_left, capFold_eq _ _ hq, List.length_map]
    refine ⟨key, ?_⟩
    have hmod : (s.left_color_data_.length + s.image_color_.length) % 31 ≤
        s.left_color_data_.length + s.image_color_.length := Nat.mod_le _ _
    rw [key, List.length_drop, List.length_append, List.length_map]
    omega
  · intro hq
    rw [hr]
    cases he : s.is_enable_right
    · simpa using (oldStep_foldl_right_off api s.image_color_ s he).2 hq
    · rw [oldStep_foldl_right api s.image_color_ s he, capFold_eq _ _ hq, List.length_map]
      simp
  · intro hl' hr'
    rw [hf, oldStep_foldl_eq api s.image_color_ s hl' hr']
    simp [addSamples]

/-- Witness for C25: thirty left samples and the staged frames 8 and 9 leave
the staged list empty and the sample of frame 9 alone in the left queue; on
`loadedCamera`, right stream enabled, nothing overflows and the staged frame 8
adds its two halves. -/
theorem OldSyntheticImageColor_forwards_witness :
    (OldSyntheticImageColor natApi left30Staged2).image_color_ = [] ∧
    (OldSyntheticImageColor natApi left30Staged2).left_color_data_ =
      [{ img := some 9, img_info := none }] ∧
    (OldSyntheticImageColor natApi loadedCamera).left_color_data_ =
      [{ img := some 1, img_info := none }, { img := some 2, img_info := none },
       { img := some 16, img_info := none }] ∧
    (OldSyntheticImageColor natApi loadedCamera).right_color_data_ =
      [{ img := some 3, img_info := none }, { img := some 17, img_info := none }] ∧
    (OldSyntheticImageColor natApi loadedCamera).image_color_ = [] := by
  refine ⟨(OldSyntheticImageColor_forwards natApi left30Staged2).1, ?_, ?_⟩
  · rw [((OldSyntheticImageColor_forwards natApi left30Staged2).2.2.2.2.2.1 (by decide)).1]
    decide
  · rw [(OldSyntheticImageColor_forwards natApi loadedCamera).2.2.2.2.2.2.2 (by decide)
      (by decide)]
    decide

end CycleProofs

/-! ## Theorems: IMU queue and process modes -/

section ImuQueueProofs

variable {Img : Type}

theorem TransferColor_imu_data (api : ImageApi Img) (c : Img) (i : ImgInfo) (t : Camera Img) :
    (TransferColor api c i t).imu_data_ = t.imu_data_ := by
  unfold TransferColor CutPart
  cases t.is_enable_right <;> simp

theorem capAfterTransfer_imu_data (s s' : Camera Img) (h : capAfterTransfer s = some s') :
    s'.imu_data_ = s.imu_data_ := by
  unfold capAfterTransfer at h
  by_cases h1 : s.left_color_data_.length > 30 <;>
    by_cases h2 : s.right_color_data_.length > 30 <;>
    by_cases h3 : s.img_info_.length > 30 <;>
    simp [h1, h2, h3] at h <;> subst h <;> rfl

theorem matchInfo_imu_data (api : ImageApi Img) (c : Img) (t : Camera Img) (i : ImgInfo)
    (t' : Camera Img) (h : matchInfo api c t i = some t') : t'.imu_data_ = t.imu_data_ := by
  unfold matchInfo at h
  by_cases hm : api.frame_id c = i.frame_id
  · simp only [hm, if_true] at h
    rw [capAfterTransfer_imu_data _ _ h, TransferColor_imu_data]
  · simp only [hm, if_false, Option.some.injEq] at h
    subst h; rfl

theorem SyntheticImageColor_imu_data (api : ImageApi Img) (s s' : Camera Img)
    (h : SyntheticImageColor api s = some s') : s'.imu_data_ = s.imu_data_ := by
  unfold SyntheticImageColor at h
  split at h
  · split_ifs at h
    · simp only [Option.some.injEq] at h; subst h; rfl
    · simp only [Option.some.injEq] at h; subst h; rfl
    · simp only [Option.some.injEq] at h; subst h; rfl
    · simp only [Option.some.injEq] at h; subst h; rfl
    · simp only [Option.map_eq_some'] at h
      obtain ⟨t, ht, rfl⟩ := h
      exact foldlM_option_inv (matchColor api) (fun a => a.imu_data_ = s.imu_data_)
        (fun a c a' ha h' =>
          foldlM_option_inv (matchInfo api c) (fun b => b.imu_data_ = s.imu_data_)
            (fun b i b' hb hb' => (matchInfo_imu_data api c b i b' hb').trans hb)
            a.img_info_ a a' ha h')
        s.image_color_ s t rfl ht
  · simp only [Option.some.injEq] at h; subst h; rfl

theorem oldStep_imu_data (api : ImageApi Img) (t : Camera Img) (c : Img) :
    (oldStep api t c).imu_data_ = t.imu_data_ := by
  unfold oldStep OldTransferColor OldCutPart
  cases t.is_enable_right <;> simp <;> split_ifs <;> rfl

theorem depthStep_imu_data (api : ImageApi Img) (t : Camera Img) (c : Img) :
    (depthStep api t c).imu_data_ = t.imu_data_ := by
  by_cases h : t.depth_data_.length + 1 > 30 <;> simp [depthStep, h]

theorem RetrieveImage_imu_data (type : ImageType) (code : ErrorCode) (s : Camera Img)
    (r : List (StreamData Img) × ErrorCode × Camera Img)
    (h : RetrieveImage type code s = Except.ok r) : r.2.2.imu_data_ = s.imu_data_ := by
  unfold RetrieveImage at h
  by_cases ho : IsOpened s
  · cases type <;> simp only [ho, Bool.not_true, Bool.false_eq_true, if_false] at h
    · cases h; rfl
    · by_cases hr : s.is_enable_right
      · simp [hr] at h; cases h; rfl
      · simp [hr] at h
    · cases h; rfl
    · cases h
  · simp only [ho, Bool.not_false, if_true] at h
    cases h; rfl

theorem RetrieveLatestImage_imu_data (type : ImageType) (code : ErrorCode) (s : Camera Img)
    (r : StreamData Img × ErrorCode × Camera Img)
    (h : RetrieveLatestImage type code s = Except.ok r) : r.2.2.imu_data_ = s.imu_data_ := by
  unfold RetrieveLatestImage at h
  by_cases ho : IsOpened s
  · cases type <;> simp only [ho, Bool.not_true, Bool.false_eq_true, if_false] at h
    · cases hl : s.left_color_data_.getLast? <;> rw [hl] at h <;> cases h <;> rfl
    · cases hl : s.right_color_data_.getLast? <;> rw [hl] at h <;> cases h <;> rfl
    · cases hl : s.depth_data_.getLast? <;> rw [hl] at h <;> cases h <;> rfl
    · cases h
  · simp only [ho, Bool.not_false, if_true] at h
    cases h; rfl

theorem step_imu_data (api : ImageApi Img) (op : ImageOp Img) (s s' : Camera Img)
    (h : op.step api s = some s') : s'.imu_data_ = s.imu_data_ := by
  cases op with
  | synthColor => exact SyntheticImageColor_imu_data api s s' h
  | oldSynthColor =>
    simp only [ImageOp.step, Option.some.injEq] at h
    subst h
    unfold OldSyntheticImageColor
    split_ifs
    · rfl
    · exact foldl_inv (oldStep api) (fun a => a.imu_data_ = s.imu_data_)
        (fun a c ha => (oldStep_imu_data api a c).trans ha) s.image_color_ s rfl
  | synthDepth =>
    simp only [ImageOp.step, Option.some.injEq] at h
    subst h
    exact foldl_inv (depthStep api) (fun a => a.imu_data_ = s.imu_data_)
      (fun a c ha => (depthStep_imu_data api a c).trans ha) s.image_depth_ s rfl
  | captureColor p =>
    simp only [ImageOp.step, Option.some.injEq] at h
    subst h; cases p <;> rfl
  | captureDepth p =>
    simp only [ImageOp.step, Option.some.injEq] at h
    subst h; cases p <;> rfl
  | imageInfo packet =>
    simp only [ImageOp.step, Option.some.injEq] at h
    subst h; rfl
  | retrieve type code =>
    simp only [ImageOp.step] at h
    cases hr : RetrieveImage type code s with
    | ok r =>
      rw [hr] at h; simp only [Option.some.injEq] at h
      subst h; exact RetrieveImage_imu_data type code s r hr
    | error e =>
      rw [hr] at h; simp only [Option.some.injEq] at h
      subst h; rfl
  | retrieveLatest type code =>
    simp only [ImageOp.step] at h
    cases hr : RetrieveLatestImage type code s with
    | ok r =>
      rw [hr] at h; simp only [Option.some.injEq] at h
      subst h; exact RetrieveLatestImage_imu_data type code s r hr
    | error e =>
      rw [hr] at h; simp only [Option.some.injEq] at h
      subst h; rfl

/-- C26. Uncapped IMU queue: with the running counter at 20 or more and the
local buffer empty (as every callback leaves it), a packet of `k` segments
appends exactly its `k` compensated samples, in order, to the IMU queue and
leaves the local buffer empty, so the queue length grows by `k` whatever its
length; GetImuDatas returns the whole queue and leaves it empty; and no run of
image-side operations changes the queue. -/
theorem imu_queue_uncapped (s : Camera Img) (packet : List ImuSegment)
    (h20 : 20 ≤ s.motion_count_) (hc : s.cache_imu_data_ = []) :
    (ImuDataCallback packet s).imu_data_ = s.imu_data_ ++ packet.map (imuSample s) ∧
    (ImuDataCallback packet s).imu_data_.length = s.imu_data_.length + packet.length ∧
    (ImuDataCallback packet s).cache_imu_data_ = [] ∧
    (GetImuDatas s).2.1 = s.imu_data_ ∧
    (GetImuDatas s).2.2.imu_data_ = [] ∧
    (GetImuDatas s).2.2.cache_imu_data_ = [] ∧
    (∀ (api : ImageApi Img) (ops : List (ImageOp Img)) (s' : Camera Img),
      runOps api ops s = some s' → s'.imu_data_ = s.imu_data_) := by
  obtain ⟨a, b⟩ := ImuDataCallback_imu_data s.is_process_mode_ s.motion_intrinsics_
    packet s rfl rfl hc
  have e : (ImuDataCallback packet s).imu_data_ = s.imu_data_ ++ packet.map (imuSample s) := by
    rw [a]
    have : 20 - s.motion_count_ = 0 := by omega
    rw [this, List.drop_zero]
    rfl
  refine ⟨e, ?_, b, rfl, rfl, hc, ?_⟩
  · rw [e, List.length_append, List.length_map]
  · intro api ops s' h
    unfold runOps at h
    exact foldlM_option_inv (fun st (op : ImageOp Img) => op.step api st)
      (fun a => a.imu_data_ = s.imu_data_)
      (fun a op a' ha h' => (step_imu_data api op a a' h').trans ha) ops s s' rfl h

/-- Witness for C26: three segments after the threshold add three samples. -/
theorem imu_queue_uncapped_witness :
    20 ≤ noModelCamera.motion_count_ ∧
    (ImuDataCallback [accelSegment, accelSegment, accelSegment] noModelCamera).imu_data_.length
      = 3 := by
  refine ⟨by decide, ?_⟩
  rw [(imu_queue_uncapped noModelCamera [accelSegment, accelSegment, accelSegment]
    (by decide) rfl).2.1]
  rfl

theorem EnableImuProcessMode_modes (mode mode' : ProcessMode) (s : Camera Img) :
    (EnableImuProcessMode mode s).is_process_mode_ mode = true ∧
    (s.is_process_mode_ mode' = true →
      (EnableImuProcessMode mode s).is_process_mode_ mode' = true) := by
  cases mode <;> cases mode' <;> simp [EnableImuProcessMode, Function.update]

theorem ImuDataCallback_modes (packet : List ImuSegment) :
    ∀ s : Camera Img, (ImuDataCallback packet s).is_process_mode_ = s.is_process_mode_ := by
  induction packet with
  | nil => intro s; rfl
  | cons seg rest ih =>
    intro s
    have hstep : ImuDataCallback (seg :: rest) s = ImuDataCallback rest (imuSegmentStep s seg) :=
      rfl
    rw [hstep, ih, (imuSegmentStep_frame s seg).1]

/-- C28. Process modes are applied by priority: with a model loaded, ASSEMBLY
enabled gives scale/assembly compensation only, whatever the other two flags;
ASSEMBLY disabled and WARM_DRIFT enabled gives temperature compensation only,
whatever the ALL flag; no mode enabled leaves the sample as it is.  With both
ASSEMBLY and WARM_DRIFT enabled the flagged channel is `scale_assembly(raw)`.
EnableImuProcessMode sets its flag and clears none, and neither
ImuDataCallback nor GetImuDatas changes a flag. -/
theorem process_mode_priority (modes : ProcessMode → Bool) (m : MotionIntrinsics)
    (d : ImuData) :
    (modes ProcessMode.ASSEMBLY = true →
      compensate modes (some m) d = ScaleAssemCompensate (some m) d) ∧
    (modes ProcessMode.ASSEMBLY = false → modes ProcessMode.WARM_DRIFT = true →
      compensate modes (some m) d = TempCompensate (some m) d) ∧
    (modes ProcessMode.ASSEMBLY = false → modes ProcessMode.WARM_DRIFT = false →
      modes ProcessMode.ALL = false → compensate modes (some m) d = d) ∧
    (modes ProcessMode.ASSEMBLY = true → modes ProcessMode.WARM_DRIFT = true → d.flag = 1 →
      (compensate modes (some m) d).accel = specScaleAssembly m.accel d.accel) ∧
    (modes ProcessMode.ASSEMBLY = true → modes ProcessMode.WARM_DRIFT = true → d.flag = 2 →
      (compensate modes (some m) d).gyro = specScaleAssembly m.gyro d.gyro) ∧
    (∀ (s : Camera Img) (mode mode' : ProcessMode),
      (EnableImuProcessMode mode s).is_process_mode_ mode = true ∧
      (s.is_process_mode_ mode' = true →
        (EnableImuProcessMode mode s).is_process_mode_ mode' = true)) ∧
    (∀ (s : Camera Img) (packet : List ImuSegment),
      (ImuDataCallback packet s).is_process_mode_ = s.is_process_mode_ ∧
      (GetImuDatas s).2.2.is_process_mode_ = s.is_process_mode_) := by
  refine ⟨?_, ?_, ?_, ?_, ?_, ?_, ?_⟩
  · intro h; simp [compensate, h]
  · intro h1 h2; simp [compensate, h1, h2]
  · intro h1 h2 h3; simp [compensate, h1, h2, h3]
  · intro h1 _ hf
    simp only [compensate, h1, if_true, ScaleAssemCompensate, hf]
    exact scaleAssem_channel m.accel d.accel
  · intro h1 _ hf
    simp only [compensate, h1, if_true, ScaleAssemCompensate, hf]
    simp only [show ¬ (2 : ℕ) = 1 by decide, if_false]
    exact scaleAssem_channel m.gyro d.gyro
  · intro s mode mode'
    exact EnableImuProcessMode_modes mode mode' s
  · intro s packet
    exact ⟨ImuDataCallback_modes packet s, rfl⟩

/-- Witness for C28: every mode enabled, accelerometer sample. -/
theorem process_mode_priority_witness :
    (compensate (fun _ => true) (some driftModel) (convertSegment accelSegment)).accel =
      specScaleAssembly driftModel.accel (convertSegment accelSegment).accel :=
  (@process_mode_priority Nat (fun _ => true) driftModel
    (convertSegment accelSegment)).2.2.2.1 rfl rfl (by simp [convertSegment, accelSegment])

end ImuQueueProofs

/-! ## Theorems: opening the camera -/

section OpenProofs

variable {Img : Type}

theorem searchLoop_range (test : ETRONDI_STREAM_INFO → Bool)
    (table : Fin 64 → ETRONDI_STREAM_INFO) :
    ∀ fuel i : Nat, searchLoop test table fuel i = -1 ∨
      ∃ k : Fin 64, searchLoop test table fuel i = (k.val : Int) := by
  intro fuel
  induction fuel with
  | zero => intro i; exact Or.inl rfl
  | succ fuel ih =>
    intro i
    unfold searchLoop
    by_cases hlt : i < 64
    · simp only [hlt, dite_true]
      by_cases ht : test (table ⟨i, hlt⟩) = true
      · exact Or.inr ⟨⟨i, hlt⟩, by simp [ht]⟩
      · have htf : test (table ⟨i, hlt⟩) = false := by simpa using ht
        simp only [htf, Bool.false_eq_true, if_false]
        exact ih (i + 1)
    · simp only [hlt, dite_false]
      exact Or.inl trivial

theorem fallback_range (x : Int) (fmt : StreamFormat) (r : Int)
    (hx : x = -1 ∨ ∃ k : Fin 64, x = (k.val : Int))
    (h : (if x = -1 then (get_stream_format_string fmt).map (fun _ => (0 : Int))
          else Except.ok x) = Except.ok r) :
    ∃ k : Fin 64, r = (k.val : Int) := by
  rcases hx with hx | ⟨k, hk⟩
  · rw [hx, if_pos rfl] at h
    cases fmt
    · injection h with h; exact ⟨0, by rw [← h]; rfl⟩
    · injection h with h; exact ⟨0, by rw [← h]; rfl⟩
    · cases h
  · have : ¬ (x = -1) := by omega
    rw [if_neg this] at h
    injection h with h
    exact ⟨k, by rw [← h, hk]⟩

theorem GetResolutionIndex_range (dev : DeviceReply) (s : Camera Img)
    (stream_mode : StreamMode) (cf df : StreamFormat) (r : Int × Int)
    (h : GetResolutionIndex dev s stream_mode cf df = Except.ok r) :
    ∃ color depth : Fin 64, r = ((color.val : Int), (depth.val : Int)) := by
  unfold GetResolutionIndex at h
  split at h
  · cases h
  · rename_i width height _
    simp only [] at h
    split at h
    · cases h
    · rename_i ci hci
      split at h
      · cases h
      · rename_i di hdi
        cases h
        obtain ⟨c, hc⟩ := fallback_range _ cf ci (searchLoop_range _ _ 64 0) hci
        obtain ⟨d, hd⟩ := fallback_range _ df di (searchLoop_range _ _ 64 0) hdi
        exact ⟨c, d, by rw [hc, hd]⟩

theorem Open_rejects (dev : DeviceReply) (params : InitParams) (s : Camera Img)
    (h : params.framerate > 60 ∨
      (params.framerate > 30 ∧ s.stream_mode_ = StreamMode.STREAM_2560x720)) :
    Open dev params s = Except.ok (ErrorCode.ERROR_FAILURE, s) := by
  unfold Open
  rcases h with h | ⟨h1, h2⟩
  · by_cases hc : s.stream_mode_ = StreamMode.STREAM_2560x720 ∧ params.framerate > 30
    · simp only [hc, and_self, if_true]
    · simp only [hc, if_false, h, if_true]
  · simp only [h1, h2, and_self, if_true]

theorem openConfigure_frame (params : InitParams) (s : Camera Img) :
    (openConfigure params s).dev_sel_info_index = params.dev_index ∧
    (openConfigure params s).stream_mode_ = s.stream_mode_ ∧
    (openConfigure params s).is_enable_right = s.is_enable_right := by
  unfold openConfigure
  by_cases h1 : params.framerate > 0 <;>
    by_cases h2 : params.dev_index = s.stream_info_dev_index_ <;> simp [h1, h2]

theorem openDevice_frame (dev : DeviceReply) (s : Camera Img) :
    (openDevice dev s).1 ≠ ErrorCode.ERROR_FAILURE ∧
    ((openDevice dev s).2.dev_sel_info_index = s.dev_sel_info_index ∨
      (openDevice dev s).2.dev_sel_info_index = -1) ∧
    (openDevice dev s).2.color_res_index_ = s.color_res_index_ ∧
    (openDevice dev s).2.depth_res_index_ = s.depth_res_index_ := by
  unfold openDevice StartHidTracking
  by_cases ho : dev.open_ok <;> by_cases hh : s.is_hid_exist_ <;>
    by_cases hk : dev.hid_ok <;>
    simp [ho, hh, hk, StartCaptureImage, StartSyntheticImage]

theorem Open_passes (dev : DeviceReply) (params : InitParams) (s : Camera Img)
    (h1 : ¬ (s.stream_mode_ = StreamMode.STREAM_2560x720 ∧ params.framerate > 30))
    (h2 : ¬ params.framerate > 60) (r : ErrorCode × Camera Img)
    (h : Open dev params s = Except.ok r) :
    r.1 ≠ ErrorCode.ERROR_FAILURE ∧
    (r.2.dev_sel_info_index = params.dev_index ∨ r.2.dev_sel_info_index = -1) ∧
    ∃ color depth : Fin 64, r.2.color_res_index_ = (color.val : Int) ∧
      r.2.depth_res_index_ = (depth.val : Int) := by
  unfold Open at h
  simp only [h1, h2, if_false] at h
  split at h
  · cases h
  · rename_i color depth hg
    obtain ⟨c, d, hcd⟩ := GetResolutionIndex_range _ _ _ _ _ _ hg
    simp only [Prod.mk.injEq] at hcd
    injection h with h
    subst h
    obtain ⟨a1, a2, a3, a4⟩ := openDevice_frame dev
      { openConfigure params s with color_res_index_ := color, depth_res_index_ := depth }
    refine ⟨a1, ?_, c, d, by rw [a3]; exact hcd.1, by rw [a4]; exact hcd.2⟩
    rcases a2 with a2 | a2
    · left; rw [a2]; exact (openConfigure_frame params s).1
    · right; exact a2

theorem Open_indices (dev : DeviceReply) (params : InitParams) (s : Camera Img)
    (r : ErrorCode × Camera Img) (h : Open dev params s = Except.ok r)
    (hne : r.1 ≠ ErrorCode.ERROR_FAILURE) :
    ∃ c d : Fin 64, r.2.color_res_index_ = (c.val : Int) ∧
      r.2.depth_res_index_ = (d.val : Int) := by
  by_cases h1 : s.stream_mode_ = StreamMode.STREAM_2560x720 ∧ params.framerate > 30
  · rw [Open_rejects dev params s (Or.inr ⟨h1.2, h1.1⟩)] at h
    injection h with h
    subst h
    exact absurd rfl hne
  · by_cases h2 : params.framerate > 60
    · rw [Open_rejects dev params s (Or.inl h2)] at h
      injection h with h
      subst h
      exact absurd rfl hne
    · exact (Open_passes dev params s h1 h2 r h).2.2

/-- C30. Open rejects excessive frame rates atomically: Open returns
ERROR_FAILURE with the state untouched whenever `params.framerate > 60`, or
`params.framerate > 30` while the camera's own `stream_mode_` is
STREAM_2560x720; EnableImageType sets that mode to STREAM_2560x720 for
IMAGE_RIGHT_COLOR and ALL and leaves it alone otherwise; and with another
`stream_mode_` a frame rate in (30, 60] is not rejected, whatever
`params.stream_mode` asks for. -/
theorem Open_framerate_check (dev : DeviceReply) (params : InitParams) (s : Camera Img) :
    (params.framerate > 60 ∨
      (params.framerate > 30 ∧ s.stream_mode_ = StreamMode.STREAM_2560x720) →
      Open dev params s = Except.ok (ErrorCode.ERROR_FAILURE, s)) ∧
    (∀ type, (EnableImageType type s).stream_mode_ =
      if type = ImageType.IMAGE_RIGHT_COLOR ∨ type = ImageType.ALL then
        StreamMode.STREAM_2560x720
      else s.stream_mode_) ∧
    (s.stream_mode_ ≠ StreamMode.STREAM_2560x720 → 30 < params.framerate →
      params.framerate ≤ 60 → ∀ r, Open dev params s = Except.ok r →
        r.1 ≠ ErrorCode.ERROR_FAILURE) := by
  refine ⟨Open_rejects dev params s, ?_, ?_⟩
  · intro type
    cases type <;> rfl
  · intro hs _ h60 r hr
    exact (Open_passes dev params s (fun h => hs h.1) (by omega) r hr).1

/-- Witness for C30: 61 frames per second is rejected; 31 is rejected once the
right stream is enabled; 2560x720 at 60 requested in the parameters alone
opens with SUCCESS. -/
theorem Open_framerate_check_witness :
    Open twoModeDevice { paramsWide60 with framerate := 61 } freshCamera =
      Except.ok (ErrorCode.ERROR_FAILURE, freshCamera) ∧
    Open twoModeDevice { params720 with framerate := 31 } rightEnabledCamera =
      Except.ok (ErrorCode.ERROR_FAILURE, rightEnabledCamera) ∧
    (∀ r, Open twoModeDevice paramsWide60 freshCamera = Except.ok r →
      r.1 ≠ ErrorCode.ERROR_FAILURE) ∧
    (Open twoModeDevice paramsWide60 freshCamera).map (fun r => r.1) =
      Except.ok ErrorCode.SUCCESS :=
  ⟨(Open_framerate_check twoModeDevice { paramsWide60 with framerate := 61 } freshCamera).1
      (Or.inl (by decide)),
   (Open_framerate_check twoModeDevice { params720 with framerate := 31 }
      rightEnabledCamera).1 (Or.inr ⟨by decide, rfl⟩),
   (Open_framerate_check twoModeDevice paramsWide60 freshCamera).2.2 (by decide) (by decide)
      (by decide),
   rfl⟩

theorem searchLoop_spec (test : ETRONDI_STREAM_INFO → Bool)
    (table : Fin 64 → ETRONDI_STREAM_INFO) :
    ∀ fuel i : Nat, i + fuel = 64 →
      (searchLoop test table fuel i = -1 ∧
        ∀ j : Fin 64, i ≤ j.val → test (table j) = false) ∨
      (∃ k : Fin 64, i ≤ k.val ∧ searchLoop test table fuel i = (k.val : Int) ∧
        test (table k) = true ∧
        ∀ j : Fin 64, i ≤ j.val → j.val < k.val → test (table j) = false) := by
  intro fuel
  induction fuel with
  | zero =>
    intro i hi
    left
    refine ⟨rfl, ?_⟩
    intro j hj
    exact absurd j.isLt (by omega)
  | succ fuel ih =>
    intro i hi
    have hlt : i < 64 := by omega
    unfold searchLoop
    simp only [hlt, dite_true]
    by_cases ht : test (table ⟨i, hlt⟩) = true
    · right
      refine ⟨⟨i, hlt⟩, le_refl _, by simp [ht], ht, ?_⟩
      intro j h1 h2
      exact absurd h2 (by simp; omega)
    · have htf : test (table ⟨i, hlt⟩) = false := by simpa using ht
      simp only [htf, Bool.false_eq_true, if_false]
      rcases ih (i + 1) (by omega) with ⟨h1, h2⟩ | ⟨k, hk1, hk2, hk3, hk4⟩
      · left
        refine ⟨h1, ?_⟩
        intro j hj
        by_cases hji : j.val = i
        · have : j = ⟨i, hlt⟩ := Fin.ext hji
          rw [this]; exact htf
        · exact h2 j (by omega)
      · right
        refine ⟨k, by omega, hk2, hk3, ?_⟩
        intro j hj1 hj2
        by_cases hji : j.val = i
        · have : j = ⟨i, hlt⟩ := Fin.ext hji
          rw [this]; exact htf
        · exact hk4 j (by omega) hj2

theorem searchLoop_least (test : ETRONDI_STREAM_INFO → Bool)
    (table : Fin 64 → ETRONDI_STREAM_INFO) :
    (searchLoop test table 64 0 = -1 ∧ ∀ j : Fin 64, test (table j) = false) ∨
    (∃ k : Fin 64, searchLoop test table 64 0 = (k.val : Int) ∧ IsLeastMatch test table k) := by
  rcases searchLoop_spec test table 64 0 rfl with ⟨h1, h2⟩ | ⟨k, _, hk2, hk3, hk4⟩
  · exact Or.inl ⟨h1, fun j => h2 j (Nat.zero_le _)⟩
  · exact Or.inr ⟨k, hk2, hk3, fun j hj => hk4 j (Nat.zero_le _) hj⟩

/-- The index a search leaves after the fallback to 0. -/
theorem resolved_index (test : ETRONDI_STREAM_INFO → Bool)
    (table : Fin 64 → ETRONDI_STREAM_INFO) (fmt : StreamFormat)
    (hf : fmt ≠ StreamFormat.STREAM_FORMAT_LAST) :
    ∃ k : Fin 64,
      (if searchLoop test table 64 0 = -1 then
          (get_stream_format_string fmt).map (fun _ => (0 : Int))
        else Except.ok (searchLoop test table 64 0)) = Except.ok (k.val : Int) ∧
      ((∃ j : Fin 64, test (table j) = true) → IsLeastMatch test table k) ∧
      ((∀ j : Fin 64, test (table j) = false) → k = 0) := by
  rcases searchLoop_least test table with ⟨h1, h2⟩ | ⟨k, hk1, hk2⟩
  · refine ⟨0, ?_, ?_, fun _ => rfl⟩
    · rw [h1]
      cases fmt <;> first | rfl | exact absurd rfl hf
    · rintro ⟨j, hj⟩
      rw [h2 j] at hj
      exact absurd hj (by decide)
  · refine ⟨k, ?_, fun _ => hk2, ?_⟩
    · rw [hk1]
      have : ¬ ((k.val : Int) = -1) := by omega
      simp [this]
    · intro hall
      have hk := hk2.1
      rw [hall k] at hk
      exact absurd hk (by decide)

/-- C29 (amended). Resolution indices are in bounds: with `width` and `height`
those of the stream mode in effect (the camera's own `stream_mode_` when the
right-colour stream is enabled, the requested stream mode otherwise) and valid
formats, GetResolutionIndex returns a colour index that is the least index in
0..63 whose entry has that width, that height and the requested colour format,
and a depth index that is the least index in 0..63 whose entry has that height
and the requested depth format, each being 0 when no entry qualifies; both lie
in 0..63, and so do the two indices Open stores whenever it gets past its
frame-rate check. -/
theorem GetResolutionIndex_in_bounds (dev : DeviceReply) (s : Camera Img)
    (stream_mode : StreamMode) (color_stream_format depth_stream_format : StreamFormat)
    (width height : Int)
    (hsz : (if s.is_enable_right then get_stream_size s.stream_mode_
            else get_stream_size stream_mode) = Except.ok (width, height))
    (hcf : color_stream_format ≠ StreamFormat.STREAM_FORMAT_LAST)
    (hdf : depth_stream_format ≠ StreamFormat.STREAM_FORMAT_LAST) :
    ∃ color depth : Fin 64,
      GetResolutionIndex dev s stream_mode color_stream_format depth_stream_format =
        Except.ok ((color.val : Int), (depth.val : Int)) ∧
      ((∃ j, colorTest width height color_stream_format (dev.color_table j) = true) →
        IsLeastMatch (colorTest width height color_stream_format) dev.color_table color) ∧
      ((∀ j, colorTest width height color_stream_format (dev.color_table j) = false) →
        color = 0) ∧
      ((∃ j, depthTest height depth_stream_format (dev.depth_table j) = true) →
        IsLeastMatch (depthTest height depth_stream_format) dev.depth_table depth) ∧
      ((∀ j, depthTest height depth_stream_format (dev.depth_table j) = false) →
        depth = 0) ∧
      (∀ params r, Open dev params s = Except.ok r → r.1 ≠ ErrorCode.ERROR_FAILURE →
        ∃ c d : Fin 64, r.2.color_res_index_ = (c.val : Int) ∧
          r.2.depth_res_index_ = (d.val : Int)) := by
  obtain ⟨c, hc1, hc2, hc3⟩ := resolved_index (colorTest width height color_stream_format)
    dev.color_table color_stream_format hcf
  obtain ⟨d, hd1, hd2, hd3⟩ := resolved_index (depthTest height depth_stream_format)
    dev.depth_table depth_stream_format hdf
  refine ⟨c, d, ?_, hc2, hc3, hd2, hd3, fun params r h hne => Open_indices dev params s r h hne⟩
  unfold GetResolutionIndex
  rw [hsz]
  simp only []
  rw [hc1]
  simp only []
  rw [hd1]

/-- Witness for C29: 2560x720 YUYV is entry 1 of the colour list; the depth
search, which ignores the width, stops at entry 0. -/
theorem GetResolutionIndex_in_bounds_witness :
    (∃ color depth : Fin 64,
      GetResolutionIndex twoModeDevice freshCamera StreamMode.STREAM_2560x720
        StreamFormat.STREAM_YUYV StreamFormat.STREAM_YUYV =
        Except.ok ((color.val : Int), (depth.val : Int))) ∧
    GetResolutionIndex twoModeDevice freshCamera StreamMode.STREAM_2560x720
      StreamFormat.STREAM_YUYV StreamFormat.STREAM_YUYV = Except.ok (1, 0) := by
  obtain ⟨c, d, h, _⟩ := GetResolutionIndex_in_bounds twoModeDevice freshCamera
    StreamMode.STREAM_2560x720 StreamFormat.STREAM_YUYV StreamFormat.STREAM_YUYV 2560 720
    rfl (by decide) (by decide)
  exact ⟨⟨c, d, h⟩, rfl⟩

/-- C29, counterexample: with the right stream enabled and 1280x720 YUYV
requested, entry 0 of the colour list matches the request, yet the colour index
is 1, the entry of the camera's own 2560x720 mode. -/
theorem GetResolutionIndex_right_enabled :
    rightEnabledCamera.is_enable_right = true ∧
    rightEnabledCamera.stream_mode_ = StreamMode.STREAM_2560x720 ∧
    get_stream_size StreamMode.STREAM_1280x720 = Except.ok (1280, 720) ∧
    colorTest 1280 720 StreamFormat.STREAM_YUYV (twoModeDevice.color_table 0) = true ∧
    GetResolutionIndex twoModeDevice rightEnabledCamera StreamMode.STREAM_1280x720
      StreamFormat.STREAM_YUYV StreamFormat.STREAM_YUYV = Except.ok (1, 0) :=
  ⟨rfl, rfl, rfl, rfl, rfl⟩

end OpenProofs

/-! ## Theorems: locking discipline -/

section LockProofs

/-- C21, evaluation of the locking discipline: SyntheticImageColor touches
`img_info_` holding only `cap_color_mtx_`, ImageInfoCallback touches it holding
only `mtx_img_info_`, so no mutex guards every access to `img_info_`; each of
the other shared lists is guarded by one mutex. -/
theorem img_info_not_guarded :
    (locksets [] Routine.SyntheticImageColor.body).filter
        (fun a => a.1 == SharedList.img_info_) =
      [(SharedList.img_info_, [Mutex.cap_color_mtx_]),
       (SharedList.img_info_, [Mutex.cap_color_mtx_]),
       (SharedList.img_info_, [Mutex.cap_color_mtx_])] ∧
    locksets [] Routine.ImageInfoCallback.body =
      [(SharedList.img_info_, [Mutex.mtx_img_info_])] ∧
    (∀ m, guardedBy SharedList.img_info_ m = false) ∧
    guardedBy SharedList.image_color_ Mutex.cap_color_mtx_ = true ∧
    guardedBy SharedList.left_color_data_ Mutex.cap_color_mtx_ = true ∧
    guardedBy SharedList.right_color_data_ Mutex.cap_color_mtx_ = true ∧
    guardedBy SharedList.image_depth_ Mutex.cap_depth_mtx_ = true ∧
    guardedBy SharedList.depth_data_ Mutex.cap_depth_mtx_ = true ∧
    guardedBy SharedList.imu_data_ Mutex.mtx_imu_ = true := by
  refine ⟨by decide, by decide, ?_, by decide, by decide, by decide, by decide, by decide,
    by decide⟩
  intro m
  cases m <;> decide

end LockProofs

end MyntEye
